import Mathlib

/-!
# BansheeEngine: render-target composition over cached texture views

A shallow embedding of `BansheeCore/Source/BsMultiRenderTexture.cpp`, of
`CamelotUtility/Include/CmAsyncOp.h`, of the descriptor functors of
`CamelotRenderer/Source/CmTextureView.cpp` and `CmGpuBufferView.cpp`, of
`Material::setParam` of `CamelotCore/Include/CmMaterial.h` and of
`BansheeEngine/Source/BsDragAndDropManager.cpp` (the `Cm` files still use the engine's
earlier namespaces, `CamelotEngine` and `CamelotFramework`).

* C++ objects reached through shared pointers (`TexturePtr`, `TextureViewPtr`) are
  records; a null pointer is `none`.
* A method that mutates `this` and may throw returns the exception (if any) together
  with the state reached at the point of the throw: C++ performs no roll-back when an
  exception leaves `initialize`, so whatever was written before the throw stays written.
* The view cache behind `Texture::requestView` / `Texture::releaseView` is global
  state threaded explicitly (`ViewCache`).
* The `AsyncOpData` cells behind `std::shared_ptr` live in an explicit store
  (`AsyncOpStore`); an `AsyncOp` is the address of its cell, so copies share the cell.
* Calls into code outside these files (GPU parameter sets, drop callbacks) are recorded
  in a list, oldest first, so that which calls are made, and in which order, can be stated.
-/

namespace BansheeEngine

/-! ## Declarations the source relies on (headers outside the sources at hand) -/

/-- Values of `texture->getUsage()`. -/
inductive TextureUsage where
  | TU_STATIC
  | TU_DYNAMIC
  | TU_RENDERTARGET
  | TU_DEPTHSTENCIL
  | TU_DEFAULT
  deriving DecidableEq, Repr

/-- Values of `texture->getTextureType()`. -/
inductive TextureType where
  | TEX_TYPE_1D
  | TEX_TYPE_2D
  | TEX_TYPE_3D
  | TEX_TYPE_CUBE_MAP
  deriving DecidableEq, Repr

/-- Usage a view is requested with. -/
inductive GpuViewUsage where
  | GVU_DEFAULT
  | GVU_RENDERTARGET
  | GVU_DEPTHSTENCIL
  | GVU_RANDOMWRITE
  deriving DecidableEq, Repr

/-- The object behind a `TexturePtr`, as far as `MultiRenderTexture` reads it. `id` stands
for the identity of the object (two textures with equal properties are still two
resources); the other fields are what the getters `getWidth`, `getHeight`, `getFormat`,
`getUsage`, `getTextureType`, `getNumFaces`, `getNumMipmaps`, `isHardwareGammaEnabled`,
`getMultisampleCount`, `getMultisampleHint` return. -/
structure Texture where
  id : Nat
  width : Nat
  height : Nat
  format : Nat
  usage : TextureUsage
  textureType : TextureType
  numFaces : Nat
  numMipmaps : Nat
  hwGamma : Bool
  multisampleCount : Nat
  multisampleHint : String
  deriving DecidableEq, Repr

/-- The key of a texture view, `TEXTURE_VIEW_DESC` (compared field by field by
`TextureView::EqualFunction`). -/
structure TEXTURE_VIEW_DESC where
  mostDetailMip : Nat
  numMips : Nat
  firstArraySlice : Nat
  numArraySlices : Nat
  usage : GpuViewUsage
  deriving DecidableEq, Repr

/-- The object behind a `TextureViewPtr`: the texture it was requested on
(`getTexture()`) and its descriptor (`getMostDetailedMip()`, `getFirstArraySlice()`,
`getNumArraySlices()` read `mDesc`). -/
structure TextureView where
  texture : Texture
  mDesc : TEXTURE_VIEW_DESC
  deriving DecidableEq, Repr

/-- One entry of the configuration, `RENDER_SURFACE_DESC`; `texture = none` is the null
`TexturePtr`. -/
structure RENDER_SURFACE_DESC where
  texture : Option Texture
  face : Nat
  numFaces : Nat
  mipLevel : Nat
  deriving DecidableEq, Repr

/-- The argument of `MultiRenderTexture::initialize`. `colorSurfaces` is a vector whose
size the caller chooses. -/
structure MULTI_RENDER_TEXTURE_DESC where
  colorSurfaces : List RENDER_SURFACE_DESC
  depthStencilSurface : RENDER_SURFACE_DESC
  deriving DecidableEq, Repr

/-- The exception classes thrown through `BS_EXCEPT` / `CM_EXCEPT`, `std::exception`
itself, and `boost::bad_any_cast`. A value names the class an exception object was
created with. -/
inductive ExceptionKind where
  | InvalidParametersException
  | NotImplementedException
  | InternalErrorException
  | StdException
  | bad_any_cast
  deriving DecidableEq, Repr

/-- The fixed part of the message an exception is thrown with (the values appended to it
for diagnostics are left out). The two "don't match" throws of
`throwIfBuffersDontMatch` carry the same text and share `buffersDontMatch`. -/
inductive ExceptionText where
  | notRenderTargetUsage
  | notDepthStencilUsage
  | buffersDontMatch
  | onlyImplementedFor2D
  | facesOutOfRange
  | mipMapsOutOfRange
  | viewDoesNotExist
  | notImplemented
  | asyncOpNotCompleted
  | failedConversion
  | materialNotInitialized
  | parameterNotFound
  deriving DecidableEq, Repr

/-- A thrown exception. -/
structure Exception where
  kind : ExceptionKind
  text : ExceptionText
  deriving DecidableEq, Repr

/-- The constant `BS_MAX_MULTIPLE_RENDER_TARGETS` and the function
`PixelUtil::getNumElemBits`, both declared outside the sources at hand and taken as
parameters. -/
structure EngineDecls where
  BS_MAX_MULTIPLE_RENDER_TARGETS : Nat
  getNumElemBits : Nat → Nat

/-! ## The view cache -/

/-- A call made into the view cache. -/
inductive ViewCall where
  | request (view : TextureView)
  | release (view : TextureView)
  deriving DecidableEq, Repr

/-- The state of the view cache: the reference count held for each (texture, descriptor)
pair, `0` meaning that the pair has no entry, and the calls made so far, oldest first. -/
structure ViewCache where
  refCount : Texture → TEXTURE_VIEW_DESC → Nat
  calls : List ViewCall

/-- Overwrite the count kept for one (texture, descriptor) pair. -/
def ViewCache.setCount (c : ViewCache) (texture : Texture) (desc : TEXTURE_VIEW_DESC)
    (n : Nat) : Texture → TEXTURE_VIEW_DESC → Nat :=
  fun t d => if t = texture ∧ d = desc then n else c.refCount t d

/-- Modelled from the spec: `Texture::requestView` (its body is not in the sources at
hand). "If an entry with an equal descriptor already exists for that base resource, its
reference count is incremented and the existing view returned; otherwise a new
ResourceView is constructed, inserted keyed by (baseResource, descriptor), and returned
with count 1." -/
def Texture.requestView (texture : Texture) (mostDetailMip numMips firstArraySlice
    numArraySlices : Nat) (usage : GpuViewUsage) (c : ViewCache) :
    TextureView × ViewCache :=
  let desc : TEXTURE_VIEW_DESC :=
    { mostDetailMip := mostDetailMip, numMips := numMips,
      firstArraySlice := firstArraySlice, numArraySlices := numArraySlices,
      usage := usage }
  let view : TextureView := { texture := texture, mDesc := desc }
  let calls := c.calls ++ [ViewCall.request view]
  if c.refCount texture desc = 0 then
    (view, { refCount := c.setCount texture desc 1, calls := calls })
  else
    (view, { refCount := c.setCount texture desc (c.refCount texture desc + 1),
             calls := calls })

/-- Modelled from the spec: `Texture::releaseView` (its body is not in the sources at
hand). "Decrements the reference count for the entry matching the view's originating
base resource and descriptor; when the count reaches zero the view is destroyed and the
entry removed. Releasing a view not present, or over-releasing, is a programming
error." -/
def Texture.releaseView (view : TextureView) (c : ViewCache) :
    Option Exception × ViewCache :=
  let calls := c.calls ++ [ViewCall.release view]
  if c.refCount view.texture view.mDesc = 0 then
    (some { kind := ExceptionKind.InternalErrorException,
            text := ExceptionText.viewDoesNotExist },
     { refCount := c.refCount, calls := calls })
  else
    (none, { refCount := c.setCount view.texture view.mDesc
                           (c.refCount view.texture view.mDesc - 1),
             calls := calls })

/-- The reference count the cache holds for a view. -/
def ViewCache.countOf (c : ViewCache) (view : TextureView) : Nat :=
  c.refCount view.texture view.mDesc

/-! ## MultiRenderTexture -/

/-- The fields of the base class `RenderTarget` that `MultiRenderTexture::initialize`
assigns. -/
structure RenderTarget where
  mWidth : Nat
  mHeight : Nat
  mColorDepth : Nat
  mActive : Bool
  mHwGamma : Bool
  mMultisampleCount : Nat
  mMultisampleHint : String
  deriving DecidableEq, Repr

/-- The object state of a `MultiRenderTexture`. -/
structure MultiRenderTexture extends RenderTarget where
  mColorSurfaces : List (Option TextureView)
  mDepthStencilSurface : Option TextureView
  deriving DecidableEq, Repr

/-- The state a method leaves behind, and the exception it threw (`none`: it returned). -/
structure Outcome where
  error : Option Exception
  target : MultiRenderTexture
  cache : ViewCache

/-- `MultiRenderTexture::MultiRenderTexture()`: the colour slot vector is resized to
`BS_MAX_MULTIPLE_RENDER_TARGETS` null entries and the depth/stencil pointer is null.
`base` is whatever the base-class constructor left in the `RenderTarget` fields. -/
def MultiRenderTexture.ctor (E : EngineDecls) (base : RenderTarget) :
    MultiRenderTexture :=
  { base with
    mColorSurfaces := List.replicate E.BS_MAX_MULTIPLE_RENDER_TARGETS none
    mDepthStencilSurface := none }

/-- The loop of `initialize` over `desc.colorSurfaces`, from index `i` on;
`colorSurfacePropertiesSet` is the local flag of that name. An entry without a texture
is passed over; one with a texture at an index that is not below
`BS_MAX_MULTIPLE_RENDER_TARGETS` is logged and passed over; otherwise the usage is
checked, the view requested and stored in slot `i`, and the first entry to get that far
sets the derived properties. -/
def MultiRenderTexture.bindColorSurfaces (E : EngineDecls) :
    List RENDER_SURFACE_DESC → Nat → Bool → MultiRenderTexture → ViewCache → Outcome
  | [], _, _, t, c => { error := none, target := t, cache := c }
  | d :: rest, i, colorSurfacePropertiesSet, t, c =>
    match d.texture with
    | none => bindColorSurfaces E rest (i + 1) colorSurfacePropertiesSet t c
    | some texture =>
      if i ≥ E.BS_MAX_MULTIPLE_RENDER_TARGETS then
        bindColorSurfaces E rest (i + 1) colorSurfacePropertiesSet t c
      else if texture.usage ≠ TextureUsage.TU_RENDERTARGET then
        { error := some { kind := ExceptionKind.InvalidParametersException,
                          text := ExceptionText.notRenderTargetUsage },
          target := t, cache := c }
      else
        let r := Texture.requestView texture d.mipLevel 1 d.face d.numFaces
          GpuViewUsage.GVU_RENDERTARGET c
        let t1 : MultiRenderTexture :=
          { t with mColorSurfaces := t.mColorSurfaces.set i (some r.1) }
        let t2 : MultiRenderTexture :=
          if colorSurfacePropertiesSet then t1
          else
            { t1 with
              mWidth := texture.width
              mHeight := texture.width
              mColorDepth := E.getNumElemBits texture.format
              mActive := true
              mHwGamma := texture.hwGamma
              mMultisampleCount := texture.multisampleCount
              mMultisampleHint := texture.multisampleHint }
        bindColorSurfaces E rest (i + 1) true t2 r.2

/-- The test of the two "don't match" throws: texture `a` differs from texture `b` in
width, height, multisample count or multisample hint. -/
def MultiRenderTexture.dontMatch (a b : Texture) : Prop :=
  a.width ≠ b.width ∨ a.height ≠ b.height ∨
    a.multisampleCount ≠ b.multisampleCount ∨ a.multisampleHint ≠ b.multisampleHint

instance (a b : Texture) : Decidable (MultiRenderTexture.dontMatch a b) :=
  inferInstanceAs (Decidable (a.width ≠ b.width ∨ a.height ≠ b.height ∨
    a.multisampleCount ≠ b.multisampleCount ∨ a.multisampleHint ≠ b.multisampleHint))

/-- The loop of `throwIfBuffersDontMatch` over `mColorSurfaces`; the second argument is
`firstSurfaceDesc`. It returns the final `firstSurfaceDesc`, or the exception thrown. -/
def MultiRenderTexture.matchColorSurfaces :
    List (Option TextureView) → Option TextureView → Except Exception (Option TextureView)
  | [], firstSurfaceDesc => Except.ok firstSurfaceDesc
  | none :: rest, firstSurfaceDesc => matchColorSurfaces rest firstSurfaceDesc
  | some surface :: rest, none => matchColorSurfaces rest (some surface)
  | some surface :: rest, some first =>
    if MultiRenderTexture.dontMatch surface.texture first.texture then
      Except.error { kind := ExceptionKind.InvalidParametersException,
                     text := ExceptionText.buffersDontMatch }
    else matchColorSurfaces rest (some first)

/-- `MultiRenderTexture::throwIfBuffersDontMatch() const`. The slice fields are `UINT32`,
so their sum is taken modulo `2 ^ 32`. -/
def MultiRenderTexture.throwIfBuffersDontMatch (t : MultiRenderTexture) :
    Except Exception Unit :=
  match MultiRenderTexture.matchColorSurfaces t.mColorSurfaces none with
  | Except.error e => Except.error e
  | Except.ok none => Except.ok ()
  | Except.ok (some firstSurfaceDesc) =>
    if firstSurfaceDesc.texture.textureType ≠ TextureType.TEX_TYPE_2D then
      Except.error { kind := ExceptionKind.NotImplementedException,
                     text := ExceptionText.onlyImplementedFor2D }
    else if (firstSurfaceDesc.mDesc.firstArraySlice
        + firstSurfaceDesc.mDesc.numArraySlices) % 2 ^ 32
        ≥ firstSurfaceDesc.texture.numFaces then
      Except.error { kind := ExceptionKind.InvalidParametersException,
                     text := ExceptionText.facesOutOfRange }
    else if firstSurfaceDesc.mDesc.mostDetailMip ≥ firstSurfaceDesc.texture.numMipmaps then
      Except.error { kind := ExceptionKind.InvalidParametersException,
                     text := ExceptionText.mipMapsOutOfRange }
    else
      match t.mDepthStencilSurface with
      | none => Except.ok ()
      | some depthStencil =>
        if MultiRenderTexture.dontMatch depthStencil.texture firstSurfaceDesc.texture then
          Except.error { kind := ExceptionKind.InvalidParametersException,
                         text := ExceptionText.buffersDontMatch }
        else Except.ok ()

/-- The end of `initialize`: `throwIfBuffersDontMatch()`, then `RenderTarget::initialize()`
(the base-class call touches none of the state kept here). -/
def MultiRenderTexture.validate (t : MultiRenderTexture) (c : ViewCache) : Outcome :=
  match MultiRenderTexture.throwIfBuffersDontMatch t with
  | Except.error e => { error := some e, target := t, cache := c }
  | Except.ok _ => { error := none, target := t, cache := c }

/-- `MultiRenderTexture::initialize(const MULTI_RENDER_TEXTURE_DESC& desc)` run on the
object `t` with the view cache in state `c`. -/
def MultiRenderTexture.initialize (E : EngineDecls) (desc : MULTI_RENDER_TEXTURE_DESC)
    (t : MultiRenderTexture) (c : ViewCache) : Outcome :=
  let o := MultiRenderTexture.bindColorSurfaces E desc.colorSurfaces 0 false t c
  match o.error with
  | some _ => o
  | none =>
    match desc.depthStencilSurface.texture with
    | none => MultiRenderTexture.validate o.target o.cache
    | some texture =>
      if texture.usage ≠ TextureUsage.TU_DEPTHSTENCIL then
        { error := some { kind := ExceptionKind.InvalidParametersException,
                          text := ExceptionText.notDepthStencilUsage },
          target := o.target, cache := o.cache }
      else
        let r := Texture.requestView texture desc.depthStencilSurface.mipLevel 1
          desc.depthStencilSurface.face desc.depthStencilSurface.numFaces
          GpuViewUsage.GVU_DEPTHSTENCIL o.cache
        MultiRenderTexture.validate
          { o.target with mDepthStencilSurface := some r.1 } r.2

/-- The loop of `destroy_internal` over `mColorSurfaces`: every non-null entry is
released; an exception thrown by `Texture::releaseView` leaves the loop. -/
def MultiRenderTexture.releaseColorSurfaces :
    List (Option TextureView) → ViewCache → Option Exception × ViewCache
  | [], c => (none, c)
  | none :: rest, c => releaseColorSurfaces rest c
  | some view :: rest, c =>
    match Texture.releaseView view c with
    | (some e, c1) => (some e, c1)
    | (none, c1) => releaseColorSurfaces rest c1

/-- `MultiRenderTexture::destroy_internal()` (the closing call of
`RenderTarget::destroy_internal()` touches none of the state kept here). The slots
themselves are not reset. -/
def MultiRenderTexture.destroy_internal (t : MultiRenderTexture) (c : ViewCache) :
    Outcome :=
  match MultiRenderTexture.releaseColorSurfaces t.mColorSurfaces c with
  | (some e, c1) => { error := some e, target := t, cache := c1 }
  | (none, c1) =>
    match t.mDepthStencilSurface with
    | none => { error := none, target := t, cache := c1 }
    | some view =>
      match Texture.releaseView view c1 with
      | (e, c2) => { error := e, target := t, cache := c2 }

/-- `MultiRenderTexture::copyToMemory(PixelData &dst, FrameBuffer buffer)`: the body is
the single statement `throw std::exception("The method or operation is not
implemented.")`. `PixelData` and `FrameBuffer` are declared outside the sources at hand
and are left as type parameters; the destination is returned as it was passed. -/
def MultiRenderTexture.copyToMemory {PixelData FrameBuffer : Type}
    (_t : MultiRenderTexture) (dst : PixelData) (_buffer : FrameBuffer) :
    Option Exception × PixelData :=
  (some { kind := ExceptionKind.StdException, text := ExceptionText.notImplemented }, dst)

/-! ## AsyncOp (`CmAsyncOp.h`) -/

/-- The library type `boost::any` over a family of value types: `U` names the types a
value may have (compared as `typeid` compares them) and `El T` is the type of the values
of type `T`. An `any` is empty (`none`) or holds a value together with its type. -/
def boost.any (U : Type) (El : U → Type) : Type :=
  Option (Σ T : U, El T)

/-- The `any` that the conversion from a value `v` of type `T` builds, as in
`completeOperation(42)`. -/
def boost.any.of {U : Type} {El : U → Type} (T : U) (v : El T) : boost.any U El :=
  some ⟨T, v⟩

/-- The exception of `boost::any_cast`. -/
def badAnyCastException : Exception :=
  { kind := ExceptionKind.bad_any_cast, text := ExceptionText.failedConversion }

/-- The exception `getReturnValue` throws under `CM_DEBUG_MODE` (line 55 of the header). -/
def notCompletedException : Exception :=
  { kind := ExceptionKind.InternalErrorException,
    text := ExceptionText.asyncOpNotCompleted }

/-- The library function `boost::any_cast<T>(operand)`: the held value when the operand
holds a value of exactly the type `T`, and `bad_any_cast` thrown otherwise, also on an
empty operand. -/
def boost.any_cast {U : Type} [DecidableEq U] {El : U → Type} (T : U)
    (operand : boost.any U El) : Except Exception (El T) :=
  match operand with
  | none => Except.error badAnyCastException
  | some ⟨S, v⟩ =>
    if h : S = T then Except.ok (h ▸ v) else Except.error badAnyCastException

/-- The private struct `AsyncOp::AsyncOpData`. -/
structure AsyncOp.AsyncOpData (U : Type) (El : U → Type) where
  mReturnValue : boost.any U El
  mIsCompleted : Bool

/-- An `AsyncOp` object: its one member `mData`, a `std::shared_ptr<AsyncOpData>`, given
as the address of the cell it points to. -/
structure AsyncOp where
  mData : Nat
  deriving DecidableEq, Repr

/-- The free store, as far as `AsyncOpData` cells go: the cell at each address and the
next address `new AsyncOpData()` hands out (the addresses below `next` are in use). -/
structure AsyncOpStore (U : Type) (El : U → Type) where
  cells : Nat → AsyncOp.AsyncOpData U El
  next : Nat

/-- Overwrite the cell at one address. -/
def AsyncOpStore.write {U : Type} {El : U → Type} (s : AsyncOpStore U El) (address : Nat)
    (cell : AsyncOp.AsyncOpData U El) : AsyncOpStore U El :=
  { cells := fun a => if a = address then cell else s.cells a, next := s.next }

/-- The constructor `AsyncOp() : mData(new AsyncOpData())`, where `AsyncOpData()` sets
`mIsCompleted(false)` and default-constructs the `any`, which is then empty. -/
def AsyncOp.ctor {U : Type} {El : U → Type} (s : AsyncOpStore U El) :
    AsyncOp × AsyncOpStore U El :=
  ({ mData := s.next },
   { cells := fun a =>
       if a = s.next then { mReturnValue := none, mIsCompleted := false } else s.cells a,
     next := s.next + 1 })

/-- The implicit copy constructor: the `shared_ptr` is copied, so the copy points to the
same cell. -/
def AsyncOp.copy (op : AsyncOp) : AsyncOp :=
  { mData := op.mData }

/-- The method `bool hasCompleted() const`, which returns `mData->mIsCompleted`. -/
def AsyncOp.hasCompleted {U : Type} {El : U → Type} (op : AsyncOp)
    (s : AsyncOpStore U El) : Bool :=
  (s.cells op.mData).mIsCompleted

/-- The method `void completeOperation(boost::any returnValue)`:
`mData->mReturnValue = returnValue; mData->mIsCompleted = true;`. -/
def AsyncOp.completeOperation {U : Type} {El : U → Type} (op : AsyncOp)
    (returnValue : boost.any U El) (s : AsyncOpStore U El) : AsyncOpStore U El :=
  s.write op.mData { mReturnValue := returnValue, mIsCompleted := true }

/-- The method `void completeOperation()`: `mData->mIsCompleted = true;`. -/
def AsyncOp.completeOperationNoValue {U : Type} {El : U → Type} (op : AsyncOp)
    (s : AsyncOpStore U El) : AsyncOpStore U El :=
  s.write op.mData { (s.cells op.mData) with mIsCompleted := true }

/-- The method `template <typename T> T getReturnValue() const`. The test of
`hasCompleted()` is compiled in only when `CM_DEBUG_MODE` is set; the return statement
is `boost::any_cast<T>(mData->mReturnValue)`. -/
def AsyncOp.getReturnValue {U : Type} [DecidableEq U] {El : U → Type}
    (CM_DEBUG_MODE : Bool) (T : U) (op : AsyncOp) (s : AsyncOpStore U El) :
    Except Exception (El T) :=
  if CM_DEBUG_MODE = true ∧ op.hasCompleted s = false then
    Except.error notCompletedException
  else
    boost.any_cast T (s.cells op.mData).mReturnValue

/-- A call a program makes on `AsyncOp` objects. -/
inductive AsyncOp.Call (U : Type) (El : U → Type) where
  | construct
  | hasCompleted (op : AsyncOp)
  | getReturnValue (op : AsyncOp) (T : U)
  | completeOperation (op : AsyncOp) (returnValue : boost.any U El)
  | completeOperationNoValue (op : AsyncOp)

/-- The store after a call: the two `const` methods leave it as it is. -/
def AsyncOp.Call.run {U : Type} {El : U → Type} :
    AsyncOp.Call U El → AsyncOpStore U El → AsyncOpStore U El
  | AsyncOp.Call.construct, s => (AsyncOp.ctor s).2
  | AsyncOp.Call.hasCompleted _, s => s
  | AsyncOp.Call.getReturnValue _ _, s => s
  | AsyncOp.Call.completeOperation op returnValue, s => op.completeOperation returnValue s
  | AsyncOp.Call.completeOperationNoValue op, s => op.completeOperationNoValue s

/-- The store after a sequence of calls, made in order. -/
def AsyncOp.runCalls {U : Type} {El : U → Type} (calls : List (AsyncOp.Call U El))
    (s : AsyncOpStore U El) : AsyncOpStore U El :=
  calls.foldl (fun s call => call.run s) s

/-- Whether a call is one of the two `completeOperation` overloads made on an object
whose `mData` points to the given address. -/
def AsyncOp.Call.completes {U : Type} {El : U → Type} (address : Nat) :
    AsyncOp.Call U El → Bool
  | AsyncOp.Call.completeOperation op _ => op.mData = address
  | AsyncOp.Call.completeOperationNoValue op => op.mData = address
  | _ => false

/-! ## The descriptor functors (`CmTextureView.cpp`, `CmGpuBufferView.cpp`) -/

/-- The key of a buffer view, `GPU_BUFFER_DESC`, with the five fields the functors of
`GpuBufferView` read. -/
structure GPU_BUFFER_DESC where
  elementWidth : Nat
  firstElement : Nat
  numElements : Nat
  useCounter : Bool
  usage : GpuViewUsage
  deriving DecidableEq, Repr

/-- The function template `hash_combine(seed, value)` of `CmUtil.h`, which is outside the
sources at hand, at the three field types it is used on; it is taken as a parameter and
returns the new seed. -/
structure HashCombine where
  onUINT32 : Nat → Nat → Nat
  onBool : Nat → Bool → Nat
  onUsage : Nat → GpuViewUsage → Nat

/-- `TextureView::HashFunction::operator()`. -/
def TextureView.HashFunction (hash_combine : HashCombine) (key : TEXTURE_VIEW_DESC) : Nat :=
  let seed := 0
  let seed := hash_combine.onUINT32 seed key.mostDetailMip
  let seed := hash_combine.onUINT32 seed key.numMips
  let seed := hash_combine.onUINT32 seed key.firstArraySlice
  let seed := hash_combine.onUINT32 seed key.numArraySlices
  let seed := hash_combine.onUsage seed key.usage
  seed

/-- `TextureView::EqualFunction::operator()`. -/
def TextureView.EqualFunction (a b : TEXTURE_VIEW_DESC) : Bool :=
  a.mostDetailMip == b.mostDetailMip && a.numMips == b.numMips
    && a.firstArraySlice == b.firstArraySlice && a.numArraySlices == b.numArraySlices
    && a.usage == b.usage

/-- `GpuBufferView::HashFunction::operator()`. -/
def GpuBufferView.HashFunction (hash_combine : HashCombine) (key : GPU_BUFFER_DESC) : Nat :=
  let seed := 0
  let seed := hash_combine.onUINT32 seed key.elementWidth
  let seed := hash_combine.onUINT32 seed key.firstElement
  let seed := hash_combine.onUINT32 seed key.numElements
  let seed := hash_combine.onBool seed key.useCounter
  let seed := hash_combine.onUsage seed key.usage
  seed

/-- `GpuBufferView::EqualFunction::operator()`. -/
def GpuBufferView.EqualFunction (a b : GPU_BUFFER_DESC) : Bool :=
  a.elementWidth == b.elementWidth && a.firstElement == b.firstElement
    && a.numElements == b.numElements && a.useCounter == b.useCounter
    && a.usage == b.usage

/-- The first bound colour surface of a configuration: the texture of the entry of lowest
index below `BS_MAX_MULTIPLE_RENDER_TARGETS` that has one. -/
def firstBoundColorTexture (E : EngineDecls) (desc : MULTI_RENDER_TEXTURE_DESC) :
    Option Texture :=
  ((desc.colorSurfaces.take E.BS_MAX_MULTIPLE_RENDER_TARGETS).filterMap
    (fun d => d.texture)).head?

/-- The derived properties as lines 46 to 52 of the source assign them from a texture
(the height is assigned `getWidth()`). -/
def derivedProperties (E : EngineDecls) (texture : Texture) : RenderTarget :=
  { mWidth := texture.width
    mHeight := texture.width
    mColorDepth := E.getNumElemBits texture.format
    mActive := true
    mHwGamma := texture.hwGamma
    mMultisampleCount := texture.multisampleCount
    mMultisampleHint := texture.multisampleHint }

/-- The views in the colour slots of a target, in slot order. -/
def MultiRenderTexture.populated (t : MultiRenderTexture) : List TextureView :=
  t.mColorSurfaces.reduceOption

/-- The views a target holds, in the order `destroy_internal` visits them: the colour
slots in slot order, then the depth/stencil view. -/
def MultiRenderTexture.held (t : MultiRenderTexture) : List TextureView :=
  t.populated ++ t.mDepthStencilSurface.toList

/-- The view `initialize` requests for a colour entry that has a texture (lines 41-42):
mip `mipLevel`, one mip, slices `face` to `face + numFaces`, render-target usage. -/
def colorView (d : RENDER_SURFACE_DESC) : Option TextureView :=
  d.texture.map fun texture =>
    { texture := texture,
      mDesc := { mostDetailMip := d.mipLevel, numMips := 1, firstArraySlice := d.face,
                 numArraySlices := d.numFaces, usage := GpuViewUsage.GVU_RENDERTARGET } }

/-- The exception thrown at line 39. -/
def notRenderTargetException : Exception :=
  { kind := ExceptionKind.InvalidParametersException,
    text := ExceptionText.notRenderTargetUsage }

/-- The exception thrown at line 64. -/
def notDepthStencilException : Exception :=
  { kind := ExceptionKind.InvalidParametersException,
    text := ExceptionText.notDepthStencilUsage }

/-- The exception thrown at line 121. -/
def only2DException : Exception :=
  { kind := ExceptionKind.NotImplementedException,
    text := ExceptionText.onlyImplementedFor2D }

/-- The exception thrown at line 125. -/
def facesOutOfRangeException : Exception :=
  { kind := ExceptionKind.InvalidParametersException,
    text := ExceptionText.facesOutOfRange }

/-- The exception thrown at line 131. -/
def mipMapsOutOfRangeException : Exception :=
  { kind := ExceptionKind.InvalidParametersException,
    text := ExceptionText.mipMapsOutOfRange }

/-- The exception of the two "don't match" throws. -/
def dontMatchException : Exception :=
  { kind := ExceptionKind.InvalidParametersException,
    text := ExceptionText.buffersDontMatch }

/-- The view cache after `n` successive `Texture::requestView` calls on one texture with
one descriptor. -/
def Texture.requestViewTimes (texture : Texture) (desc : TEXTURE_VIEW_DESC) :
    Nat → ViewCache → ViewCache
  | 0, c => c
  | n + 1, c =>
    requestViewTimes texture desc n
      (Texture.requestView texture desc.mostDetailMip desc.numMips desc.firstArraySlice
        desc.numArraySlices desc.usage c).2

/-- The outcome of `n` successive `Texture::releaseView` calls on one view; a call that
throws ends the sequence. -/
def Texture.releaseViewTimes (view : TextureView) :
    Nat → ViewCache → Option Exception × ViewCache
  | 0, c => (none, c)
  | n + 1, c =>
    match Texture.releaseView view c with
    | (some e, c1) => (some e, c1)
    | (none, c1) => releaseViewTimes view n c1

/-- The exception of a release that finds no entry for the view. -/
def viewDoesNotExistException : Exception :=
  { kind := ExceptionKind.InternalErrorException, text := ExceptionText.viewDoesNotExist }

/-! ## DragAndDropManager (`BsDragAndDropManager.cpp`) -/

/-- The members of a `DragAndDropManager`. A `std::function<void(bool)>` is given by a
number that names it, `mData` (a `void*`) by an address, null being `none`; the two
atomics hold their current value. `invocations` is not a member: it lists the calls made
to drop callbacks so far, oldest first, each with the argument passed. -/
structure DragAndDropManager where
  mIsDragInProgress : Bool
  mDragTypeId : Nat
  mData : Option Nat
  mDropCallbacks : List Nat
  mCaptureChanged : Bool
  mCaptureActive : Nat
  mNeedsValidDropTarget : Bool
  invocations : List (Nat × Bool)
  deriving DecidableEq, Repr

/-- The constructor `DragAndDropManager::DragAndDropManager()` (its two `connect` calls
register `mouseCaptureChanged` and `cursorReleased` with the platform and the input
system and touch no member). -/
def DragAndDropManager.ctor : DragAndDropManager :=
  { mIsDragInProgress := false, mDragTypeId := 0, mData := none, mDropCallbacks := [],
    mCaptureChanged := false, mCaptureActive := 0, mNeedsValidDropTarget := false,
    invocations := [] }

/-- `DragAndDropManager::addDropCallback`: `mDropCallbacks.push_back(dropCallback)`. -/
def DragAndDropManager.addDropCallback (dropCallback : Nat) (m : DragAndDropManager) :
    DragAndDropManager :=
  { m with mDropCallbacks := m.mDropCallbacks ++ [dropCallback] }

/-- `DragAndDropManager::startDrag` (the closing `Platform::captureMouse` call touches no
member). -/
def DragAndDropManager.startDrag (typeId : Nat) (data : Option Nat) (dropCallback : Nat)
    (needsValidDropTarget : Bool) (m : DragAndDropManager) : DragAndDropManager :=
  let m1 := { m with mDragTypeId := typeId, mData := data,
                     mNeedsValidDropTarget := needsValidDropTarget }
  let m2 := DragAndDropManager.addDropCallback dropCallback m1
  { m2 with mIsDragInProgress := true, mCaptureActive := 0, mCaptureChanged := false }

/-- `DragAndDropManager::endDrag`: every callback of `mDropCallbacks` is called with
`processed`, in the order of the vector; then the members are reset. -/
def DragAndDropManager.endDrag (processed : Bool) (m : DragAndDropManager) :
    DragAndDropManager :=
  { m with
    invocations :=
      m.mDropCallbacks.foldl (fun log callback => log ++ [(callback, processed)])
        m.invocations
    mDragTypeId := 0
    mData := none
    mDropCallbacks := []
    mIsDragInProgress := false }

/-- `DragAndDropManager::_update`. -/
def DragAndDropManager._update (m : DragAndDropManager) : DragAndDropManager :=
  if m.mIsDragInProgress = false then m
  else
    let captureActive := m.mCaptureActive
    if captureActive = 0 ∧ m.mCaptureChanged = true then DragAndDropManager.endDrag false m
    else m

/-- `DragAndDropManager::mouseCaptureChanged`: `mCaptureActive.fetch_xor(1)`, then
`mCaptureChanged.store(true)`. -/
def DragAndDropManager.mouseCaptureChanged (m : DragAndDropManager) : DragAndDropManager :=
  { m with mCaptureActive := Nat.xor m.mCaptureActive 1, mCaptureChanged := true }

/-- The manager after `n` `mouseCaptureChanged` notifications. -/
def DragAndDropManager.mouseCaptureChangedTimes : Nat → DragAndDropManager → DragAndDropManager
  | 0, m => m
  | n + 1, m =>
    DragAndDropManager.mouseCaptureChanged (mouseCaptureChangedTimes n m)

/-! ## Material (`CmMaterial.h`) -/

/-- Modelled from the spec: the object behind a `GpuParamsPtr`, the parameter set of one
program stage of one pass; its class is declared outside the sources at hand. "Each
descriptor set enumerates named [...] parameters": `declared` lists those names, and `id`
stands for the identity of the object. -/
structure GpuParams where
  id : Nat
  declared : List String
  deriving DecidableEq, Repr

/-- Modelled from the spec: `GpuParams::hasParam(name)`, whether the "per-stage parameter
set declares that name". -/
def GpuParams.hasParam (params : GpuParams) (name : String) : Bool :=
  decide (name ∈ params.declared)

/-- A call `paramPtr->setParam(name, value, arrayIdx)`: the parameter set it is made on
and its three arguments. -/
structure ParamWrite (V : Type) where
  params : GpuParams
  name : String
  value : V
  arrayIdx : Nat

/-- Modelled from the spec: `GpuParams::setParam(name, value, arrayIdx)`, the write of a
value to a "physical GPU parameter location"; the write is recorded after the writes
made so far. -/
def GpuParams.setParam {V : Type} (params : GpuParams) (name : String) (value : V)
    (arrayIdx : Nat) (writes : List (ParamWrite V)) : List (ParamWrite V) :=
  writes ++ [{ params := params, name := name, value := value, arrayIdx := arrayIdx }]

/-- The class `PassParameters`: one `GpuParamsPtr` for each program stage, null when the
pass has no program for the stage. -/
structure PassParameters where
  mVertParams : Option GpuParams
  mFragParams : Option GpuParams
  mGeomParams : Option GpuParams
  mHullParams : Option GpuParams
  mDomainParams : Option GpuParams
  mComputeParams : Option GpuParams
  deriving DecidableEq, Repr

/-- `PassParameters::getParamByIdx(idx)`, which indexes the array of the six members; an
index from 6 on is outside that array and has no defined result in C++ (null here). -/
def PassParameters.getParamByIdx (p : PassParameters) (idx : Nat) : Option GpuParams :=
  match idx with
  | 0 => p.mVertParams
  | 1 => p.mFragParams
  | 2 => p.mGeomParams
  | 3 => p.mHullParams
  | 4 => p.mDomainParams
  | 5 => p.mComputeParams
  | _ => none

/-- `PassParameters::getNumParams()`. -/
def PassParameters.getNumParams (_p : PassParameters) : Nat :=
  6

/-- The kinds of value a material parameter may have, one for each pair of accessors of
the header (`setFloat`/`getFloat`, ..., `setStructData`/`getStructData`,
`setTexture`/`getTexture`, `setSamplerState`/`getSamplerState`; `setColor` has no
getter). -/
inductive MaterialValueKind where
  | Float
  | Color
  | Vec2
  | Vec3
  | Vec4
  | Mat3
  | Mat4
  | StructData
  | Texture
  | SamplerState
  deriving DecidableEq, Repr

/-- Whether a kind is an object parameter (texture, sampler) rather than a data
parameter. -/
def MaterialValueKind.isObject : MaterialValueKind → Bool
  | MaterialValueKind.Texture => true
  | MaterialValueKind.SamplerState => true
  | _ => false

/-- The members of a `Material` that the parameter accessors use. `El kind` is the type of
the values of a kind (`float`, `Vector2`, ..., `StructData`, `HTexture`,
`HSamplerState`). `values` stands for the maps `mFloatValues` to `mSamplerValues`: for
each kind, the value kept under a name at an array index, if any. Modelled from the
spec: `validObjectParams`, "the object set" of the texture and sampler names, for which
the header has no member. -/
structure Material (El : MaterialValueKind → Type) where
  mShader : Option Nat
  mValidParams : List (String × String)
  validObjectParams : List String
  mParametersPerPass : List PassParameters
  values : (kind : MaterialValueKind) → String → Nat → Option (El kind)

/-- The template method `Material::setParam(name, value, arrayIdx)` (lines 132 to 149 of
the header): for every pass, for `i` from 0 to `getNumParams()`, the value is written to
the parameter set of index `i` if that pointer is not null and the set has the
parameter. -/
def Material.setParam {El : MaterialValueKind → Type} {V : Type} (m : Material El)
    (name : String) (value : V) (arrayIdx : Nat) (writes : List (ParamWrite V)) :
    List (ParamWrite V) :=
  m.mParametersPerPass.foldl
    (fun writes params =>
      (List.range params.getNumParams).foldl
        (fun writes i =>
          match params.getParamByIdx i with
          | some paramPtr =>
            if paramPtr.hasParam name = true then
              paramPtr.setParam name value arrayIdx writes
            else writes
          | none => writes)
        writes)
    writes

/-- The six parameter sets of a pass, in the order of their index. -/
def PassParameters.stages (p : PassParameters) : List (Option GpuParams) :=
  [p.mVertParams, p.mFragParams, p.mGeomParams, p.mHullParams, p.mDomainParams,
    p.mComputeParams]

/-- The parameter sets of a material: those of the first pass in stage order, then those
of the second pass, and so on. -/
def Material.parameterSets {El : MaterialValueKind → Type} (m : Material El) :
    List (Option GpuParams) :=
  (m.mParametersPerPass.map PassParameters.stages).flatten

/-- The write `Material::setParam` makes on a parameter set, if it makes one: none on a
null pointer and none on a set that has no parameter of the name. -/
def writeOn {V : Type} (name : String) (value : V) (arrayIdx : Nat)
    (slot : Option GpuParams) : Option (ParamWrite V) :=
  match slot with
  | some paramPtr =>
    if paramPtr.hasParam name = true then
      some { params := paramPtr, name := name, value := value, arrayIdx := arrayIdx }
    else none
  | none => none

/-- The exception of the "uninitialized material" condition. -/
def materialNotInitializedException : Exception :=
  { kind := ExceptionKind.InternalErrorException,
    text := ExceptionText.materialNotInitialized }

/-- The exception of the "parameter not found" condition. The spec names no class for
it, only that it is another condition than the one above. -/
def parameterNotFoundException : Exception :=
  { kind := ExceptionKind.InvalidParametersException,
    text := ExceptionText.parameterNotFound }

/-- Modelled from the spec: `Material::throwIfNotInitialized()`, declared at line 130 of
the header with its body outside the sources at hand. "Calling any parameter accessor
before a shader has been bound fails with an uninitialized material condition." -/
def Material.throwIfNotInitialized {El : MaterialValueKind → Type} (m : Material El) :
    Except Exception Unit :=
  if m.mShader = none then Except.error materialNotInitializedException
  else Except.ok ()

/-- Modelled from the spec: the GPU variable a name stands for, if the name is valid for
the kind. A data parameter is valid when it is in `validParams`, the "mapping from
exposed name to the underlying GPU variable name"; an object parameter when it is in
"the object set", and it is written under its own name. -/
def Material.validName {El : MaterialValueKind → Type} (m : Material El)
    (kind : MaterialValueKind) (name : String) : Option String :=
  if kind.isObject = true then
    if name ∈ m.validObjectParams then some name else none
  else
    m.mValidParams.lookup name

/-- The outcome of a setter: the exception thrown, if any, the material and the writes
made to GPU parameter sets so far. -/
structure MaterialOutcome (El : MaterialValueKind → Type) where
  error : Option Exception
  material : Material El
  writes : List (ParamWrite (Σ kind : MaterialValueKind, El kind))

/-- Modelled from the spec: the setters `setFloat`, `setColor`, `setVec2`, ...,
`setStructData`, `setTexture`, `setSamplerState`, declared at lines 70 to 79 of the
header with their bodies outside the sources at hand, as one function of the kind (the
object kinds have no array index; 0 is passed for them). A call on a material without
shader "fails with an uninitialized material condition"; a call "for a name absent from
validParams (or an object-parameter call for a name absent from the object set) fails
with a parameter not found condition"; otherwise the value is written into "the local
typed value cache for that name/array-index" and, through `Material::setParam`, to
"every physical GPU parameter location across every pass whose per-stage parameter set
declares that name". -/
def Material.setValue {El : MaterialValueKind → Type} (kind : MaterialValueKind)
    (name : String) (value : El kind) (arrayIdx : Nat) (m : Material El)
    (writes : List (ParamWrite (Σ kind : MaterialValueKind, El kind))) :
    MaterialOutcome El :=
  match m.throwIfNotInitialized with
  | Except.error e => { error := some e, material := m, writes := writes }
  | Except.ok _ =>
    match m.validName kind name with
    | none => { error := some parameterNotFoundException, material := m, writes := writes }
    | some gpuVarName =>
      { error := none
        material :=
          { m with
            values := fun kind1 name1 arrayIdx1 =>
              if h : kind = kind1 then
                if name1 = name ∧ arrayIdx1 = arrayIdx then some (h ▸ value)
                else m.values kind1 name1 arrayIdx1
              else m.values kind1 name1 arrayIdx1 }
        writes := m.setParam gpuVarName (⟨kind, value⟩ : Σ kind, El kind) arrayIdx writes }

/-- Modelled from the spec: the getters `getFloat`, `getVec2`, ..., `getStructData`,
`getTexture`, `getSamplerState`, declared at lines 83 to 91 of the header with their
bodies outside the sources at hand, as one function of the kind. The two failure
conditions are those of the setters; the value is read from the local value cache (the
spec does not say what a read of a name and index never written returns: it is reported
as "parameter not found" here). -/
def Material.getValue {El : MaterialValueKind → Type} (kind : MaterialValueKind)
    (name : String) (arrayIdx : Nat) (m : Material El) : Except Exception (El kind) :=
  match m.throwIfNotInitialized with
  | Except.error e => Except.error e
  | Except.ok _ =>
    match m.validName kind name with
    | none => Except.error parameterNotFoundException
    | some _ =>
      match m.values kind name arrayIdx with
      | none => Except.error parameterNotFoundException
      | some value => Except.ok value

/-! ## Sample values -/

/-- A 2D render-target texture of the given identity, size and sample count, with one
face and one mip level. -/
def sampleTexture (id width height multisampleCount : Nat) : Texture :=
  { id := id, width := width, height := height, format := 0,
    usage := TextureUsage.TU_RENDERTARGET, textureType := TextureType.TEX_TYPE_2D,
    numFaces := 1, numMipmaps := 1, hwGamma := false,
    multisampleCount := multisampleCount, multisampleHint := "" }

/-- A configuration entry for the whole of mip 0 of a texture, selecting no extra face. -/
def sampleSurface (texture : Texture) : RENDER_SURFACE_DESC :=
  { texture := some texture, face := 0, numFaces := 0, mipLevel := 0 }

/-- A texture like `sampleTexture` with hardware gamma enabled. -/
def gammaTexture (id width height multisampleCount : Nat) : Texture :=
  { sampleTexture id width height multisampleCount with hwGamma := true }

/-- The null configuration entry. -/
def noSurface : RENDER_SURFACE_DESC :=
  { texture := none, face := 0, numFaces := 0, mipLevel := 0 }

/-- Engine declarations with eight colour slots and 32-bit pixels. -/
def sampleEngine : EngineDecls :=
  { BS_MAX_MULTIPLE_RENDER_TARGETS := 8, getNumElemBits := fun _ => 32 }

/-- A `RenderTarget` base state. -/
def sampleBase : RenderTarget :=
  { mWidth := 0, mHeight := 0, mColorDepth := 0, mActive := false, mHwGamma := false,
    mMultisampleCount := 0, mMultisampleHint := "" }

/-- A view cache holding no view. -/
def emptyCache : ViewCache :=
  { refCount := fun _ _ => 0, calls := [] }

/-- A target holding the given views. -/
def targetHolding (slots : List (Option TextureView)) (depthStencil : Option TextureView) :
    MultiRenderTexture :=
  { sampleBase with mColorSurfaces := slots, mDepthStencilSurface := depthStencil }

/-- The render-target view of a texture that `sampleSurface` asks for. -/
def sampleView (texture : Texture) : TextureView :=
  { texture := texture,
    mDesc := { mostDetailMip := 0, numMips := 1, firstArraySlice := 0, numArraySlices := 0,
               usage := GpuViewUsage.GVU_RENDERTARGET } }

/-- A depth-stencil texture of the given identity, size and sample count. -/
def depthTexture (id width height multisampleCount : Nat) : Texture :=
  { sampleTexture id width height multisampleCount with
    usage := TextureUsage.TU_DEPTHSTENCIL }

/-- Two colour surfaces of equal size whose multisample counts are 1 and 2. -/
def mismatchDesc : MULTI_RENDER_TEXTURE_DESC :=
  { colorSurfaces := [sampleSurface (sampleTexture 1 4 4 1),
      sampleSurface (sampleTexture 2 4 4 2)],
    depthStencilSurface := noSurface }

/-- One 4 by 4 colour surface and an 8 by 8 depth/stencil surface. -/
def depthMismatchDesc : MULTI_RENDER_TEXTURE_DESC :=
  { colorSurfaces := [sampleSurface (sampleTexture 1 4 4 1)],
    depthStencilSurface := sampleSurface (depthTexture 2 8 8 1) }

/-- One 4 by 4 colour surface and a 4 by 4 depth/stencil surface. -/
def depthDesc : MULTI_RENDER_TEXTURE_DESC :=
  { colorSurfaces := [sampleSurface (sampleTexture 1 4 4 1)],
    depthStencilSurface := sampleSurface (depthTexture 2 4 4 1) }

/-- A colour surface, in slot 1, whose texture was created with depth-stencil usage. -/
def wrongColorUsageDesc : MULTI_RENDER_TEXTURE_DESC :=
  { colorSurfaces := [sampleSurface (sampleTexture 1 4 4 1),
      sampleSurface (depthTexture 2 4 4 1)],
    depthStencilSurface := noSurface }

/-- A depth/stencil surface whose texture was created with render-target usage. -/
def wrongDepthUsageDesc : MULTI_RENDER_TEXTURE_DESC :=
  { colorSurfaces := [sampleSurface (sampleTexture 1 4 4 1)],
    depthStencilSurface := sampleSurface (sampleTexture 2 4 4 1) }

/-- The render-target view of mip 0 and of the one face, slice 0, of a texture. -/
def oneFaceView (texture : Texture) : TextureView :=
  { texture := texture,
    mDesc := { mostDetailMip := 0, numMips := 1, firstArraySlice := 0, numArraySlices := 1,
               usage := GpuViewUsage.GVU_RENDERTARGET } }

/-- The configuration entry that asks for `oneFaceView`. -/
def oneFaceSurface (texture : Texture) : RENDER_SURFACE_DESC :=
  { texture := some texture, face := 0, numFaces := 1, mipLevel := 0 }

/-- A 2D render-target texture that has its top level only (`getNumMipmaps()` is 0). -/
def topLevelOnlyTexture (id width height : Nat) : Texture :=
  { sampleTexture id width height 1 with numMipmaps := 0 }

/-- A cube-map render-target texture. -/
def cubeTexture (id size : Nat) : Texture :=
  { sampleTexture id size size 1 with
    textureType := TextureType.TEX_TYPE_CUBE_MAP, numFaces := 6 }

/-- The depth-stencil view of a texture that `sampleSurface` asks for. -/
def sampleDepthView (texture : Texture) : TextureView :=
  { texture := texture,
    mDesc := { mostDetailMip := 0, numMips := 1, firstArraySlice := 0, numArraySlices := 0,
               usage := GpuViewUsage.GVU_DEPTHSTENCIL } }

/-- A freshly constructed target of `sampleEngine`. -/
def freshTarget : MultiRenderTexture :=
  MultiRenderTexture.ctor sampleEngine sampleBase

/-- One colour surface, 4 wide and 2 high, and no depth/stencil surface. -/
def wideDesc : MULTI_RENDER_TEXTURE_DESC :=
  { colorSurfaces := [sampleSurface (sampleTexture 1 4 2 1)],
    depthStencilSurface := noSurface }

/-- An empty slot 0, then two colour surfaces of equal size and sample count of which
only the first has hardware gamma enabled. -/
def gammaDesc : MULTI_RENDER_TEXTURE_DESC :=
  { colorSurfaces := [noSurface, sampleSurface (gammaTexture 1 4 4 2),
      sampleSurface (sampleTexture 2 4 4 2)],
    depthStencilSurface := noSurface }

/-- Two value types for the `any` of an `AsyncOp`: `int` and `std::string`. -/
inductive SampleType where
  | int
  | string
  deriving DecidableEq, Repr

/-- The values of the two sample types. -/
def SampleType.El : SampleType → Type
  | SampleType.int => Int
  | SampleType.string => String

/-- A store in which no `AsyncOpData` cell has been allocated yet. -/
def emptyStore : AsyncOpStore SampleType SampleType.El :=
  { cells := fun _ => { mReturnValue := none, mIsCompleted := false }, next := 0 }

/-- The first `AsyncOp` constructed on `emptyStore`. -/
def firstOp : AsyncOp :=
  (AsyncOp.ctor emptyStore).1

/-- The store right after `firstOp` was constructed. -/
def firstStore : AsyncOpStore SampleType SampleType.El :=
  (AsyncOp.ctor emptyStore).2

/-- A second `AsyncOp`, constructed after `firstOp`. -/
def secondOp : AsyncOp :=
  (AsyncOp.ctor firstStore).1

/-- The store right after `secondOp` was constructed. -/
def secondStore : AsyncOpStore SampleType SampleType.El :=
  (AsyncOp.ctor firstStore).2

/-- A `hash_combine` for the sample evaluations. -/
def sampleHashCombine : HashCombine :=
  { onUINT32 := fun seed v => (seed * 31 + v) % 2 ^ 64
    onBool := fun seed v => (seed * 31 + (if v then 1 else 0)) % 2 ^ 64
    onUsage := fun seed v =>
      (seed * 31 + (match v with
        | GpuViewUsage.GVU_DEFAULT => 1
        | GpuViewUsage.GVU_RENDERTARGET => 2
        | GpuViewUsage.GVU_DEPTHSTENCIL => 3
        | GpuViewUsage.GVU_RANDOMWRITE => 4)) % 2 ^ 64 }

/-- A texture view descriptor: mip 0, one mip, slice 0, one slice, render-target usage. -/
def sampleViewDesc : TEXTURE_VIEW_DESC :=
  { mostDetailMip := 0, numMips := 1, firstArraySlice := 0, numArraySlices := 1,
    usage := GpuViewUsage.GVU_RENDERTARGET }

/-- A buffer view descriptor: 16 elements of width 4 from element 0, no counter. -/
def sampleBufferDesc : GPU_BUFFER_DESC :=
  { elementWidth := 4, firstElement := 0, numElements := 16, useCounter := false,
    usage := GpuViewUsage.GVU_DEFAULT }

/-- Nine entries: eight colour surfaces of equal size, then, at index 8, an entry whose
texture was created with depth-stencil usage. -/
def nineSurfacesDesc : MULTI_RENDER_TEXTURE_DESC :=
  { colorSurfaces :=
      (List.range 8).map (fun i => sampleSurface (sampleTexture i 4 4 1))
        ++ [sampleSurface (depthTexture 8 4 4 1)],
    depthStencilSurface := noSurface }

/-- No colour surface, and a depth/stencil surface that is a cube map of 8 samples, asked
for at mip 5 with 7 faces from face 3. -/
def depthOnlyDesc : MULTI_RENDER_TEXTURE_DESC :=
  { colorSurfaces := [noSurface, noSurface],
    depthStencilSurface :=
      { texture := some { cubeTexture 1 16 with
          usage := TextureUsage.TU_DEPTHSTENCIL, multisampleCount := 8 },
        face := 3, numFaces := 7, mipLevel := 5 } }

/-- A manager on which callback 11 was added, a drag of type 5 was started with callback
12, and callback 13 was added. -/
def draggingManager : DragAndDropManager :=
  DragAndDropManager.addDropCallback 13
    (DragAndDropManager.startDrag 5 (some 100) 12 false
      (DragAndDropManager.addDropCallback 11 DragAndDropManager.ctor))

/-- Value types for the sample material: integers stand for the floating-point
components, a list of bytes for a struct blob, a handle number for an object. -/
def SampleValue : MaterialValueKind → Type
  | MaterialValueKind.Float => Int
  | MaterialValueKind.Vec2 => Int × Int
  | MaterialValueKind.StructData => List Nat
  | _ => Nat

/-- The parameter set of identity `id` that declares the given names. -/
def sampleParams (id : Nat) (declared : List String) : Option GpuParams :=
  some { id := id, declared := declared }

/-- A material with a shader and two passes. Pass 0 has a vertex set declaring `x` and `y`
and a fragment set declaring `x`; pass 1 has a vertex set declaring `y` and a compute
set declaring `x`. The exposed names are `x` (variable `x`) and `tint` (variable `y`). -/
def sampleMaterial : Material SampleValue :=
  { mShader := some 1
    mValidParams := [("x", "x"), ("tint", "y")]
    validObjectParams := ["albedo"]
    mParametersPerPass :=
      [{ mVertParams := sampleParams 1 ["x", "y"], mFragParams := sampleParams 2 ["x"],
         mGeomParams := none, mHullParams := none, mDomainParams := none,
         mComputeParams := none },
       { mVertParams := sampleParams 3 ["y"], mFragParams := none,
         mGeomParams := none, mHullParams := none, mDomainParams := none,
         mComputeParams := sampleParams 4 ["x"] }]
    values := fun _ _ _ => none }

/-- The sample material before any shader was set. -/
def shaderlessMaterial : Material SampleValue :=
  { sampleMaterial with mShader := none, mValidParams := [], validObjectParams := [],
                        mParametersPerPass := [] }

/-! ## The derived properties -/

/-- What the loop of `initialize` leaves in the `RenderTarget` fields when it does not
throw: they are untouched if the flag was already set or no entry is bound from index `i`
on, and otherwise assigned from the first entry bound from index `i` on. -/
theorem bindColorSurfaces_properties (E : EngineDecls) :
    ∀ (ds : List RENDER_SURFACE_DESC) (i : Nat) (flag : Bool) (t : MultiRenderTexture)
      (c : ViewCache),
      (MultiRenderTexture.bindColorSurfaces E ds i flag t c).error = none →
      (MultiRenderTexture.bindColorSurfaces E ds i flag t c).target.toRenderTarget =
        if flag then t.toRenderTarget
        else
          match ((ds.take (E.BS_MAX_MULTIPLE_RENDER_TARGETS - i)).filterMap
              (fun d => d.texture)).head? with
          | none => t.toRenderTarget
          | some texture => derivedProperties E texture := by
  intro ds
  induction ds with
  | nil =>
    intro i flag t c _
    simp [MultiRenderTexture.bindColorSurfaces]
  | cons d rest ih =>
    intro i flag t c h
    unfold MultiRenderTexture.bindColorSurfaces at h ⊢
    cases hd : d.texture with
    | none =>
      simp only [hd] at h ⊢
      rw [ih (i + 1) flag t c h]
      cases hn : E.BS_MAX_MULTIPLE_RENDER_TARGETS - i with
      | zero =>
        have h0 : E.BS_MAX_MULTIPLE_RENDER_TARGETS - (i + 1) = 0 := by omega
        simp [h0]
      | succ n =>
        have h1 : E.BS_MAX_MULTIPLE_RENDER_TARGETS - (i + 1) = n := by omega
        simp [h1, List.take_succ_cons, List.filterMap_cons, hd]
    | some texture =>
      simp only [hd] at h ⊢
      by_cases hi : i ≥ E.BS_MAX_MULTIPLE_RENDER_TARGETS
      · simp only [hi, if_true] at h ⊢
        rw [ih (i + 1) flag t c h]
        have h0 : E.BS_MAX_MULTIPLE_RENDER_TARGETS - (i + 1) = 0 := by omega
        have h1 : E.BS_MAX_MULTIPLE_RENDER_TARGETS - i = 0 := by omega
        simp [h0, h1]
      · simp only [hi, if_false] at h ⊢
        by_cases hu : texture.usage ≠ TextureUsage.TU_RENDERTARGET
        · simp [hu] at h
        · simp only [hu, if_false] at h ⊢
          rw [ih (i + 1) true _ _ h]
          obtain ⟨n, hn⟩ : ∃ n, E.BS_MAX_MULTIPLE_RENDER_TARGETS - i = n + 1 :=
            ⟨E.BS_MAX_MULTIPLE_RENDER_TARGETS - i - 1, by omega⟩
          cases flag <;>
            simp [hn, List.take_succ_cons, List.filterMap_cons, hd, derivedProperties]

/-- The `RenderTarget` fields are only written by the loop over the colour surfaces. -/
theorem initialize_properties (E : EngineDecls) (desc : MULTI_RENDER_TEXTURE_DESC)
    (t : MultiRenderTexture) (c : ViewCache) :
    ( MultiRenderTexture.initialize E desc t c).target.toRenderTarget =
      (MultiRenderTexture.bindColorSurfaces E desc.colorSurfaces 0 false t
        c).target.toRenderTarget := by
  unfold MultiRenderTexture.initialize MultiRenderTexture.validate
  simp only []
  split
  · rfl
  · split
    · split <;> rfl
    · split
      · rfl
      · split <;> rfl

/-- When `initialize` returns, its loop over the colour surfaces did not throw. -/
theorem initialize_ok_loop (E : EngineDecls) (desc : MULTI_RENDER_TEXTURE_DESC)
    (t : MultiRenderTexture) (c : ViewCache)
    (h : ( MultiRenderTexture.initialize E desc t c).error = none) :
    (MultiRenderTexture.bindColorSurfaces E desc.colorSurfaces 0 false t c).error = none := by
  unfold MultiRenderTexture.initialize at h
  simp only [] at h
  split at h
  · rename_i e he
    rw [he] at h
    exact absurd h (by simp)
  · assumption

/-- The derived properties after a successful `initialize` on a configuration with a
bound colour surface. -/
theorem initialize_derived (E : EngineDecls) (desc : MULTI_RENDER_TEXTURE_DESC)
    (t : MultiRenderTexture) (c : ViewCache) (texture : Texture)
    (hok : ( MultiRenderTexture.initialize E desc t c).error = none)
    (hfirst : firstBoundColorTexture E desc = some texture) :
    ( MultiRenderTexture.initialize E desc t c).target.toRenderTarget =
      derivedProperties E texture := by
  rw [initialize_properties,
    bindColorSurfaces_properties E _ 0 false t c (initialize_ok_loop E desc t c hok)]
  unfold firstBoundColorTexture at hfirst
  simp only [Nat.sub_zero, hfirst]
  rfl

/-- C1 (the code departs from it): after a successful `initialize` on a configuration
with a bound colour surface the derived height is the WIDTH of the first bound colour
surface's texture (line 47 assigns `getWidth()` to `mHeight`), so it differs from that
texture's height whenever the texture is not square. -/
theorem initialize_height_is_first_width (E : EngineDecls)
    (desc : MULTI_RENDER_TEXTURE_DESC) (t : MultiRenderTexture) (c : ViewCache)
    (texture : Texture)
    (hok : ( MultiRenderTexture.initialize E desc t c).error = none)
    (hfirst : firstBoundColorTexture E desc = some texture) :
    ( MultiRenderTexture.initialize E desc t c).target.mHeight = texture.width := by
  have h := initialize_derived E desc t c texture hok hfirst
  exact congrArg RenderTarget.mHeight h

/-- C1 at a 4 by 2 texture: `initialize` succeeds and the derived height is 4, not 2. -/
theorem initialize_height_is_first_width_witness :
    ( MultiRenderTexture.initialize sampleEngine wideDesc freshTarget emptyCache).error = none ∧
    firstBoundColorTexture sampleEngine wideDesc = some (sampleTexture 1 4 2 1) ∧
    (sampleTexture 1 4 2 1).height = 2 ∧
    ( MultiRenderTexture.initialize sampleEngine wideDesc freshTarget
      emptyCache).target.mHeight = 4 :=
  ⟨by decide, by decide, by decide,
    initialize_height_is_first_width sampleEngine wideDesc freshTarget emptyCache
      (sampleTexture 1 4 2 1) (by decide) (by decide)⟩

/-- C2: after a successful `initialize` on a configuration with a bound colour surface,
the derived width, multisample count, multisample hint and hardware-gamma flag are those
of the texture of the first bound colour surface, and the active flag is true. -/
theorem initialize_derived_from_first (E : EngineDecls)
    (desc : MULTI_RENDER_TEXTURE_DESC) (t : MultiRenderTexture) (c : ViewCache)
    (texture : Texture)
    (hok : ( MultiRenderTexture.initialize E desc t c).error = none)
    (hfirst : firstBoundColorTexture E desc = some texture) :
    ( MultiRenderTexture.initialize E desc t c).target.mWidth = texture.width ∧
    ( MultiRenderTexture.initialize E desc t c).target.mMultisampleCount
      = texture.multisampleCount ∧
    ( MultiRenderTexture.initialize E desc t c).target.mMultisampleHint
      = texture.multisampleHint ∧
    ( MultiRenderTexture.initialize E desc t c).target.mHwGamma = texture.hwGamma ∧
    ( MultiRenderTexture.initialize E desc t c).target.mActive = true := by
  have h := initialize_derived E desc t c texture hok hfirst
  exact ⟨congrArg RenderTarget.mWidth h, congrArg RenderTarget.mMultisampleCount h,
    congrArg RenderTarget.mMultisampleHint h, congrArg RenderTarget.mHwGamma h,
    congrArg RenderTarget.mActive h⟩

/-- C2 on `gammaDesc`: the first bound surface sits in slot 1 and has hardware gamma
enabled, the later one has not; the target reports gamma enabled. -/
theorem initialize_derived_from_first_witness :
    ( MultiRenderTexture.initialize sampleEngine gammaDesc freshTarget emptyCache).error = none ∧
    firstBoundColorTexture sampleEngine gammaDesc = some (gammaTexture 1 4 4 2) ∧
    ( MultiRenderTexture.initialize sampleEngine gammaDesc freshTarget
      emptyCache).target.mHwGamma = true ∧
    ( MultiRenderTexture.initialize sampleEngine gammaDesc freshTarget
      emptyCache).target.mMultisampleCount = 2 :=
  have h := initialize_derived_from_first sampleEngine gammaDesc freshTarget emptyCache
    (gammaTexture 1 4 4 2) (by decide) (by decide)
  ⟨by decide, by decide, h.2.2.2.1, h.2.1⟩

/-! ## The agreement check over the colour slots -/

theorem dontMatch_self (a : Texture) : ¬ MultiRenderTexture.dontMatch a a := by
  simp [MultiRenderTexture.dontMatch]

/-- The colour loop of `throwIfBuffersDontMatch` once `firstSurfaceDesc` is set: it throws
as soon as a later populated slot differs from it. -/
theorem matchColorSurfaces_some_error (first : TextureView) :
    ∀ slots : List (Option TextureView),
      (∃ v ∈ slots.reduceOption, MultiRenderTexture.dontMatch v.texture first.texture) →
      MultiRenderTexture.matchColorSurfaces slots (some first)
        = Except.error dontMatchException := by
  intro slots
  induction slots with
  | nil => simp
  | cons x rest ih =>
    intro h
    cases x with
    | none =>
      rw [List.reduceOption_cons_of_none] at h
      simpa [MultiRenderTexture.matchColorSurfaces] using ih h
    | some w =>
      rw [List.reduceOption_cons_of_some] at h
      unfold MultiRenderTexture.matchColorSurfaces
      by_cases hw : MultiRenderTexture.dontMatch w.texture first.texture
      · simp [hw, dontMatchException]
      · simp only [hw, if_false]
        apply ih
        obtain ⟨v, hv, hd⟩ := h
        rcases List.mem_cons.mp hv with rfl | hv
        · exact absurd hd hw
        · exact ⟨v, hv, hd⟩

/-- The colour loop of `throwIfBuffersDontMatch` once `firstSurfaceDesc` is set: it runs
through when every later populated slot agrees with it. -/
theorem matchColorSurfaces_some_ok (first : TextureView) :
    ∀ slots : List (Option TextureView),
      (∀ v ∈ slots.reduceOption, ¬ MultiRenderTexture.dontMatch v.texture first.texture) →
      MultiRenderTexture.matchColorSurfaces slots (some first) = Except.ok (some first) := by
  intro slots
  induction slots with
  | nil => intro _; rfl
  | cons x rest ih =>
    intro h
    cases x with
    | none =>
      rw [List.reduceOption_cons_of_none] at h
      simpa [MultiRenderTexture.matchColorSurfaces] using ih h
    | some w =>
      rw [List.reduceOption_cons_of_some] at h
      unfold MultiRenderTexture.matchColorSurfaces
      have hw : ¬ MultiRenderTexture.dontMatch w.texture first.texture :=
        h w (List.mem_cons_self _ _)
      simp only [hw, if_false]
      exact ih fun v hv => h v (List.mem_cons_of_mem _ hv)

/-- Before `firstSurfaceDesc` is set the loop passes over the null slots and takes the
first populated one. -/
theorem matchColorSurfaces_none :
    ∀ slots : List (Option TextureView),
      MultiRenderTexture.matchColorSurfaces slots none =
        match slots.reduceOption with
        | [] => Except.ok none
        | first :: _ =>
          MultiRenderTexture.matchColorSurfaces (slots.dropWhile (· = none)).tail
            (some first) := by
  intro slots
  induction slots with
  | nil => rfl
  | cons x rest ih =>
    cases x with
    | none =>
      rw [List.reduceOption_cons_of_none]
      simpa [MultiRenderTexture.matchColorSurfaces] using ih
    | some w =>
      rw [List.reduceOption_cons_of_some]
      simp [MultiRenderTexture.matchColorSurfaces]

/-- The populated slots after the first populated one. -/
theorem reduceOption_tail_dropWhile :
    ∀ slots : List (Option TextureView),
      ((slots.dropWhile (· = none)).tail).reduceOption = slots.reduceOption.tail := by
  intro slots
  induction slots with
  | nil => rfl
  | cons x rest ih =>
    cases x with
    | none =>
      rw [List.reduceOption_cons_of_none]
      simpa using ih
    | some w =>
      rw [List.reduceOption_cons_of_some]
      simp

/-- The colour loop throws when a populated slot differs from the first populated one. -/
theorem matchColorSurfaces_error (slots : List (Option TextureView)) (first : TextureView)
    (hfirst : slots.reduceOption.head? = some first)
    (h : ∃ v ∈ slots.reduceOption, MultiRenderTexture.dontMatch v.texture first.texture) :
    MultiRenderTexture.matchColorSurfaces slots none = Except.error dontMatchException := by
  rw [matchColorSurfaces_none]
  cases hr : slots.reduceOption with
  | nil => rw [hr] at hfirst; simp at hfirst
  | cons f rest =>
    rw [hr] at hfirst h
    simp only [List.head?_cons, Option.some.injEq] at hfirst
    subst hfirst
    simp only []
    apply matchColorSurfaces_some_error
    rw [reduceOption_tail_dropWhile, hr, List.tail_cons]
    obtain ⟨v, hv, hd⟩ := h
    rcases List.mem_cons.mp hv with rfl | hv
    · exact absurd hd (dontMatch_self _)
    · exact ⟨v, hv, hd⟩

/-- The colour loop returns the first populated slot when all populated slots agree with
it (and null when no slot is populated). -/
theorem matchColorSurfaces_ok (slots : List (Option TextureView))
    (h : ∀ first, slots.reduceOption.head? = some first →
      ∀ v ∈ slots.reduceOption, ¬ MultiRenderTexture.dontMatch v.texture first.texture) :
    MultiRenderTexture.matchColorSurfaces slots none
      = Except.ok slots.reduceOption.head? := by
  rw [matchColorSurfaces_none]
  cases hr : slots.reduceOption with
  | nil => rfl
  | cons f rest =>
    rw [hr] at h
    simp only [List.head?_cons]
    apply matchColorSurfaces_some_ok
    rw [reduceOption_tail_dropWhile, hr, List.tail_cons]
    exact fun v hv => h f rfl v (List.mem_cons_of_mem _ hv)

/-- Whatever the colour loop does, it throws the "don't match" exception or returns the
first populated slot. -/
theorem matchColorSurfaces_cases (slots : List (Option TextureView)) :
    MultiRenderTexture.matchColorSurfaces slots none = Except.error dontMatchException ∨
    MultiRenderTexture.matchColorSurfaces slots none
      = Except.ok slots.reduceOption.head? := by
  by_cases h : ∀ first, slots.reduceOption.head? = some first →
      ∀ v ∈ slots.reduceOption, ¬ MultiRenderTexture.dontMatch v.texture first.texture
  · exact Or.inr (matchColorSurfaces_ok slots h)
  · left
    push_neg at h
    obtain ⟨first, hfirst, v, hv, hd⟩ := h
    exact matchColorSurfaces_error slots first hfirst ⟨v, hv, hd⟩

/-! ## The colour slots after the loop of `initialize` -/

theorem set_length_append {α : Type} (pre : List α) (x y : α) (rest : List α) :
    (pre ++ x :: rest).set pre.length y = pre ++ y :: rest := by
  induction pre with
  | nil => rfl
  | cons a pre ih => simp [List.set, ih]

theorem reduceOption_replicate_none {α : Type} (n : Nat) :
    (List.replicate n (none : Option α)).reduceOption = [] := by
  induction n with
  | zero => rfl
  | succ n ih => rw [List.replicate_succ, List.reduceOption_cons_of_none, ih]

/-- The slot vector after the loop of `initialize` ran through from index `i` on, when
the slots from `i` on were null before: the entries below the maximum have filled their
slots in order, each with its view or with null. -/
theorem bindColorSurfaces_slots (E : EngineDecls) :
    ∀ (ds : List RENDER_SURFACE_DESC) (i : Nat) (flag : Bool) (t : MultiRenderTexture)
      (c : ViewCache) (pre : List (Option TextureView)),
      t.mColorSurfaces
        = pre ++ List.replicate (E.BS_MAX_MULTIPLE_RENDER_TARGETS - i) none →
      pre.length = min i E.BS_MAX_MULTIPLE_RENDER_TARGETS →
      (MultiRenderTexture.bindColorSurfaces E ds i flag t c).error = none →
      (MultiRenderTexture.bindColorSurfaces E ds i flag t c).target.mColorSurfaces =
        pre ++ (ds.take (E.BS_MAX_MULTIPLE_RENDER_TARGETS - i)).map colorView
          ++ List.replicate (E.BS_MAX_MULTIPLE_RENDER_TARGETS - i - ds.length) none := by
  intro ds
  induction ds with
  | nil =>
    intro i flag t c pre ht _ _
    simp [MultiRenderTexture.bindColorSurfaces, ht]
  | cons d rest ih =>
    intro i flag t c pre ht hpre h
    unfold MultiRenderTexture.bindColorSurfaces at h ⊢
    by_cases hi : i ≥ E.BS_MAX_MULTIPLE_RENDER_TARGETS
    · -- no slot is left: the entry is passed over whether it has a texture or not
      have h0 : E.BS_MAX_MULTIPLE_RENDER_TARGETS - i = 0 := by omega
      have h1 : E.BS_MAX_MULTIPLE_RENDER_TARGETS - (i + 1) = 0 := by omega
      have hskip :
          (MultiRenderTexture.bindColorSurfaces E rest (i + 1) flag t c).error = none := by
        cases hd : d.texture with
        | none => simpa only [hd] using h
        | some texture => simpa only [hd, hi, if_true] using h
      have key := ih (i + 1) flag t c pre (by rw [ht, h0, h1]) (by omega) hskip
      rw [h1] at key
      cases hd : d.texture with
      | none => simp only [hd]; rw [key, h0]; simp
      | some texture => simp only [hd, hi, if_true]; rw [key, h0]; simp
    · obtain ⟨n, hn⟩ : ∃ n, E.BS_MAX_MULTIPLE_RENDER_TARGETS - i = n + 1 :=
        ⟨E.BS_MAX_MULTIPLE_RENDER_TARGETS - i - 1, by omega⟩
      have h1 : E.BS_MAX_MULTIPLE_RENDER_TARGETS - (i + 1) = n := by omega
      have hlen : pre.length = i := by omega
      rw [hn, List.replicate_succ] at ht
      cases hd : d.texture with
      | none =>
        simp only [hd] at h ⊢
        have key := ih (i + 1) flag t c (pre ++ [none])
          (by rw [ht, h1]; simp) (by simp; omega) h
        rw [key, hn, h1]
        simp [colorView, hd]
      | some texture =>
        simp only [hd, hi, if_false] at h ⊢
        by_cases hu : texture.usage ≠ TextureUsage.TU_RENDERTARGET
        · simp [hu] at h
        · simp only [hu, if_false] at h ⊢
          have key := ih (i + 1) true _ _ (pre ++ [colorView d]) (by
            rw [h1]
            cases flag <;>
              simp [ht, ← hlen, set_length_append, colorView, hd, Texture.requestView]
              <;> split <;> rfl) (by simp; omega) h
          rw [key, hn, h1]
          simp

/-- The populated slots after the loop of `initialize` ran through on a freshly
constructed target: the views of the entries below the maximum that have a texture, in
order. -/
theorem bindColorSurfaces_populated (E : EngineDecls) (base : RenderTarget)
    (ds : List RENDER_SURFACE_DESC) (c : ViewCache)
    (h : (MultiRenderTexture.bindColorSurfaces E ds 0 false (MultiRenderTexture.ctor E base)
      c).error = none) :
    (MultiRenderTexture.bindColorSurfaces E ds 0 false (MultiRenderTexture.ctor E base)
      c).target.mColorSurfaces.reduceOption
      = (ds.take E.BS_MAX_MULTIPLE_RENDER_TARGETS).filterMap colorView := by
  rw [bindColorSurfaces_slots E ds 0 false _ c [] (by simp [MultiRenderTexture.ctor])
    (by simp) h]
  simp only [List.nil_append, Nat.sub_zero, List.reduceOption_append,
    reduceOption_replicate_none, List.append_nil]
  rw [List.reduceOption, List.filterMap_map]
  rfl

/-- The textures of the requested views are the textures of the entries. -/
theorem filterMap_colorView_texture (ds : List RENDER_SURFACE_DESC) :
    (ds.filterMap colorView).map (fun v => v.texture) = ds.filterMap (fun d => d.texture) := by
  induction ds with
  | nil => rfl
  | cons d rest ih =>
    cases hd : d.texture with
    | none => simp [List.filterMap_cons, colorView, hd, ih]
    | some texture => simp [List.filterMap_cons, colorView, hd, ih]

/-! ## The paths through `initialize` -/

/-- The only exception the loop of `initialize` throws is the usage exception of line 39. -/
theorem bindColorSurfaces_error (E : EngineDecls) :
    ∀ (ds : List RENDER_SURFACE_DESC) (i : Nat) (flag : Bool) (t : MultiRenderTexture)
      (c : ViewCache) (e : Exception),
      (MultiRenderTexture.bindColorSurfaces E ds i flag t c).error = some e →
      e = notRenderTargetException := by
  intro ds
  induction ds with
  | nil =>
    intro i flag t c e h
    simp [MultiRenderTexture.bindColorSurfaces] at h
  | cons d rest ih =>
    intro i flag t c e h
    unfold MultiRenderTexture.bindColorSurfaces at h
    split at h
    · exact ih _ _ _ _ e h
    · split at h
      · exact ih _ _ _ _ e h
      · split at h
        · simp only [Option.some.injEq] at h
          exact h.symm
        · exact ih _ _ _ _ e h

/-- When the loop of `initialize` throws, `initialize` ends there. -/
theorem initialize_of_loop_error (E : EngineDecls) (desc : MULTI_RENDER_TEXTURE_DESC)
    (t : MultiRenderTexture) (c : ViewCache) (e : Exception)
    (h : (MultiRenderTexture.bindColorSurfaces E desc.colorSurfaces 0 false t c).error
      = some e) :
    ( MultiRenderTexture.initialize E desc t c).error = some notRenderTargetException := by
  unfold MultiRenderTexture.initialize
  simp only [h]
  rw [bindColorSurfaces_error E _ _ _ _ _ e h]

/-- When the loop of `initialize` runs through, `initialize` goes on with the
depth/stencil surface and the validation. -/
theorem initialize_of_loop_ok (E : EngineDecls) (desc : MULTI_RENDER_TEXTURE_DESC)
    (t : MultiRenderTexture) (c : ViewCache)
    (h : (MultiRenderTexture.bindColorSurfaces E desc.colorSurfaces 0 false t c).error
      = none) :
    MultiRenderTexture.initialize E desc t c =
      match desc.depthStencilSurface.texture with
      | none =>
        MultiRenderTexture.validate
          (MultiRenderTexture.bindColorSurfaces E desc.colorSurfaces 0 false t c).target
          (MultiRenderTexture.bindColorSurfaces E desc.colorSurfaces 0 false t c).cache
      | some texture =>
        if texture.usage ≠ TextureUsage.TU_DEPTHSTENCIL then
          { error := some notDepthStencilException,
            target :=
              (MultiRenderTexture.bindColorSurfaces E desc.colorSurfaces 0 false t c).target,
            cache :=
              (MultiRenderTexture.bindColorSurfaces E desc.colorSurfaces 0 false t c).cache }
        else
          MultiRenderTexture.validate
            { (MultiRenderTexture.bindColorSurfaces E desc.colorSurfaces 0 false t
                c).target with
              mDepthStencilSurface := some (Texture.requestView texture
                desc.depthStencilSurface.mipLevel 1 desc.depthStencilSurface.face
                desc.depthStencilSurface.numFaces GpuViewUsage.GVU_DEPTHSTENCIL
                (MultiRenderTexture.bindColorSurfaces E desc.colorSurfaces 0 false t
                  c).cache).1 }
            (Texture.requestView texture
                desc.depthStencilSurface.mipLevel 1 desc.depthStencilSurface.face
                desc.depthStencilSurface.numFaces GpuViewUsage.GVU_DEPTHSTENCIL
                (MultiRenderTexture.bindColorSurfaces E desc.colorSurfaces 0 false t
                  c).cache).2 := by
  unfold MultiRenderTexture.initialize
  simp only [h]
  rfl

/-- The error of the closing validation is the exception of `throwIfBuffersDontMatch`. -/
theorem validate_error (t : MultiRenderTexture) (c : ViewCache) :
    (MultiRenderTexture.validate t c).error =
      match MultiRenderTexture.throwIfBuffersDontMatch t with
      | Except.error e => some e
      | Except.ok _ => none := by
  unfold MultiRenderTexture.validate
  split <;> simp_all

/-- The view requested from a texture is a view of that texture. -/
theorem requestView_texture (texture : Texture) (a b f n : Nat) (u : GpuViewUsage)
    (c : ViewCache) : (Texture.requestView texture a b f n u c).1.texture = texture := by
  unfold Texture.requestView
  simp only []
  split <;> rfl

/-! ## `throwIfBuffersDontMatch` -/

/-- The checks of `throwIfBuffersDontMatch` that follow the colour loop. -/
theorem throwIfBuffersDontMatch_of_first (t : MultiRenderTexture) (first : TextureView)
    (h : MultiRenderTexture.matchColorSurfaces t.mColorSurfaces none
      = Except.ok (some first)) :
    MultiRenderTexture.throwIfBuffersDontMatch t =
      if first.texture.textureType ≠ TextureType.TEX_TYPE_2D then
        Except.error only2DException
      else if (first.mDesc.firstArraySlice + first.mDesc.numArraySlices) % 2 ^ 32
          ≥ first.texture.numFaces then
        Except.error facesOutOfRangeException
      else if first.mDesc.mostDetailMip ≥ first.texture.numMipmaps then
        Except.error mipMapsOutOfRangeException
      else
        match t.mDepthStencilSurface with
        | none => Except.ok ()
        | some depthStencil =>
          if MultiRenderTexture.dontMatch depthStencil.texture first.texture then
            Except.error dontMatchException
          else Except.ok () := by
  unfold MultiRenderTexture.throwIfBuffersDontMatch
  simp only [h]
  rfl

/-- The colour loop returns the first populated slot when all populated slots agree. -/
theorem matchColorSurfaces_of_agree (t : MultiRenderTexture) (first : TextureView)
    (hfirst : t.populated.head? = some first)
    (hagree : ∀ v ∈ t.populated, ¬ MultiRenderTexture.dontMatch v.texture first.texture) :
    MultiRenderTexture.matchColorSurfaces t.mColorSurfaces none
      = Except.ok (some first) := by
  unfold MultiRenderTexture.populated at hfirst hagree
  rw [matchColorSurfaces_ok, hfirst]
  intro f hf
  rw [hfirst] at hf
  cases hf
  exact hagree

/-- With a populated colour slot and a depth/stencil view that differs from it,
`throwIfBuffersDontMatch` throws. -/
theorem throwIfBuffersDontMatch_depth (t : MultiRenderTexture) (first depth : TextureView)
    (hfirst : t.populated.head? = some first)
    (hdepth : t.mDepthStencilSurface = some depth)
    (h : MultiRenderTexture.dontMatch depth.texture first.texture) :
    ∃ e, MultiRenderTexture.throwIfBuffersDontMatch t = Except.error e := by
  rcases matchColorSurfaces_cases t.mColorSurfaces with hm | hm
  · exact ⟨dontMatchException, by
      unfold MultiRenderTexture.throwIfBuffersDontMatch; simp only [hm]⟩
  · unfold MultiRenderTexture.populated at hfirst
    rw [hfirst] at hm
    rw [throwIfBuffersDontMatch_of_first t first hm, hdepth]
    simp only [h, if_true]
    split
    · exact ⟨_, rfl⟩
    · split
      · exact ⟨_, rfl⟩
      · split
        · exact ⟨_, rfl⟩
        · exact ⟨_, rfl⟩

/-- The exceptions of `throwIfBuffersDontMatch` are the four it throws itself. -/
theorem throwIfBuffersDontMatch_error (t : MultiRenderTexture) (e : Exception)
    (h : MultiRenderTexture.throwIfBuffersDontMatch t = Except.error e) :
    e = dontMatchException ∨ e = only2DException ∨ e = facesOutOfRangeException ∨
      e = mipMapsOutOfRangeException := by
  rcases matchColorSurfaces_cases t.mColorSurfaces with hm | hm
  · unfold MultiRenderTexture.throwIfBuffersDontMatch at h
    simp only [hm] at h
    cases h
    exact Or.inl rfl
  · cases hf : t.mColorSurfaces.reduceOption.head? with
    | none =>
      rw [hf] at hm
      unfold MultiRenderTexture.throwIfBuffersDontMatch at h
      simp [hm] at h
    | some first =>
      rw [hf] at hm
      rw [throwIfBuffersDontMatch_of_first t first hm] at h
      split at h
      · cases h; exact Or.inr (Or.inl rfl)
      · split at h
        · cases h; exact Or.inr (Or.inr (Or.inl rfl))
        · split at h
          · cases h; exact Or.inr (Or.inr (Or.inr rfl))
          · split at h
            · cases h
            · split at h
              · cases h; exact Or.inl rfl
              · cases h

/-! ## Validation of a configuration -/

/-- On a freshly constructed target, once the loop of `initialize` ran through, the first
populated slot holds a view of the first bound colour surface's texture and every bound
texture below the maximum sits in some populated slot. -/
theorem bindColorSurfaces_first (E : EngineDecls) (base : RenderTarget)
    (desc : MULTI_RENDER_TEXTURE_DESC) (c : ViewCache) (first : Texture)
    (hloop : (MultiRenderTexture.bindColorSurfaces E desc.colorSurfaces 0 false
      (MultiRenderTexture.ctor E base) c).error = none)
    (hfirst : firstBoundColorTexture E desc = some first) :
    ∃ fv : TextureView,
      (MultiRenderTexture.bindColorSurfaces E desc.colorSurfaces 0 false
        (MultiRenderTexture.ctor E base) c).target.mColorSurfaces.reduceOption.head? = some fv ∧
      fv.texture = first ∧
      ∀ x ∈ (desc.colorSurfaces.take E.BS_MAX_MULTIPLE_RENDER_TARGETS).filterMap
          (fun d => d.texture),
        ∃ v ∈ (MultiRenderTexture.bindColorSurfaces E desc.colorSurfaces 0 false
          (MultiRenderTexture.ctor E base) c).target.mColorSurfaces.reduceOption,
          v.texture = x := by
  rw [bindColorSurfaces_populated E base _ c hloop]
  unfold firstBoundColorTexture at hfirst
  rw [← filterMap_colorView_texture] at hfirst ⊢
  cases hL : (desc.colorSurfaces.take E.BS_MAX_MULTIPLE_RENDER_TARGETS).filterMap colorView with
  | nil => rw [hL] at hfirst; simp at hfirst
  | cons fv rest =>
    rw [hL] at hfirst
    simp only [List.map_cons, List.head?_cons, Option.some.injEq] at hfirst
    refine ⟨fv, rfl, hfirst, ?_⟩
    intro x hx
    obtain ⟨v, hv, hvx⟩ := List.mem_map.mp hx
    exact ⟨v, hv, hvx⟩

/-- C4: whenever some populated colour slot's texture differs from the first populated
one's in width, height, multisample count or multisample hint,
`throwIfBuffersDontMatch` throws `InvalidParametersException` ("don't match"); when all
populated slots agree with the first, the colour loop throws nothing and ends with the
first populated slot as `firstSurfaceDesc`; and `initialize` on a freshly constructed
target fails with an `InvalidParametersException` whenever a bound colour surface's
texture differs from the first bound one's. -/
theorem color_surfaces_agreement :
    (∀ (t : MultiRenderTexture) (first : TextureView),
      t.populated.head? = some first →
      (∃ v ∈ t.populated, MultiRenderTexture.dontMatch v.texture first.texture) →
      MultiRenderTexture.throwIfBuffersDontMatch t = Except.error dontMatchException ∧
      dontMatchException.kind = ExceptionKind.InvalidParametersException) ∧
    (∀ (t : MultiRenderTexture) (first : TextureView),
      t.populated.head? = some first →
      (∀ v ∈ t.populated, ¬ MultiRenderTexture.dontMatch v.texture first.texture) →
      MultiRenderTexture.matchColorSurfaces t.mColorSurfaces none
        = Except.ok (some first)) ∧
    (∀ (E : EngineDecls) (base : RenderTarget) (desc : MULTI_RENDER_TEXTURE_DESC)
      (c : ViewCache) (first : Texture),
      firstBoundColorTexture E desc = some first →
      (∃ x ∈ (desc.colorSurfaces.take E.BS_MAX_MULTIPLE_RENDER_TARGETS).filterMap
          (fun d => d.texture), MultiRenderTexture.dontMatch x first) →
      ∃ e, ( MultiRenderTexture.initialize E desc (MultiRenderTexture.ctor E base) c).error
          = some e ∧ e.kind = ExceptionKind.InvalidParametersException) := by
  refine ⟨?_, ?_, ?_⟩
  · intro t first hfirst hdiff
    refine ⟨?_, rfl⟩
    unfold MultiRenderTexture.throwIfBuffersDontMatch
    rw [matchColorSurfaces_error t.mColorSurfaces first hfirst hdiff]
  · exact matchColorSurfaces_of_agree
  · intro E base desc c first hfirst hdiff
    cases hloop : (MultiRenderTexture.bindColorSurfaces E desc.colorSurfaces 0 false
        (MultiRenderTexture.ctor E base) c).error with
    | some e => exact ⟨_, initialize_of_loop_error E desc _ c e hloop, rfl⟩
    | none =>
      obtain ⟨fv, hfv, hfvt, hall⟩ := bindColorSurfaces_first E base desc c first hloop hfirst
      obtain ⟨x, hx, hxd⟩ := hdiff
      obtain ⟨v, hv, hvx⟩ := hall x hx
      have hm := matchColorSurfaces_error _ fv hfv ⟨v, hv, by rw [hvx, hfvt]; exact hxd⟩
      rw [initialize_of_loop_ok E desc _ c hloop]
      split
      · refine ⟨dontMatchException, ?_, rfl⟩
        rw [validate_error]
        unfold MultiRenderTexture.throwIfBuffersDontMatch
        rw [hm]
      · split
        · exact ⟨_, rfl, rfl⟩
        · refine ⟨dontMatchException, ?_, rfl⟩
          rw [validate_error]
          unfold MultiRenderTexture.throwIfBuffersDontMatch
          simp only [hm]

/-- C4 on a target holding a 1-sample and a 2-sample view, on one holding two agreeing
views, and on `mismatchDesc`. -/
theorem color_surfaces_agreement_witness :
    MultiRenderTexture.throwIfBuffersDontMatch
      (targetHolding [some (sampleView (sampleTexture 1 4 4 1)), none,
        some (sampleView (sampleTexture 2 4 4 2))] none)
      = Except.error dontMatchException ∧
    MultiRenderTexture.matchColorSurfaces
      [none, some (sampleView (sampleTexture 1 4 4 2)),
        some (sampleView (sampleTexture 2 4 4 2))] none
      = Except.ok (some (sampleView (sampleTexture 1 4 4 2))) ∧
    ∃ e, ( MultiRenderTexture.initialize sampleEngine mismatchDesc
        (MultiRenderTexture.ctor sampleEngine sampleBase) emptyCache).error = some e ∧
      e.kind = ExceptionKind.InvalidParametersException :=
  ⟨(color_surfaces_agreement.1
      (targetHolding [some (sampleView (sampleTexture 1 4 4 1)), none,
        some (sampleView (sampleTexture 2 4 4 2))] none)
      (sampleView (sampleTexture 1 4 4 1)) (by decide) (by decide)).1,
   color_surfaces_agreement.2.1
      (targetHolding [none, some (sampleView (sampleTexture 1 4 4 2)),
        some (sampleView (sampleTexture 2 4 4 2))] none)
      (sampleView (sampleTexture 1 4 4 2)) (by decide) (by decide),
   color_surfaces_agreement.2.2 sampleEngine sampleBase mismatchDesc emptyCache
      (sampleTexture 1 4 4 1) (by decide) (by decide)⟩

/-- C5: on a freshly constructed target, `initialize` fails whenever the configuration
has a bound colour surface and a depth/stencil surface whose texture differs from the
first bound colour surface's texture in width, height, multisample count or multisample
hint. -/
theorem initialize_depth_must_agree (E : EngineDecls) (base : RenderTarget)
    (desc : MULTI_RENDER_TEXTURE_DESC) (c : ViewCache) (first depth : Texture)
    (hfirst : firstBoundColorTexture E desc = some first)
    (hdepth : desc.depthStencilSurface.texture = some depth)
    (hdiff : MultiRenderTexture.dontMatch depth first) :
    ∃ e, ( MultiRenderTexture.initialize E desc (MultiRenderTexture.ctor E base) c).error
      = some e := by
  cases hloop : (MultiRenderTexture.bindColorSurfaces E desc.colorSurfaces 0 false
      (MultiRenderTexture.ctor E base) c).error with
  | some e => exact ⟨_, initialize_of_loop_error E desc _ c e hloop⟩
  | none =>
    obtain ⟨fv, hfv, hfvt, -⟩ := bindColorSurfaces_first E base desc c first hloop hfirst
    rw [initialize_of_loop_ok E desc _ c hloop, hdepth]
    simp only []
    split
    · exact ⟨_, rfl⟩
    · rw [validate_error]
      obtain ⟨e, he⟩ := throwIfBuffersDontMatch_depth
        { (MultiRenderTexture.bindColorSurfaces E desc.colorSurfaces 0 false
            (MultiRenderTexture.ctor E base) c).target with
          mDepthStencilSurface := some (Texture.requestView depth
            desc.depthStencilSurface.mipLevel 1 desc.depthStencilSurface.face
            desc.depthStencilSurface.numFaces GpuViewUsage.GVU_DEPTHSTENCIL
            (MultiRenderTexture.bindColorSurfaces E desc.colorSurfaces 0 false
              (MultiRenderTexture.ctor E base) c).cache).1 }
        fv _ hfv rfl (by rw [requestView_texture, hfvt]; exact hdiff)
      exact ⟨e, by rw [he]⟩

/-- C5 on `depthMismatchDesc`: a 4 by 4 colour surface with an 8 by 8 depth/stencil
surface. -/
theorem initialize_depth_must_agree_witness :
    ∃ e, ( MultiRenderTexture.initialize sampleEngine depthMismatchDesc
      (MultiRenderTexture.ctor sampleEngine sampleBase) emptyCache).error = some e :=
  initialize_depth_must_agree sampleEngine sampleBase depthMismatchDesc emptyCache
    (sampleTexture 1 4 4 1) (depthTexture 2 8 8 1) (by decide) (by decide) (by decide)

/-! ## The usage checks -/

/-- The loop of `initialize` throws the usage exception when an entry it reaches below
the maximum has a texture that was not created with render-target usage. -/
theorem bindColorSurfaces_usage_error (E : EngineDecls) :
    ∀ (ds : List RENDER_SURFACE_DESC) (i : Nat) (flag : Bool) (t : MultiRenderTexture)
      (c : ViewCache),
      (∃ d ∈ ds.take (E.BS_MAX_MULTIPLE_RENDER_TARGETS - i), ∃ texture,
        d.texture = some texture ∧ texture.usage ≠ TextureUsage.TU_RENDERTARGET) →
      (MultiRenderTexture.bindColorSurfaces E ds i flag t c).error
        = some notRenderTargetException := by
  intro ds
  induction ds with
  | nil =>
    intro i flag t c h
    simp at h
  | cons d rest ih =>
    intro i flag t c h
    obtain ⟨b, hb, texture, hbt, hbu⟩ := h
    obtain ⟨n, hn⟩ : ∃ n, E.BS_MAX_MULTIPLE_RENDER_TARGETS - i = n + 1 := by
      cases hz : E.BS_MAX_MULTIPLE_RENDER_TARGETS - i with
      | zero => rw [hz] at hb; simp at hb
      | succ n => exact ⟨n, rfl⟩
    have h1 : E.BS_MAX_MULTIPLE_RENDER_TARGETS - (i + 1) = n := by omega
    have hi : ¬ i ≥ E.BS_MAX_MULTIPLE_RENDER_TARGETS := by omega
    rw [hn, List.take_succ_cons] at hb
    unfold MultiRenderTexture.bindColorSurfaces
    rcases List.mem_cons.mp hb with rfl | hb
    · simp only [hbt, hi, if_false, hbu, ne_eq, not_false_eq_true, if_true]
      rfl
    · have hrest : ∃ d ∈ rest.take (E.BS_MAX_MULTIPLE_RENDER_TARGETS - (i + 1)), ∃ texture,
          d.texture = some texture ∧ texture.usage ≠ TextureUsage.TU_RENDERTARGET :=
        ⟨b, by rw [h1]; exact hb, texture, hbt, hbu⟩
      split
      · exact ih _ _ _ _ hrest
      · simp only [hi, if_false]
        split
        · rfl
        · exact ih _ _ _ _ hrest

/-- The loop of `initialize` runs through when every entry below the maximum that has a
texture has one created with render-target usage. -/
theorem bindColorSurfaces_usage_ok (E : EngineDecls) :
    ∀ (ds : List RENDER_SURFACE_DESC) (i : Nat) (flag : Bool) (t : MultiRenderTexture)
      (c : ViewCache),
      (∀ d ∈ ds.take (E.BS_MAX_MULTIPLE_RENDER_TARGETS - i), ∀ texture,
        d.texture = some texture → texture.usage = TextureUsage.TU_RENDERTARGET) →
      (MultiRenderTexture.bindColorSurfaces E ds i flag t c).error = none := by
  intro ds
  induction ds with
  | nil =>
    intro i flag t c _
    rfl
  | cons d rest ih =>
    intro i flag t c h
    have hrest : ∀ b ∈ rest.take (E.BS_MAX_MULTIPLE_RENDER_TARGETS - (i + 1)), ∀ texture,
        b.texture = some texture → texture.usage = TextureUsage.TU_RENDERTARGET := by
      intro b hb texture hbt
      cases hz : E.BS_MAX_MULTIPLE_RENDER_TARGETS - i with
      | zero =>
        have h0 : E.BS_MAX_MULTIPLE_RENDER_TARGETS - (i + 1) = 0 := by omega
        rw [h0] at hb
        simp at hb
      | succ n =>
        have h1 : E.BS_MAX_MULTIPLE_RENDER_TARGETS - (i + 1) = n := by omega
        rw [hz, List.take_succ_cons] at h
        rw [h1] at hb
        exact h b (List.mem_cons_of_mem _ hb) texture hbt
    unfold MultiRenderTexture.bindColorSurfaces
    split
    · exact ih _ _ _ _ hrest
    · rename_i texture hd
      split
      · exact ih _ _ _ _ hrest
      · rename_i hi
        obtain ⟨n, hn⟩ : ∃ n, E.BS_MAX_MULTIPLE_RENDER_TARGETS - i = n + 1 :=
          ⟨E.BS_MAX_MULTIPLE_RENDER_TARGETS - i - 1, by omega⟩
        rw [hn, List.take_succ_cons] at h
        have hu := h d (List.mem_cons_self _ _) texture hd
        simp only [hu, ne_eq, not_true_eq_false, if_false]
        exact ih _ _ _ _ hrest

/-- The closing validation throws no usage exception. -/
theorem validate_no_usage_error (t : MultiRenderTexture) (c : ViewCache) (e : Exception)
    (h : (MultiRenderTexture.validate t c).error = some e) :
    e.text ≠ ExceptionText.notRenderTargetUsage ∧
      e.text ≠ ExceptionText.notDepthStencilUsage := by
  rw [validate_error] at h
  split at h
  · rename_i e1 he1
    simp only [Option.some.injEq] at h
    subst h
    rcases throwIfBuffersDontMatch_error t e1 he1 with rfl | rfl | rfl | rfl <;>
      exact ⟨by decide, by decide⟩
  · cases h

/-- C6: `initialize` fails with an `InvalidParametersException` (of the render-target
usage text) whenever an entry below the maximum has a texture whose usage is not
render-target, and with an `InvalidParametersException` whenever the depth/stencil entry
has a texture whose usage is not depth-stencil; when every texture supplied below the
maximum has render-target usage and the depth/stencil texture, if supplied, has
depth-stencil usage, whatever exception `initialize` throws is not a usage exception. -/
theorem initialize_usage_checks :
    (∀ (E : EngineDecls) (desc : MULTI_RENDER_TEXTURE_DESC) (t : MultiRenderTexture)
      (c : ViewCache),
      (∃ d ∈ desc.colorSurfaces.take E.BS_MAX_MULTIPLE_RENDER_TARGETS, ∃ texture,
        d.texture = some texture ∧ texture.usage ≠ TextureUsage.TU_RENDERTARGET) →
      ∃ e, ( MultiRenderTexture.initialize E desc t c).error = some e ∧
        e.kind = ExceptionKind.InvalidParametersException ∧
        e.text = ExceptionText.notRenderTargetUsage) ∧
    (∀ (E : EngineDecls) (desc : MULTI_RENDER_TEXTURE_DESC) (t : MultiRenderTexture)
      (c : ViewCache) (texture : Texture),
      desc.depthStencilSurface.texture = some texture →
      texture.usage ≠ TextureUsage.TU_DEPTHSTENCIL →
      ∃ e, ( MultiRenderTexture.initialize E desc t c).error = some e ∧
        e.kind = ExceptionKind.InvalidParametersException ∧
        (e.text = ExceptionText.notRenderTargetUsage ∨
          e.text = ExceptionText.notDepthStencilUsage)) ∧
    (∀ (E : EngineDecls) (desc : MULTI_RENDER_TEXTURE_DESC) (t : MultiRenderTexture)
      (c : ViewCache),
      (∀ d ∈ desc.colorSurfaces.take E.BS_MAX_MULTIPLE_RENDER_TARGETS, ∀ texture,
        d.texture = some texture → texture.usage = TextureUsage.TU_RENDERTARGET) →
      (∀ texture, desc.depthStencilSurface.texture = some texture →
        texture.usage = TextureUsage.TU_DEPTHSTENCIL) →
      ∀ e, ( MultiRenderTexture.initialize E desc t c).error = some e →
        e.text ≠ ExceptionText.notRenderTargetUsage ∧
        e.text ≠ ExceptionText.notDepthStencilUsage) := by
  refine ⟨?_, ?_, ?_⟩
  · intro E desc t c h
    have hloop := bindColorSurfaces_usage_error E desc.colorSurfaces 0 false t c
      (by simpa using h)
    exact ⟨_, initialize_of_loop_error E desc t c _ hloop, rfl, rfl⟩
  · intro E desc t c texture hd hu
    cases hloop : (MultiRenderTexture.bindColorSurfaces E desc.colorSurfaces 0 false t
        c).error with
    | some e => exact ⟨_, initialize_of_loop_error E desc t c e hloop, rfl, Or.inl rfl⟩
    | none =>
      rw [initialize_of_loop_ok E desc t c hloop, hd]
      simp only [hu, ne_eq, not_false_eq_true, if_true]
      exact ⟨_, rfl, rfl, Or.inr rfl⟩
  · intro E desc t c hcolor hdepth e he
    have hloop := bindColorSurfaces_usage_ok E desc.colorSurfaces 0 false t c
      (by simpa using hcolor)
    rw [initialize_of_loop_ok E desc t c hloop] at he
    split at he
    · exact validate_no_usage_error _ _ e he
    · rename_i texture hd
      simp only [hdepth texture hd, ne_eq, not_true_eq_false, if_false] at he
      exact validate_no_usage_error _ _ e he

/-- C6 on a colour texture of depth-stencil usage in slot 1, on a depth/stencil texture
of render-target usage, and on `mismatchDesc`, whose textures have the required usage
and which fails with the "don't match" text. -/
theorem initialize_usage_checks_witness :
    (∃ e, ( MultiRenderTexture.initialize sampleEngine wrongColorUsageDesc freshTarget
        emptyCache).error = some e ∧
      e.kind = ExceptionKind.InvalidParametersException ∧
      e.text = ExceptionText.notRenderTargetUsage) ∧
    (∃ e, ( MultiRenderTexture.initialize sampleEngine wrongDepthUsageDesc freshTarget
        emptyCache).error = some e ∧
      e.kind = ExceptionKind.InvalidParametersException ∧
      (e.text = ExceptionText.notRenderTargetUsage ∨
        e.text = ExceptionText.notDepthStencilUsage)) ∧
    ( MultiRenderTexture.initialize sampleEngine mismatchDesc freshTarget emptyCache).error
      = some dontMatchException ∧
    dontMatchException.text ≠ ExceptionText.notRenderTargetUsage ∧
    dontMatchException.text ≠ ExceptionText.notDepthStencilUsage :=
  ⟨initialize_usage_checks.1 sampleEngine wrongColorUsageDesc freshTarget emptyCache
      (by decide),
   initialize_usage_checks.2.1 sampleEngine wrongDepthUsageDesc freshTarget emptyCache
      (sampleTexture 2 4 4 1) (by decide) (by decide),
   by decide,
   initialize_usage_checks.2.2 sampleEngine mismatchDesc freshTarget emptyCache
      (by decide) (by decide) dontMatchException (by decide)⟩

/-! ## The checks on the first populated colour surface -/

/-- C7 (the code departs from it): when the populated colour slots agree and the first of
them is a view of a 2D texture, `throwIfBuffersDontMatch` throws the "faces out of range"
`InvalidParametersException` exactly when `firstArraySlice + numArraySlices` (a `UINT32`
sum) is greater than OR EQUAL TO the texture's face count (line 123 tests `>=`), so a
range that ends exactly at the face count is rejected. -/
theorem slice_check_rejects_from_face_count (t : MultiRenderTexture) (first : TextureView)
    (hfirst : t.populated.head? = some first)
    (hagree : ∀ v ∈ t.populated, ¬ MultiRenderTexture.dontMatch v.texture first.texture)
    (h2D : first.texture.textureType = TextureType.TEX_TYPE_2D) :
    MultiRenderTexture.throwIfBuffersDontMatch t = Except.error facesOutOfRangeException ↔
      (first.mDesc.firstArraySlice + first.mDesc.numArraySlices) % 2 ^ 32
        ≥ first.texture.numFaces := by
  rw [throwIfBuffersDontMatch_of_first t first (matchColorSurfaces_of_agree t first hfirst hagree)]
  simp only [h2D, ne_eq, not_true_eq_false, if_false]
  by_cases hs : (first.mDesc.firstArraySlice + first.mDesc.numArraySlices) % 2 ^ 32
      ≥ first.texture.numFaces
  · simp only [hs, if_true]
  · simp only [hs, if_false, iff_false]
    split
    · exact fun h => absurd (Except.error.inj h) (by decide)
    · split
      · exact fun h => by cases h
      · split
        · exact fun h => absurd (Except.error.inj h) (by decide)
        · exact fun h => by cases h

/-- C7 at slice 0, one slice, on a 2D texture with one face: the range fits the texture,
yet `throwIfBuffersDontMatch` rejects it, and so does `initialize` for the configuration
entry that asks for this view. -/
theorem slice_check_rejects_from_face_count_witness :
    (oneFaceView (sampleTexture 1 4 4 1)).mDesc.firstArraySlice
      + (oneFaceView (sampleTexture 1 4 4 1)).mDesc.numArraySlices
      ≤ (sampleTexture 1 4 4 1).numFaces ∧
    MultiRenderTexture.throwIfBuffersDontMatch
      (targetHolding [some (oneFaceView (sampleTexture 1 4 4 1))] none)
      = Except.error facesOutOfRangeException ∧
    ( MultiRenderTexture.initialize sampleEngine
      { colorSurfaces := [oneFaceSurface (sampleTexture 1 4 4 1)],
        depthStencilSurface := noSurface } freshTarget emptyCache).error
      = some facesOutOfRangeException :=
  ⟨by decide,
   (slice_check_rejects_from_face_count
      (targetHolding [some (oneFaceView (sampleTexture 1 4 4 1))] none)
      (oneFaceView (sampleTexture 1 4 4 1)) (by decide) (by decide) (by decide)).mpr
      (by decide),
   by decide⟩

/-- C8 (the code departs from it): when the populated colour slots agree, the first of
them is a view of a 2D texture and its slice range passes the slice check,
`throwIfBuffersDontMatch` throws the "mip maps out of range" `InvalidParametersException`
exactly when the view's most detailed mip is greater than OR EQUAL TO the texture's
`getNumMipmaps()` (line 129 tests `>=`), so the mip index equal to the mip count is
rejected. -/
theorem mip_check_rejects_from_mip_count (t : MultiRenderTexture) (first : TextureView)
    (hfirst : t.populated.head? = some first)
    (hagree : ∀ v ∈ t.populated, ¬ MultiRenderTexture.dontMatch v.texture first.texture)
    (h2D : first.texture.textureType = TextureType.TEX_TYPE_2D)
    (hslice : (first.mDesc.firstArraySlice + first.mDesc.numArraySlices) % 2 ^ 32
      < first.texture.numFaces) :
    MultiRenderTexture.throwIfBuffersDontMatch t
        = Except.error mipMapsOutOfRangeException ↔
      first.mDesc.mostDetailMip ≥ first.texture.numMipmaps := by
  rw [throwIfBuffersDontMatch_of_first t first (matchColorSurfaces_of_agree t first hfirst hagree)]
  have hs : ¬ (first.mDesc.firstArraySlice + first.mDesc.numArraySlices) % 2 ^ 32
      ≥ first.texture.numFaces := by omega
  simp only [h2D, ne_eq, not_true_eq_false, if_false, hs]
  by_cases hm : first.mDesc.mostDetailMip ≥ first.texture.numMipmaps
  · simp only [hm, if_true]
  · simp only [hm, if_false, iff_false]
    split
    · exact fun h => by cases h
    · split
      · exact fun h => absurd (Except.error.inj h) (by decide)
      · exact fun h => by cases h

/-- C8 at mip 0 of a 2D texture whose `getNumMipmaps()` is 0: the mip index does not
exceed the mip count, yet `throwIfBuffersDontMatch` rejects it, and so does `initialize`
for the configuration entry that asks for this view. -/
theorem mip_check_rejects_from_mip_count_witness :
    (sampleView (topLevelOnlyTexture 1 4 4)).mDesc.mostDetailMip
      ≤ (topLevelOnlyTexture 1 4 4).numMipmaps ∧
    MultiRenderTexture.throwIfBuffersDontMatch
      (targetHolding [some (sampleView (topLevelOnlyTexture 1 4 4))] none)
      = Except.error mipMapsOutOfRangeException ∧
    ( MultiRenderTexture.initialize sampleEngine
      { colorSurfaces := [sampleSurface (topLevelOnlyTexture 1 4 4)],
        depthStencilSurface := noSurface } freshTarget emptyCache).error
      = some mipMapsOutOfRangeException :=
  ⟨by decide,
   (mip_check_rejects_from_mip_count
      (targetHolding [some (sampleView (topLevelOnlyTexture 1 4 4))] none)
      (sampleView (topLevelOnlyTexture 1 4 4)) (by decide) (by decide) (by decide)
      (by decide)).mpr (by decide),
   by decide⟩

/-- C9 as stated fails: on a target whose only colour surface is a view of a cube map,
`throwIfBuffersDontMatch` throws no exception of the `InvalidParametersException` kind;
what it throws is a `NotImplementedException`. -/
theorem non2D_not_invalid_parameters :
    ¬ ∃ e, MultiRenderTexture.throwIfBuffersDontMatch
        (targetHolding [some (sampleView (cubeTexture 1 4))] none) = Except.error e ∧
      e.kind = ExceptionKind.InvalidParametersException := by
  rintro ⟨e, he, hk⟩
  have h : MultiRenderTexture.throwIfBuffersDontMatch
      (targetHolding [some (sampleView (cubeTexture 1 4))] none)
      = Except.error only2DException := rfl
  rw [h] at he
  cases he
  exact absurd hk (by decide)

/-- C9 (amended): when the populated colour slots agree and the first of them is a view of
a texture that is not a plain 2D texture, `throwIfBuffersDontMatch` fails with a
`NotImplementedException`, a kind other than the `InvalidParametersException` of the
usage, size/sample and mip/slice failures. -/
theorem non2D_not_implemented (t : MultiRenderTexture) (first : TextureView)
    (hfirst : t.populated.head? = some first)
    (hagree : ∀ v ∈ t.populated, ¬ MultiRenderTexture.dontMatch v.texture first.texture)
    (hnot2D : first.texture.textureType ≠ TextureType.TEX_TYPE_2D) :
    ∃ e, MultiRenderTexture.throwIfBuffersDontMatch t = Except.error e ∧
      e.kind = ExceptionKind.NotImplementedException ∧
      e.kind ≠ ExceptionKind.InvalidParametersException := by
  rw [throwIfBuffersDontMatch_of_first t first (matchColorSurfaces_of_agree t first hfirst hagree)]
  simp only [hnot2D, ne_eq, not_false_eq_true, if_true]
  exact ⟨only2DException, rfl, rfl, by decide⟩

/-- C9 (amended) on a target holding two agreeing views of 3D textures. -/
theorem non2D_not_implemented_witness :
    ∃ e, MultiRenderTexture.throwIfBuffersDontMatch
        (targetHolding
          [some (sampleView { sampleTexture 1 4 4 1 with
              textureType := TextureType.TEX_TYPE_3D }),
           some (sampleView { sampleTexture 2 4 4 1 with
              textureType := TextureType.TEX_TYPE_3D })] none) = Except.error e ∧
      e.kind = ExceptionKind.NotImplementedException ∧
      e.kind ≠ ExceptionKind.InvalidParametersException :=
  non2D_not_implemented _
    (sampleView { sampleTexture 1 4 4 1 with textureType := TextureType.TEX_TYPE_3D })
    (by decide) (by decide) (by decide)

/-! ## Reference counts -/

/-- A request raises the count of the requested view by one and no other count. -/
theorem requestView_countOf (texture : Texture) (a b f n : Nat) (u : GpuViewUsage)
    (c : ViewCache) (v : TextureView) :
    (Texture.requestView texture a b f n u c).2.countOf v
      = c.countOf v + List.count v [(Texture.requestView texture a b f n u c).1] := by
  obtain ⟨vt, vd⟩ := v
  unfold Texture.requestView ViewCache.countOf ViewCache.setCount
  simp only [List.count_singleton, beq_iff_eq]
  by_cases hv : vt = texture ∧ vd =
      { mostDetailMip := a, numMips := b, firstArraySlice := f, numArraySlices := n,
        usage := u }
  · obtain ⟨rfl, rfl⟩ := hv
    split <;> simp_all
  · split <;>
    · simp only [hv, if_false]
      rw [if_neg]
      · rfl
      · intro h
        apply hv
        cases h
        exact ⟨rfl, rfl⟩

/-- A request is logged after the calls made so far. -/
theorem requestView_calls (texture : Texture) (a b f n : Nat) (u : GpuViewUsage)
    (c : ViewCache) :
    (Texture.requestView texture a b f n u c).2.calls
      = c.calls ++ [ViewCall.request (Texture.requestView texture a b f n u c).1] := by
  unfold Texture.requestView
  simp only []
  split <;> rfl

/-- A release is logged after the calls made so far, whether it throws or not. -/
theorem releaseView_calls (w : TextureView) (c : ViewCache) :
    (Texture.releaseView w c).2.calls = c.calls ++ [ViewCall.release w] := by
  unfold Texture.releaseView
  simp only []
  split <;> rfl

/-- A release throws exactly when the cache holds no reference to the view. -/
theorem releaseView_error (w : TextureView) (c : ViewCache) :
    (Texture.releaseView w c).1 = none ↔ c.countOf w ≠ 0 := by
  unfold Texture.releaseView ViewCache.countOf
  simp only []
  split <;> simp_all

/-- A release that does not throw lowers the count of the released view by one and no
other count. -/
theorem releaseView_countOf (w : TextureView) (c : ViewCache) (h : c.countOf w ≠ 0)
    (v : TextureView) :
    (Texture.releaseView w c).2.countOf v + List.count v [w] = c.countOf v := by
  obtain ⟨vt, vd⟩ := v
  obtain ⟨wt, wd⟩ := w
  unfold ViewCache.countOf at h
  unfold Texture.releaseView ViewCache.countOf ViewCache.setCount
  simp only [List.count_singleton, beq_iff_eq, h, if_false, TextureView.mk.injEq]
  by_cases hv : vt = wt ∧ vd = wd
  · obtain ⟨rfl, rfl⟩ := hv
    simp only [and_self, if_true]
    simp only [] at h
    omega
  · simp only [hv, if_false]
    rw [if_neg (fun hw => hv ⟨hw.1.symm, hw.2.symm⟩)]
    rfl

/-- Every reference the loop of `initialize` takes is held by a colour slot, whether the
loop runs through or throws: when the slots from `i` on were null before, each count has
grown by the number of slots that came to hold the view. The depth/stencil slot is not
touched. -/
theorem bindColorSurfaces_counts (E : EngineDecls) :
    ∀ (ds : List RENDER_SURFACE_DESC) (i : Nat) (flag : Bool) (t : MultiRenderTexture)
      (c : ViewCache) (pre : List (Option TextureView)),
      t.mColorSurfaces
        = pre ++ List.replicate (E.BS_MAX_MULTIPLE_RENDER_TARGETS - i) none →
      pre.length = min i E.BS_MAX_MULTIPLE_RENDER_TARGETS →
      (MultiRenderTexture.bindColorSurfaces E ds i flag t c).target.mDepthStencilSurface
        = t.mDepthStencilSurface ∧
      ∀ v : TextureView,
        (MultiRenderTexture.bindColorSurfaces E ds i flag t c).cache.countOf v
            + List.count v pre.reduceOption
          = c.countOf v + List.count v
              (MultiRenderTexture.bindColorSurfaces E ds i flag t
                c).target.mColorSurfaces.reduceOption := by
  intro ds
  induction ds with
  | nil =>
    intro i flag t c pre ht _
    refine ⟨rfl, fun v => ?_⟩
    simp [MultiRenderTexture.bindColorSurfaces, ht, List.reduceOption_append,
      reduceOption_replicate_none]
  | cons d rest ih =>
    intro i flag t c pre ht hpre
    unfold MultiRenderTexture.bindColorSurfaces
    by_cases hi : i ≥ E.BS_MAX_MULTIPLE_RENDER_TARGETS
    · have h0 : E.BS_MAX_MULTIPLE_RENDER_TARGETS - i = 0 := by omega
      have h1 : E.BS_MAX_MULTIPLE_RENDER_TARGETS - (i + 1) = 0 := by omega
      have key := ih (i + 1) flag t c pre (by rw [ht, h0, h1]) (by omega)
      cases hd : d.texture with
      | none => simpa only [hd] using key
      | some texture => simpa only [hd, hi, if_true] using key
    · obtain ⟨n, hn⟩ : ∃ n, E.BS_MAX_MULTIPLE_RENDER_TARGETS - i = n + 1 :=
        ⟨E.BS_MAX_MULTIPLE_RENDER_TARGETS - i - 1, by omega⟩
      have h1 : E.BS_MAX_MULTIPLE_RENDER_TARGETS - (i + 1) = n := by omega
      have hlen : pre.length = i := by omega
      rw [hn, List.replicate_succ] at ht
      cases hd : d.texture with
      | none =>
        simp only [hd]
        have key := ih (i + 1) flag t c (pre ++ [none])
          (by rw [ht, h1]; simp) (by simp; omega)
        refine ⟨key.1, fun v => ?_⟩
        have kv := key.2 v
        rw [List.reduceOption_append, List.reduceOption_cons_of_none] at kv
        simpa using kv
      | some texture =>
        simp only [hd, hi, if_false]
        by_cases hu : texture.usage ≠ TextureUsage.TU_RENDERTARGET
        · rw [if_pos hu]
          refine ⟨rfl, fun v => ?_⟩
          show c.countOf v + List.count v pre.reduceOption
            = c.countOf v + List.count v t.mColorSurfaces.reduceOption
          rw [ht, List.reduceOption_append, List.reduceOption_cons_of_none,
            reduceOption_replicate_none, List.append_nil]
        · rw [if_neg hu]
          have key := ih (i + 1) true
            (if flag = true then
              { t with mColorSurfaces := t.mColorSurfaces.set i (some (Texture.requestView
                  texture d.mipLevel 1 d.face d.numFaces GpuViewUsage.GVU_RENDERTARGET c).1) }
             else
              { t with
                mColorSurfaces := t.mColorSurfaces.set i (some (Texture.requestView
                  texture d.mipLevel 1 d.face d.numFaces GpuViewUsage.GVU_RENDERTARGET c).1)
                mWidth := texture.width
                mHeight := texture.width
                mColorDepth := E.getNumElemBits texture.format
                mActive := true
                mHwGamma := texture.hwGamma
                mMultisampleCount := texture.multisampleCount
                mMultisampleHint := texture.multisampleHint })
            (Texture.requestView texture d.mipLevel 1 d.face d.numFaces
              GpuViewUsage.GVU_RENDERTARGET c).2
            (pre ++ [some (Texture.requestView texture d.mipLevel 1 d.face d.numFaces
              GpuViewUsage.GVU_RENDERTARGET c).1])
            (by rw [h1]; cases flag <;> simp [ht, ← hlen, set_length_append])
            (by simp; omega)
          refine ⟨?_, fun v => ?_⟩
          · rw [key.1]
            cases flag <;> rfl
          · have kv := key.2 v
            rw [List.reduceOption_append, List.reduceOption_cons_of_some,
              List.reduceOption_nil, List.count_append, requestView_countOf] at kv
            omega

/-- Releasing the colour slots in turn, when the cache holds at least as many references
to each view as slots hold it: no release throws and each count drops by the number of
slots holding the view. -/
theorem releaseColorSurfaces_counts :
    ∀ (slots : List (Option TextureView)) (c : ViewCache),
      (∀ v : TextureView, List.count v slots.reduceOption ≤ c.countOf v) →
      (MultiRenderTexture.releaseColorSurfaces slots c).1 = none ∧
      ∀ v : TextureView,
        (MultiRenderTexture.releaseColorSurfaces slots c).2.countOf v
          + List.count v slots.reduceOption = c.countOf v := by
  intro slots
  induction slots with
  | nil =>
    intro c _
    exact ⟨rfl, fun v => by simp [MultiRenderTexture.releaseColorSurfaces]⟩
  | cons x rest ih =>
    intro c h
    cases x with
    | none =>
      rw [List.reduceOption_cons_of_none] at h
      simpa [MultiRenderTexture.releaseColorSurfaces, List.reduceOption_cons_of_none]
        using ih c h
    | some w =>
      simp only [List.reduceOption_cons_of_some] at h ⊢
      have hw : c.countOf w ≠ 0 := by
        have := h w
        rw [List.count_cons_self] at this
        omega
      have hnone := (releaseView_error w c).mpr hw
      have hrel := releaseView_countOf w c hw
      have hrest : ∀ v : TextureView,
          List.count v rest.reduceOption ≤ (Texture.releaseView w c).2.countOf v := by
        intro v
        have h1 := h v
        have h2 := hrel v
        rw [List.count_cons] at h1
        rw [List.count_singleton] at h2
        omega
      obtain ⟨ih1, ih2⟩ := ih (Texture.releaseView w c).2 hrest
      unfold MultiRenderTexture.releaseColorSurfaces
      cases hr : Texture.releaseView w c with
      | mk e c1 =>
        rw [hr] at hnone ih1 ih2 hrel
        simp only [] at hnone ih1 ih2 hrel
        subst hnone
        simp only []
        refine ⟨ih1, fun v => ?_⟩
        have h2 := hrel v
        have h3 := ih2 v
        rw [List.count_cons]
        rw [List.count_singleton] at h2
        omega

/-- When the loop of `initialize` throws, `initialize` ends in the state the loop left. -/
theorem initialize_eq_of_loop_error (E : EngineDecls) (desc : MULTI_RENDER_TEXTURE_DESC)
    (t : MultiRenderTexture) (c : ViewCache) (e : Exception)
    (h : (MultiRenderTexture.bindColorSurfaces E desc.colorSurfaces 0 false t c).error
      = some e) :
    MultiRenderTexture.initialize E desc t c
      = MultiRenderTexture.bindColorSurfaces E desc.colorSurfaces 0 false t c := by
  unfold MultiRenderTexture.initialize
  simp only [h]

/-- The closing validation changes neither the target nor the cache. -/
theorem validate_state (t : MultiRenderTexture) (c : ViewCache) :
    (MultiRenderTexture.validate t c).target = t ∧
      (MultiRenderTexture.validate t c).cache = c := by
  unfold MultiRenderTexture.validate
  split <;> exact ⟨rfl, rfl⟩

/-- Every reference `initialize` takes on a freshly constructed target is held by a slot
of the target, whether `initialize` returns or throws. -/
theorem initialize_counts (E : EngineDecls) (base : RenderTarget)
    (desc : MULTI_RENDER_TEXTURE_DESC) (c : ViewCache) (v : TextureView) :
    ( MultiRenderTexture.initialize E desc (MultiRenderTexture.ctor E base) c).cache.countOf v
      = c.countOf v + List.count v
        ( MultiRenderTexture.initialize E desc (MultiRenderTexture.ctor E base)
          c).target.held := by
  obtain ⟨hdepth, hcount⟩ := bindColorSurfaces_counts E desc.colorSurfaces 0 false
    (MultiRenderTexture.ctor E base) c [] (by simp [MultiRenderTexture.ctor]) (by simp)
  have hc := hcount v
  simp only [List.reduceOption_nil, List.count_nil, Nat.add_zero] at hc
  have hd : (MultiRenderTexture.bindColorSurfaces E desc.colorSurfaces 0 false
      (MultiRenderTexture.ctor E base) c).target.mDepthStencilSurface = none := by
    rw [hdepth]; rfl
  cases hloop : (MultiRenderTexture.bindColorSurfaces E desc.colorSurfaces 0 false
      (MultiRenderTexture.ctor E base) c).error with
  | some e =>
    rw [initialize_eq_of_loop_error E desc _ c e hloop]
    unfold MultiRenderTexture.held MultiRenderTexture.populated
    rw [hd, hc]
    simp
  | none =>
    rw [initialize_of_loop_ok E desc _ c hloop]
    split
    · rw [(validate_state _ _).1, (validate_state _ _).2]
      unfold MultiRenderTexture.held MultiRenderTexture.populated
      rw [hd, hc]
      simp
    · split
      · unfold MultiRenderTexture.held MultiRenderTexture.populated
        simp only []
        rw [hd, hc]
        simp
      · rw [(validate_state _ _).1, (validate_state _ _).2]
        unfold MultiRenderTexture.held MultiRenderTexture.populated
        simp only [Option.toList_some, List.count_append]
        rw [requestView_countOf, hc]
        omega

/-- Running `destroy_internal` when the cache holds at least as many references to each
view as the target holds: nothing throws, and each count drops by the number of slots
holding the view. -/
theorem destroy_internal_counts (t : MultiRenderTexture) (c : ViewCache)
    (h : ∀ v : TextureView, List.count v t.held ≤ c.countOf v) :
    (MultiRenderTexture.destroy_internal t c).error = none ∧
    ∀ v : TextureView,
      (MultiRenderTexture.destroy_internal t c).cache.countOf v + List.count v t.held
        = c.countOf v := by
  unfold MultiRenderTexture.held MultiRenderTexture.populated at h ⊢
  have hcol : ∀ v : TextureView,
      List.count v t.mColorSurfaces.reduceOption ≤ c.countOf v := by
    intro v
    have := h v
    rw [List.count_append] at this
    omega
  obtain ⟨h1, h2⟩ := releaseColorSurfaces_counts t.mColorSurfaces c hcol
  unfold MultiRenderTexture.destroy_internal
  cases hr : MultiRenderTexture.releaseColorSurfaces t.mColorSurfaces c with
  | mk e c1 =>
    rw [hr] at h1 h2
    simp only [] at h1 h2
    subst h1
    simp only []
    cases hds : t.mDepthStencilSurface with
    | none =>
      refine ⟨rfl, fun v => ?_⟩
      have b := h2 v
      simpa using b
    | some w =>
      rw [hds] at h
      simp only [Option.toList_some, List.count_append] at h ⊢
      have hw : c1.countOf w ≠ 0 := by
        have a := h w
        have b := h2 w
        rw [List.count_singleton] at a
        simp only [beq_self_eq_true, if_true] at a
        omega
      have hnone := (releaseView_error w c1).mpr hw
      have hrel := releaseView_countOf w c1 hw
      cases hq : Texture.releaseView w c1 with
      | mk e2 c2 =>
        rw [hq] at hnone hrel
        simp only [] at hnone hrel
        subst hnone
        refine ⟨rfl, fun v => ?_⟩
        have a := hrel v
        have b := h2 v
        show c2.countOf v + _ = _
        omega

/-- The releases the loop of `destroy_internal` makes when none of them throws: one for
each populated slot, in slot order. -/
theorem releaseColorSurfaces_calls :
    ∀ (slots : List (Option TextureView)) (c : ViewCache),
      (MultiRenderTexture.releaseColorSurfaces slots c).1 = none →
      (MultiRenderTexture.releaseColorSurfaces slots c).2.calls
        = c.calls ++ slots.reduceOption.map ViewCall.release := by
  intro slots
  induction slots with
  | nil =>
    intro c _
    simp [MultiRenderTexture.releaseColorSurfaces]
  | cons x rest ih =>
    intro c h
    cases x with
    | none =>
      rw [List.reduceOption_cons_of_none]
      exact ih c h
    | some w =>
      rw [List.reduceOption_cons_of_some]
      unfold MultiRenderTexture.releaseColorSurfaces at h ⊢
      have hcalls := releaseView_calls w c
      cases hr : Texture.releaseView w c with
      | mk e c1 =>
        rw [hr] at h hcalls
        simp only [] at hcalls
        cases e with
        | some e1 => simp at h
        | none =>
          simp only [] at h ⊢
          rw [ih c1 h, hcalls]
          simp

/-! ## Failure of `initialize`, and destruction -/

/-- The exceptions `initialize` throws are the two usage exceptions and the four of
`throwIfBuffersDontMatch`. -/
theorem initialize_error (E : EngineDecls) (desc : MULTI_RENDER_TEXTURE_DESC)
    (t : MultiRenderTexture) (c : ViewCache) (e : Exception)
    (h : ( MultiRenderTexture.initialize E desc t c).error = some e) :
    e = notRenderTargetException ∨ e = notDepthStencilException ∨
      e = dontMatchException ∨ e = only2DException ∨ e = facesOutOfRangeException ∨
      e = mipMapsOutOfRangeException := by
  have hval : ∀ (t1 : MultiRenderTexture) (c1 : ViewCache),
      (MultiRenderTexture.validate t1 c1).error = some e →
      e = dontMatchException ∨ e = only2DException ∨ e = facesOutOfRangeException ∨
        e = mipMapsOutOfRangeException := by
    intro t1 c1 hv
    rw [validate_error] at hv
    split at hv
    · rename_i e1 he1
      simp only [Option.some.injEq] at hv
      subst hv
      exact throwIfBuffersDontMatch_error t1 e1 he1
    · cases hv
  cases hloop : (MultiRenderTexture.bindColorSurfaces E desc.colorSurfaces 0 false t
      c).error with
  | some e1 =>
    rw [initialize_of_loop_error E desc t c e1 hloop] at h
    simp only [Option.some.injEq] at h
    exact Or.inl h.symm
  | none =>
    rw [initialize_of_loop_ok E desc t c hloop] at h
    split at h
    · exact Or.inr (Or.inr (hval _ _ h))
    · split at h
      · simp only [Option.some.injEq] at h
        exact Or.inr (Or.inl h.symm)
      · exact Or.inr (Or.inr (hval _ _ h))

/-- C3 as stated fails: on `mismatchDesc` (multisample counts 1 and 2) `initialize` fails
with the "don't match" exception, yet colour slot 0 still holds the view requested for
the first surface and the reference count of that view, 0 before the call, is 1. -/
theorem failed_initialize_retains_view :
    ( MultiRenderTexture.initialize sampleEngine mismatchDesc freshTarget emptyCache).error
      = some dontMatchException ∧
    ( MultiRenderTexture.initialize sampleEngine mismatchDesc freshTarget
      emptyCache).target.mColorSurfaces[0]? = some (some (sampleView (sampleTexture 1 4 4 1))) ∧
    emptyCache.countOf (sampleView (sampleTexture 1 4 4 1)) = 0 ∧
    ( MultiRenderTexture.initialize sampleEngine mismatchDesc freshTarget
      emptyCache).cache.countOf (sampleView (sampleTexture 1 4 4 1)) = 1 := by
  decide

/-- C3 (amended): when `initialize` fails on a freshly constructed target (with one of
the two usage exceptions or one of the four exceptions of `throwIfBuffersDontMatch`)
nothing is rolled back, and nothing is lost either: the reference count of every view
exceeds its value before the call by exactly the number of slots of the target (colour
and depth/stencil) that hold the view, and a following `destroy_internal` throws nothing
and brings every reference count back to its value before the call. -/
theorem failed_initialize_released_by_destroy (E : EngineDecls) (base : RenderTarget)
    (desc : MULTI_RENDER_TEXTURE_DESC) (c : ViewCache)
    (hfail : ( MultiRenderTexture.initialize E desc (MultiRenderTexture.ctor E base) c).error
      ≠ none) :
    (∃ e, ( MultiRenderTexture.initialize E desc (MultiRenderTexture.ctor E base) c).error
        = some e ∧
      (e = notRenderTargetException ∨ e = notDepthStencilException ∨
        e = dontMatchException ∨ e = only2DException ∨ e = facesOutOfRangeException ∨
        e = mipMapsOutOfRangeException)) ∧
    (∀ v : TextureView,
      ( MultiRenderTexture.initialize E desc (MultiRenderTexture.ctor E base)
          c).cache.countOf v
        = c.countOf v + List.count v
          ( MultiRenderTexture.initialize E desc (MultiRenderTexture.ctor E base)
            c).target.held) ∧
    (MultiRenderTexture.destroy_internal
      ( MultiRenderTexture.initialize E desc (MultiRenderTexture.ctor E base) c).target
      ( MultiRenderTexture.initialize E desc (MultiRenderTexture.ctor E base)
        c).cache).error = none ∧
    (∀ v : TextureView,
      (MultiRenderTexture.destroy_internal
        ( MultiRenderTexture.initialize E desc (MultiRenderTexture.ctor E base) c).target
        ( MultiRenderTexture.initialize E desc (MultiRenderTexture.ctor E base)
          c).cache).cache.countOf v = c.countOf v) := by
  have hheld := initialize_counts E base desc c
  obtain ⟨hok, hback⟩ := destroy_internal_counts
    ( MultiRenderTexture.initialize E desc (MultiRenderTexture.ctor E base) c).target
    ( MultiRenderTexture.initialize E desc (MultiRenderTexture.ctor E base) c).cache
    (fun v => by rw [hheld v]; omega)
  obtain ⟨e, he⟩ := Option.ne_none_iff_exists'.mp hfail
  refine ⟨⟨e, he, initialize_error E _ _ c e he⟩, hheld, hok, fun v => ?_⟩
  have a := hback v
  have b := hheld v
  omega

/-- C3 (amended) on `mismatchDesc`: after the failed `initialize` the two requested views
are held and counted once each; after `destroy_internal` their counts are 0 again. -/
theorem failed_initialize_released_by_destroy_witness :
    ( MultiRenderTexture.initialize sampleEngine mismatchDesc
      (MultiRenderTexture.ctor sampleEngine sampleBase) emptyCache).error ≠ none ∧
    ( MultiRenderTexture.initialize sampleEngine mismatchDesc
      (MultiRenderTexture.ctor sampleEngine sampleBase) emptyCache).target.held
      = [sampleView (sampleTexture 1 4 4 1), sampleView (sampleTexture 2 4 4 2)] ∧
    (MultiRenderTexture.destroy_internal
      ( MultiRenderTexture.initialize sampleEngine mismatchDesc
        (MultiRenderTexture.ctor sampleEngine sampleBase) emptyCache).target
      ( MultiRenderTexture.initialize sampleEngine mismatchDesc
        (MultiRenderTexture.ctor sampleEngine sampleBase) emptyCache).cache).error = none ∧
    (MultiRenderTexture.destroy_internal
      ( MultiRenderTexture.initialize sampleEngine mismatchDesc
        (MultiRenderTexture.ctor sampleEngine sampleBase) emptyCache).target
      ( MultiRenderTexture.initialize sampleEngine mismatchDesc
        (MultiRenderTexture.ctor sampleEngine sampleBase) emptyCache).cache).cache.countOf
        (sampleView (sampleTexture 2 4 4 2)) = emptyCache.countOf
          (sampleView (sampleTexture 2 4 4 2)) :=
  have h := failed_initialize_released_by_destroy sampleEngine sampleBase mismatchDesc
    emptyCache (by decide)
  ⟨by decide, by decide, h.2.2.1, h.2.2.2 (sampleView (sampleTexture 2 4 4 2))⟩

/-- C10: when no release throws, the `Texture::releaseView` calls `destroy_internal` makes
are exactly one for each non-null colour slot, in increasing slot order, followed by one
for the depth/stencil view if there is one; no release throws when the cache holds at
least as many references to each view as the target holds; and on a freshly constructed
target `destroy_internal` makes no call, throws nothing and leaves every reference count
as it was. -/
theorem destroy_internal_releases_in_order :
    (∀ (t : MultiRenderTexture) (c : ViewCache),
      (MultiRenderTexture.destroy_internal t c).error = none →
      (MultiRenderTexture.destroy_internal t c).cache.calls
        = c.calls ++ (t.mColorSurfaces.reduceOption
            ++ t.mDepthStencilSurface.toList).map ViewCall.release) ∧
    (∀ (t : MultiRenderTexture) (c : ViewCache),
      (∀ v : TextureView, List.count v t.held ≤ c.countOf v) →
      (MultiRenderTexture.destroy_internal t c).error = none) ∧
    (∀ (E : EngineDecls) (base : RenderTarget) (c : ViewCache),
      (MultiRenderTexture.destroy_internal (MultiRenderTexture.ctor E base) c).error = none ∧
      (MultiRenderTexture.destroy_internal (MultiRenderTexture.ctor E base) c).cache.calls
        = c.calls ∧
      (MultiRenderTexture.destroy_internal (MultiRenderTexture.ctor E base)
        c).cache.refCount = c.refCount) := by
  refine ⟨?_, fun t c h => (destroy_internal_counts t c h).1, ?_⟩
  · intro t c h
    unfold MultiRenderTexture.destroy_internal at h ⊢
    have hcol := releaseColorSurfaces_calls t.mColorSurfaces c
    cases hr : MultiRenderTexture.releaseColorSurfaces t.mColorSurfaces c with
    | mk e c1 =>
      rw [hr] at h hcol
      cases e with
      | some e1 => simp at h
      | none =>
        simp only [] at h hcol ⊢
        have hc1 := hcol trivial
        cases hds : t.mDepthStencilSurface with
        | none => simp [hc1]
        | some w =>
          simp only []
          rw [releaseView_calls, hc1]
          simp
  · intro E base c
    have hnone : ∀ (n : Nat) (c : ViewCache),
        MultiRenderTexture.releaseColorSurfaces (List.replicate n none) c = (none, c) := by
      intro n
      induction n with
      | zero => intro c; rfl
      | succ n ih =>
        intro c
        rw [List.replicate_succ]
        unfold MultiRenderTexture.releaseColorSurfaces
        exact ih c
    unfold MultiRenderTexture.destroy_internal
    simp [MultiRenderTexture.ctor, hnone]

/-- C10 on the target `initialize` builds from `depthDesc`: the colour view is released,
then the depth/stencil view. -/
theorem destroy_internal_releases_in_order_witness :
    (MultiRenderTexture.destroy_internal
      ( MultiRenderTexture.initialize sampleEngine depthDesc freshTarget emptyCache).target
      ( MultiRenderTexture.initialize sampleEngine depthDesc freshTarget
        emptyCache).cache).cache.calls
      = [ViewCall.request (sampleView (sampleTexture 1 4 4 1)),
         ViewCall.request (sampleDepthView (depthTexture 2 4 4 1)),
         ViewCall.release (sampleView (sampleTexture 1 4 4 1)),
         ViewCall.release (sampleDepthView (depthTexture 2 4 4 1))] :=
  destroy_internal_releases_in_order.1
    ( MultiRenderTexture.initialize sampleEngine depthDesc freshTarget emptyCache).target
    ( MultiRenderTexture.initialize sampleEngine depthDesc freshTarget emptyCache).cache
    (by decide)

/-! ## `copyToMemory` -/

/-- C11: `copyToMemory` throws for every target, destination and frame buffer argument,
and the exception is a plain `std::exception`, a class other than the class of every
exception that `initialize` or `throwIfBuffersDontMatch` throws (these are
`InvalidParametersException` and `NotImplementedException` objects). -/
theorem copyToMemory_fails_distinctly :
    (∀ (PixelData FrameBuffer : Type) (t : MultiRenderTexture) (dst : PixelData)
      (buffer : FrameBuffer),
      ∃ e, (MultiRenderTexture.copyToMemory t dst buffer).1 = some e ∧
        e.kind = ExceptionKind.StdException) ∧
    (∀ (E : EngineDecls) (desc : MULTI_RENDER_TEXTURE_DESC) (t : MultiRenderTexture)
      (c : ViewCache) (e : Exception),
      ( MultiRenderTexture.initialize E desc t c).error = some e →
      (e.kind = ExceptionKind.InvalidParametersException ∨
        e.kind = ExceptionKind.NotImplementedException) ∧
      e.kind ≠ ExceptionKind.StdException) ∧
    (∀ (t : MultiRenderTexture) (e : Exception),
      MultiRenderTexture.throwIfBuffersDontMatch t = Except.error e →
      (e.kind = ExceptionKind.InvalidParametersException ∨
        e.kind = ExceptionKind.NotImplementedException) ∧
      e.kind ≠ ExceptionKind.StdException) := by
  refine ⟨fun _ _ t dst buffer => ⟨_, rfl, rfl⟩, ?_, ?_⟩
  · intro E desc t c e h
    rcases initialize_error E desc t c e h with rfl | rfl | rfl | rfl | rfl | rfl <;>
      exact ⟨by decide, by decide⟩
  · intro t e h
    rcases throwIfBuffersDontMatch_error t e h with rfl | rfl | rfl | rfl <;>
      exact ⟨by decide, by decide⟩

/-- C11 on a fresh target, against the exception `initialize` throws on `mismatchDesc` and
the one `throwIfBuffersDontMatch` throws on a cube-map view. -/
theorem copyToMemory_fails_distinctly_witness :
    (∃ e, (MultiRenderTexture.copyToMemory freshTarget (0 : Nat) (0 : Nat)).1 = some e ∧
      e.kind = ExceptionKind.StdException) ∧
    dontMatchException.kind ≠ ExceptionKind.StdException ∧
    only2DException.kind ≠ ExceptionKind.StdException :=
  ⟨copyToMemory_fails_distinctly.1 Nat Nat freshTarget 0 0,
   (copyToMemory_fails_distinctly.2.1 sampleEngine mismatchDesc freshTarget emptyCache
      dontMatchException (by decide)).2,
   (copyToMemory_fails_distinctly.2.2
      (targetHolding [some (sampleView (cubeTexture 1 4))] none) only2DException rfl).2⟩

/-! ## AsyncOp -/

/-- No call lowers the next free address. -/
theorem run_next {U : Type} {El : U → Type} (call : AsyncOp.Call U El)
    (s : AsyncOpStore U El) : s.next ≤ (call.run s).next := by
  cases call <;> simp [AsyncOp.Call.run, AsyncOp.ctor, AsyncOp.completeOperation,
    AsyncOp.completeOperationNoValue, AsyncOpStore.write]

/-- A call that is not a `completeOperation` on the cell at an address in use leaves that
cell as it is. -/
theorem run_cell {U : Type} {El : U → Type} (call : AsyncOp.Call U El)
    (s : AsyncOpStore U El) (address : Nat) (hused : address < s.next)
    (hcall : call.completes address = false) :
    (call.run s).cells address = s.cells address := by
  cases call with
  | construct =>
    have hne : ¬ address = s.next := by omega
    simp [AsyncOp.Call.run, AsyncOp.ctor, hne]
  | hasCompleted op => rfl
  | getReturnValue op T => rfl
  | completeOperation op returnValue =>
    have hne : ¬ address = op.mData := by
      intro h
      simp [AsyncOp.Call.completes, h] at hcall
    simp [AsyncOp.Call.run, AsyncOp.completeOperation, AsyncOpStore.write, hne]
  | completeOperationNoValue op =>
    have hne : ¬ address = op.mData := by
      intro h
      simp [AsyncOp.Call.completes, h] at hcall
    simp [AsyncOp.Call.run, AsyncOp.completeOperationNoValue, AsyncOpStore.write, hne]

/-- A sequence of calls none of which is a `completeOperation` on the cell at an address
in use leaves that cell as it is. -/
theorem runCalls_cell {U : Type} {El : U → Type} (address : Nat) :
    ∀ (calls : List (AsyncOp.Call U El)) (s : AsyncOpStore U El),
      address < s.next →
      (∀ call ∈ calls, call.completes address = false) →
      (AsyncOp.runCalls calls s).cells address = s.cells address := by
  intro calls
  induction calls with
  | nil => intro s _ _; rfl
  | cons call rest ih =>
    intro s hused hcalls
    have hstep := run_cell call s address hused (hcalls call (List.mem_cons_self _ _))
    have hnext := run_next call s
    have := ih (call.run s) (by omega) (fun x hx => hcalls x (List.mem_cons_of_mem _ hx))
    simp only [AsyncOp.runCalls, List.foldl_cons] at this ⊢
    rw [this, hstep]

/-- The cell of a freshly constructed `AsyncOp`: an empty `any`, not completed. -/
theorem ctor_cell {U : Type} {El : U → Type} (s : AsyncOpStore U El) :
    (AsyncOp.ctor s).2.cells (AsyncOp.ctor s).1.mData
      = { mReturnValue := none, mIsCompleted := false } := by
  simp [AsyncOp.ctor]

/-- The address of a freshly constructed `AsyncOp` is in use afterwards. -/
theorem ctor_used {U : Type} {El : U → Type} (s : AsyncOpStore U El) :
    (AsyncOp.ctor s).1.mData < (AsyncOp.ctor s).2.next := by
  simp [AsyncOp.ctor]

/-- The cell an `AsyncOp` points to after `completeOperation(returnValue)` on it. -/
theorem completeOperation_cell {U : Type} {El : U → Type} (op : AsyncOp)
    (returnValue : boost.any U El) (s : AsyncOpStore U El) :
    (op.completeOperation returnValue s).cells op.mData
      = { mReturnValue := returnValue, mIsCompleted := true } := by
  simp [AsyncOp.completeOperation, AsyncOpStore.write]

/-- `any_cast` to the type of the held value returns the value. -/
theorem any_cast_of {U : Type} [DecidableEq U] {El : U → Type} (T : U) (v : El T) :
    boost.any_cast T (boost.any.of T v) = Except.ok v := by
  simp [boost.any_cast, boost.any.of]

/-- `any_cast` to another type than that of the held value throws. -/
theorem any_cast_of_ne {U : Type} [DecidableEq U] {El : U → Type} (S T : U) (v : El S)
    (h : T ≠ S) : boost.any_cast T (boost.any.of S v) = Except.error badAnyCastException := by
  have h1 : ¬ S = T := fun e => h e.symm
  simp [boost.any_cast, boost.any.of, h1]

/-- C12: a newly constructed `AsyncOp` reports `hasCompleted() == false`; it still does
after any sequence of calls (constructions, `hasCompleted`, `getReturnValue`, and
`completeOperation` on other cells) in which no `completeOperation` is made on it or on
a copy of it; and right after a `completeOperation`, with or without a value, made on
it or on a copy of it, it reports `true`. -/
theorem hasCompleted_false_until_completed {U : Type} {El : U → Type} :
    (∀ s : AsyncOpStore U El, (AsyncOp.ctor s).1.hasCompleted (AsyncOp.ctor s).2 = false) ∧
    (∀ (s : AsyncOpStore U El) (calls : List (AsyncOp.Call U El)),
      (∀ call ∈ calls, call.completes (AsyncOp.ctor s).1.mData = false) →
      (AsyncOp.ctor s).1.hasCompleted (AsyncOp.runCalls calls (AsyncOp.ctor s).2) = false) ∧
    (∀ (s : AsyncOpStore U El) (calls : List (AsyncOp.Call U El)) (op : AsyncOp)
      (returnValue : boost.any U El),
      (op = (AsyncOp.ctor s).1 ∨ op = (AsyncOp.ctor s).1.copy) →
      (AsyncOp.ctor s).1.hasCompleted
          (op.completeOperation returnValue (AsyncOp.runCalls calls (AsyncOp.ctor s).2))
        = true ∧
      (AsyncOp.ctor s).1.hasCompleted
          (op.completeOperationNoValue (AsyncOp.runCalls calls (AsyncOp.ctor s).2))
        = true) := by
  refine ⟨?_, ?_, ?_⟩
  · intro s
    simp [AsyncOp.hasCompleted, AsyncOp.ctor]
  · intro s calls hcalls
    unfold AsyncOp.hasCompleted
    rw [runCalls_cell _ calls _ (ctor_used s) hcalls, ctor_cell]
  · intro s calls op returnValue hop
    have hop1 : op = (AsyncOp.ctor s).1 := by
      rcases hop with h | h
      · exact h
      · exact h
    subst hop1
    constructor
    · simp [AsyncOp.hasCompleted, AsyncOp.completeOperation, AsyncOpStore.write]
    · simp [AsyncOp.hasCompleted, AsyncOp.completeOperationNoValue, AsyncOpStore.write]

/-- C12 on `firstOp`: still not completed after a poll, a read, the construction of a
second operation and the completion of that one; completed once a copy of it is
completed. -/
theorem hasCompleted_false_until_completed_witness :
    firstOp.hasCompleted
      (AsyncOp.runCalls
        [AsyncOp.Call.hasCompleted firstOp,
         AsyncOp.Call.getReturnValue firstOp SampleType.int,
         AsyncOp.Call.construct,
         AsyncOp.Call.completeOperation secondOp (boost.any.of SampleType.int (7 : Int))]
        firstStore) = false ∧
    firstOp.hasCompleted
      (firstOp.copy.completeOperation (boost.any.of SampleType.int (42 : Int))
        (AsyncOp.runCalls [AsyncOp.Call.hasCompleted firstOp] firstStore)) = true :=
  ⟨hasCompleted_false_until_completed.2.1 emptyStore
      [AsyncOp.Call.hasCompleted firstOp,
       AsyncOp.Call.getReturnValue firstOp SampleType.int,
       AsyncOp.Call.construct,
       AsyncOp.Call.completeOperation secondOp (boost.any.of SampleType.int (7 : Int))]
      (by decide),
   (hasCompleted_false_until_completed.2.2 emptyStore
      [AsyncOp.Call.hasCompleted firstOp] firstOp.copy
      (boost.any.of SampleType.int (42 : Int)) (Or.inr rfl)).1⟩

/-- What `getReturnValue<T>()` does on a completed operation: the debug test passes and
the result is that of `any_cast`. -/
theorem getReturnValue_completed {U : Type} [DecidableEq U] {El : U → Type}
    (CM_DEBUG_MODE : Bool) (T : U) (op : AsyncOp) (s : AsyncOpStore U El)
    (h : (s.cells op.mData).mIsCompleted = true) :
    op.getReturnValue CM_DEBUG_MODE T s = boost.any_cast T (s.cells op.mData).mReturnValue := by
  simp [AsyncOp.getReturnValue, AsyncOp.hasCompleted, h]

/-- C13: for every value `v` of every type `T`, after `completeOperation(v)` on an
`AsyncOp` (a fresh one in particular) `getReturnValue<T>()` returns `v`, with or without
`CM_DEBUG_MODE`. -/
theorem getReturnValue_returns_completed_value {U : Type} [DecidableEq U] {El : U → Type}
    (CM_DEBUG_MODE : Bool) (T : U) (v : El T) :
    (∀ (op : AsyncOp) (s : AsyncOpStore U El),
      op.getReturnValue CM_DEBUG_MODE T (op.completeOperation (boost.any.of T v) s)
        = Except.ok v) ∧
    (∀ s : AsyncOpStore U El,
      (AsyncOp.ctor s).1.getReturnValue CM_DEBUG_MODE T
          ((AsyncOp.ctor s).1.completeOperation (boost.any.of T v) (AsyncOp.ctor s).2)
        = Except.ok v) := by
  have h : ∀ (op : AsyncOp) (s : AsyncOpStore U El),
      op.getReturnValue CM_DEBUG_MODE T (op.completeOperation (boost.any.of T v) s)
        = Except.ok v := by
    intro op s
    rw [getReturnValue_completed _ _ _ _ (by rw [completeOperation_cell]),
      completeOperation_cell]
    exact any_cast_of T v
  exact ⟨h, fun s => h _ _⟩

/-- C13 at 42: `completeOperation(42)` on a fresh operation, then `getReturnValue<int>()`
returns 42. -/
theorem getReturnValue_returns_completed_value_witness :
    firstOp.getReturnValue true SampleType.int
      (firstOp.completeOperation (boost.any.of SampleType.int (42 : Int)) firstStore)
      = Except.ok (42 : Int) :=
  (@getReturnValue_returns_completed_value SampleType _ SampleType.El true SampleType.int
    (42 : Int)).2 emptyStore

/-- C14: after `completeOperation` with a value of type `S`, `getReturnValue<T>()` for any
other type `T` throws `boost::bad_any_cast`, with or without `CM_DEBUG_MODE`; no value
is returned, so nothing is converted. -/
theorem getReturnValue_type_mismatch {U : Type} [DecidableEq U] {El : U → Type}
    (CM_DEBUG_MODE : Bool) (S T : U) (v : El S) (op : AsyncOp) (s : AsyncOpStore U El)
    (hne : T ≠ S) :
    op.getReturnValue CM_DEBUG_MODE T (op.completeOperation (boost.any.of S v) s)
      = Except.error badAnyCastException ∧
    badAnyCastException.kind = ExceptionKind.bad_any_cast := by
  refine ⟨?_, rfl⟩
  rw [getReturnValue_completed _ _ _ _ (by rw [completeOperation_cell]),
    completeOperation_cell]
  exact any_cast_of_ne S T v hne

/-- C14 at 42: `completeOperation(42)`, then `getReturnValue<string>()` throws. -/
theorem getReturnValue_type_mismatch_witness :
    firstOp.getReturnValue true SampleType.string
      (firstOp.completeOperation (boost.any.of SampleType.int (42 : Int)) firstStore)
      = Except.error badAnyCastException :=
  (@getReturnValue_type_mismatch SampleType _ SampleType.El true SampleType.int
    SampleType.string (42 : Int) firstOp firstStore (by decide)).1

/-- C15 as stated fails: without `CM_DEBUG_MODE`, `getReturnValue<int>()` on a fresh
operation throws `boost::bad_any_cast`, not the `InternalErrorException` that reports an
operation that has not completed. -/
theorem getReturnValue_release_not_completed :
    firstOp.getReturnValue false SampleType.int firstStore
      = Except.error badAnyCastException ∧
    badAnyCastException ≠ notCompletedException ∧
    badAnyCastException.kind ≠ ExceptionKind.InternalErrorException :=
  ⟨rfl, by decide, by decide⟩

/-- C15 (amended): on an `AsyncOp` on which (or on a copy of which) `completeOperation`
has not been called since it was constructed, `getReturnValue<T>()` returns no value for
any type `T`: with `CM_DEBUG_MODE` it throws the `InternalErrorException` "operation
hasn't completed", and without it, where the test is compiled out, it throws
`boost::bad_any_cast` on the empty `any`. -/
theorem getReturnValue_before_completion {U : Type} [DecidableEq U] {El : U → Type}
    (CM_DEBUG_MODE : Bool) (T : U) (s : AsyncOpStore U El)
    (calls : List (AsyncOp.Call U El))
    (hcalls : ∀ call ∈ calls, call.completes (AsyncOp.ctor s).1.mData = false) :
    (AsyncOp.ctor s).1.getReturnValue CM_DEBUG_MODE T
        (AsyncOp.runCalls calls (AsyncOp.ctor s).2)
      = Except.error
          (if CM_DEBUG_MODE = true then notCompletedException else badAnyCastException) := by
  unfold AsyncOp.getReturnValue AsyncOp.hasCompleted
  rw [runCalls_cell _ calls _ (ctor_used s) hcalls, ctor_cell]
  cases CM_DEBUG_MODE <;> simp [boost.any_cast]

/-- C15 (amended) on `firstOp` after a poll and the construction of another operation,
with `CM_DEBUG_MODE`. -/
theorem getReturnValue_before_completion_witness :
    firstOp.getReturnValue true SampleType.string
        (AsyncOp.runCalls [AsyncOp.Call.hasCompleted firstOp, AsyncOp.Call.construct]
          firstStore)
      = Except.error notCompletedException :=
  @getReturnValue_before_completion SampleType _ SampleType.El true SampleType.string
    emptyStore [AsyncOp.Call.hasCompleted firstOp, AsyncOp.Call.construct] (by decide)

/-- C16 as stated fails: after `completeOperation(42)` and then `completeOperation(7)` on
the same operation, `getReturnValue<int>()` yields 7, not 42. -/
theorem second_completeOperation_overwrites :
    firstOp.getReturnValue true SampleType.int
      (firstOp.completeOperation (boost.any.of SampleType.int (7 : Int))
        (firstOp.completeOperation (boost.any.of SampleType.int (42 : Int)) firstStore))
      = Except.ok (7 : Int) ∧
    (7 : Int) ≠ 42 :=
  ⟨rfl, by decide⟩

/-- C16 (amended): `completeOperation` does not test whether the operation is already
completed: after `completeOperation(v1)`, a later `completeOperation(v2)` on the same
cell replaces the stored result, so `getReturnValue` then yields `v2`, and the operation
stays completed. -/
theorem completeOperation_last_value_wins {U : Type} [DecidableEq U] {El : U → Type}
    (CM_DEBUG_MODE : Bool) (T1 T2 : U) (v1 : El T1) (v2 : El T2) (op : AsyncOp)
    (s : AsyncOpStore U El) :
    op.getReturnValue CM_DEBUG_MODE T2
        (op.completeOperation (boost.any.of T2 v2)
          (op.completeOperation (boost.any.of T1 v1) s))
      = Except.ok v2 ∧
    op.hasCompleted
        (op.completeOperation (boost.any.of T2 v2)
          (op.completeOperation (boost.any.of T1 v1) s)) = true := by
  refine ⟨?_, ?_⟩
  · rw [getReturnValue_completed _ _ _ _ (by rw [completeOperation_cell]),
      completeOperation_cell]
    exact any_cast_of T2 v2
  · unfold AsyncOp.hasCompleted
    rw [completeOperation_cell]

/-- C17: a copy of an `AsyncOp` points to the same cell, so `completeOperation(v)` made
through the one makes `hasCompleted()` true and `getReturnValue<T>()` return `v` through
the other, in both directions; the address a later construction hands out differs from
every address in use; and `completeOperation` on one operation changes neither
`hasCompleted()` nor `getReturnValue` of an operation that points to another cell. -/
theorem copies_share_completion {U : Type} [DecidableEq U] {El : U → Type}
    (CM_DEBUG_MODE : Bool) :
    (∀ (a : AsyncOp) (s : AsyncOpStore U El) (T : U) (v : El T),
      a.copy.hasCompleted (a.completeOperation (boost.any.of T v) s) = true ∧
      a.copy.getReturnValue CM_DEBUG_MODE T (a.completeOperation (boost.any.of T v) s)
        = Except.ok v ∧
      a.hasCompleted (a.copy.completeOperation (boost.any.of T v) s) = true ∧
      a.getReturnValue CM_DEBUG_MODE T (a.copy.completeOperation (boost.any.of T v) s)
        = Except.ok v) ∧
    (∀ (a : AsyncOp) (s : AsyncOpStore U El), a.mData < s.next →
      (AsyncOp.ctor s).1.mData ≠ a.mData) ∧
    (∀ (a c : AsyncOp) (s : AsyncOpStore U El) (returnValue : boost.any U El) (T : U),
      c.mData ≠ a.mData →
      c.hasCompleted (a.completeOperation returnValue s) = c.hasCompleted s ∧
      c.getReturnValue CM_DEBUG_MODE T (a.completeOperation returnValue s)
        = c.getReturnValue CM_DEBUG_MODE T s) := by
  refine ⟨?_, ?_, ?_⟩
  · intro a s T v
    have hv := (getReturnValue_returns_completed_value CM_DEBUG_MODE T v).1 a s
    have hc : a.hasCompleted (a.completeOperation (boost.any.of T v) s) = true := by
      unfold AsyncOp.hasCompleted
      rw [completeOperation_cell]
    exact ⟨hc, hv, hc, hv⟩
  · intro a s ha h
    simp only [AsyncOp.ctor] at h
    omega
  · intro a c s returnValue T hne
    have hcell : (a.completeOperation returnValue s).cells c.mData = s.cells c.mData := by
      simp [AsyncOp.completeOperation, AsyncOpStore.write, hne]
    unfold AsyncOp.getReturnValue AsyncOp.hasCompleted
    rw [hcell]
    exact ⟨rfl, rfl⟩

/-- C17 on `firstOp`, its copy and `secondOp`: completing the copy with 42 completes
`firstOp`, which returns 42, and leaves `secondOp` not completed. -/
theorem copies_share_completion_witness :
    firstOp.hasCompleted
      (firstOp.copy.completeOperation (boost.any.of SampleType.int (42 : Int)) secondStore)
      = true ∧
    firstOp.getReturnValue true SampleType.int
      (firstOp.copy.completeOperation (boost.any.of SampleType.int (42 : Int)) secondStore)
      = Except.ok (42 : Int) ∧
    secondOp.mData ≠ firstOp.mData ∧
    secondOp.hasCompleted
      (firstOp.copy.completeOperation (boost.any.of SampleType.int (42 : Int)) secondStore)
      = false :=
  have h1 := (@copies_share_completion SampleType _ SampleType.El true).1 firstOp
    secondStore SampleType.int (42 : Int)
  have h2 := (@copies_share_completion SampleType _ SampleType.El true).2.1
    firstOp firstStore (by decide)
  have h3 := (@copies_share_completion SampleType _ SampleType.El true).2.2 firstOp.copy
    secondOp secondStore (boost.any.of SampleType.int (42 : Int)) SampleType.int h2
  ⟨h1.2.2.1, h1.2.2.2, h2, h3.1.trans (by decide)⟩

/-! ## The descriptor functors -/

/-- `TextureView::EqualFunction` holds exactly when the two descriptors are the same
record. -/
theorem textureView_EqualFunction_iff_eq (a b : TEXTURE_VIEW_DESC) :
    TextureView.EqualFunction a b = true ↔ a = b := by
  obtain ⟨a1, a2, a3, a4, a5⟩ := a
  obtain ⟨b1, b2, b3, b4, b5⟩ := b
  simp [TextureView.EqualFunction, and_assoc]

/-- `GpuBufferView::EqualFunction` holds exactly when the two descriptors are the same
record. -/
theorem gpuBufferView_EqualFunction_iff_eq (a b : GPU_BUFFER_DESC) :
    GpuBufferView.EqualFunction a b = true ↔ a = b := by
  obtain ⟨a1, a2, a3, a4, a5⟩ := a
  obtain ⟨b1, b2, b3, b4, b5⟩ := b
  simp [GpuBufferView.EqualFunction, and_assoc]

/-- C18: `TextureView::EqualFunction(a, b)` is true exactly when `a` and `b` agree on
`mostDetailMip`, `numMips`, `firstArraySlice`, `numArraySlices` and `usage`, the five
fields of `TEXTURE_VIEW_DESC`; descriptors that differ compare unequal; and the relation
is reflexive, symmetric and transitive. -/
theorem textureView_EqualFunction_fieldwise :
    (∀ a b : TEXTURE_VIEW_DESC,
      TextureView.EqualFunction a b = true ↔
        (a.mostDetailMip = b.mostDetailMip ∧ a.numMips = b.numMips ∧
          a.firstArraySlice = b.firstArraySlice ∧ a.numArraySlices = b.numArraySlices ∧
          a.usage = b.usage)) ∧
    (∀ a b : TEXTURE_VIEW_DESC, a ≠ b → TextureView.EqualFunction a b = false) ∧
    (∀ a : TEXTURE_VIEW_DESC, TextureView.EqualFunction a a = true) ∧
    (∀ a b : TEXTURE_VIEW_DESC,
      TextureView.EqualFunction a b = true → TextureView.EqualFunction b a = true) ∧
    (∀ a b c : TEXTURE_VIEW_DESC,
      TextureView.EqualFunction a b = true → TextureView.EqualFunction b c = true →
      TextureView.EqualFunction a c = true) := by
  refine ⟨?_, ?_, ?_, ?_, ?_⟩
  · intro a b
    obtain ⟨a1, a2, a3, a4, a5⟩ := a
    obtain ⟨b1, b2, b3, b4, b5⟩ := b
    simp [TextureView.EqualFunction, and_assoc]
  · intro a b hne
    cases h : TextureView.EqualFunction a b with
    | false => rfl
    | true => exact absurd ((textureView_EqualFunction_iff_eq a b).mp h) hne
  · intro a
    exact (textureView_EqualFunction_iff_eq a a).mpr rfl
  · intro a b h
    exact (textureView_EqualFunction_iff_eq b a).mpr
      ((textureView_EqualFunction_iff_eq a b).mp h).symm
  · intro a b c hab hbc
    exact (textureView_EqualFunction_iff_eq a c).mpr
      (((textureView_EqualFunction_iff_eq a b).mp hab).trans
        ((textureView_EqualFunction_iff_eq b c).mp hbc))

/-- C18 on `sampleViewDesc`: it differs from the descriptor with depth-stencil usage in
the last field only, and they compare unequal; it compares equal to itself. -/
theorem textureView_EqualFunction_fieldwise_witness :
    TextureView.EqualFunction sampleViewDesc
      { sampleViewDesc with usage := GpuViewUsage.GVU_DEPTHSTENCIL } = false ∧
    TextureView.EqualFunction sampleViewDesc sampleViewDesc = true ∧
    TextureView.EqualFunction sampleViewDesc sampleViewDesc = true :=
  ⟨textureView_EqualFunction_fieldwise.2.1 sampleViewDesc
      { sampleViewDesc with usage := GpuViewUsage.GVU_DEPTHSTENCIL } (by decide),
   textureView_EqualFunction_fieldwise.2.2.2.1 sampleViewDesc sampleViewDesc (by decide),
   textureView_EqualFunction_fieldwise.2.2.2.2 sampleViewDesc sampleViewDesc sampleViewDesc
      (by decide) (by decide)⟩

/-- C19: `GpuBufferView::EqualFunction(a, b)` is true exactly when `a` and `b` agree on
`elementWidth`, `firstElement`, `numElements`, `useCounter` and `usage`, the five fields
of `GPU_BUFFER_DESC`; descriptors that differ compare unequal. -/
theorem gpuBufferView_EqualFunction_fieldwise :
    (∀ a b : GPU_BUFFER_DESC,
      GpuBufferView.EqualFunction a b = true ↔
        (a.elementWidth = b.elementWidth ∧ a.firstElement = b.firstElement ∧
          a.numElements = b.numElements ∧ a.useCounter = b.useCounter ∧
          a.usage = b.usage)) ∧
    (∀ a b : GPU_BUFFER_DESC, a ≠ b → GpuBufferView.EqualFunction a b = false) := by
  refine ⟨?_, ?_⟩
  · intro a b
    obtain ⟨a1, a2, a3, a4, a5⟩ := a
    obtain ⟨b1, b2, b3, b4, b5⟩ := b
    simp [GpuBufferView.EqualFunction, and_assoc]
  · intro a b hne
    cases h : GpuBufferView.EqualFunction a b with
    | false => rfl
    | true => exact absurd ((gpuBufferView_EqualFunction_iff_eq a b).mp h) hne

/-- C19 on `sampleBufferDesc` and the descriptor that differs from it in `useCounter`
only. -/
theorem gpuBufferView_EqualFunction_fieldwise_witness :
    GpuBufferView.EqualFunction sampleBufferDesc
      { sampleBufferDesc with useCounter := true } = false :=
  gpuBufferView_EqualFunction_fieldwise.2 sampleBufferDesc
    { sampleBufferDesc with useCounter := true } (by decide)

/-- C20: for both descriptor kinds and every `hash_combine`, descriptors that
`EqualFunction` finds equal have the same `HashFunction` value. -/
theorem hash_consistent_with_equality (hash_combine : HashCombine) :
    (∀ a b : TEXTURE_VIEW_DESC, TextureView.EqualFunction a b = true →
      TextureView.HashFunction hash_combine a = TextureView.HashFunction hash_combine b) ∧
    (∀ a b : GPU_BUFFER_DESC, GpuBufferView.EqualFunction a b = true →
      GpuBufferView.HashFunction hash_combine a
        = GpuBufferView.HashFunction hash_combine b) := by
  refine ⟨?_, ?_⟩
  · intro a b h
    rw [(textureView_EqualFunction_iff_eq a b).mp h]
  · intro a b h
    rw [(gpuBufferView_EqualFunction_iff_eq a b).mp h]

/-- C20 on `sampleViewDesc` and `sampleBufferDesc` with `sampleHashCombine`. -/
theorem hash_consistent_with_equality_witness :
    TextureView.HashFunction sampleHashCombine sampleViewDesc
      = TextureView.HashFunction sampleHashCombine
          { mostDetailMip := 0, numMips := 1, firstArraySlice := 0, numArraySlices := 1,
            usage := GpuViewUsage.GVU_RENDERTARGET } ∧
    GpuBufferView.HashFunction sampleHashCombine sampleBufferDesc
      = GpuBufferView.HashFunction sampleHashCombine
          { elementWidth := 4, firstElement := 0, numElements := 16, useCounter := false,
            usage := GpuViewUsage.GVU_DEFAULT } :=
  ⟨(hash_consistent_with_equality sampleHashCombine).1 sampleViewDesc _ (by decide),
   (hash_consistent_with_equality sampleHashCombine).2 sampleBufferDesc _ (by decide)⟩

/-! ## The view cache: requests and releases of one view -/

/-- After `n` requests of a view its count has grown by `n`. -/
theorem requestViewTimes_countOf (texture : Texture) (desc : TEXTURE_VIEW_DESC) :
    ∀ (n : Nat) (c : ViewCache),
      (Texture.requestViewTimes texture desc n c).countOf
          { texture := texture, mDesc := desc }
        = c.countOf { texture := texture, mDesc := desc } + n := by
  intro n
  induction n with
  | zero => intro c; rfl
  | succ n ih =>
    intro c
    unfold Texture.requestViewTimes
    rw [ih, requestView_countOf]
    have hv : (Texture.requestView texture desc.mostDetailMip desc.numMips
        desc.firstArraySlice desc.numArraySlices desc.usage c).1
        = { texture := texture, mDesc := desc } := by
      unfold Texture.requestView
      simp only []
      split <;> rfl
    rw [hv, List.count_singleton]
    simp only [beq_self_eq_true, if_true]
    omega

/-- Releasing a view `n` times when the cache holds at least `n` references to it: no
release throws and the count drops by `n`. -/
theorem releaseViewTimes_countOf (view : TextureView) :
    ∀ (n : Nat) (c : ViewCache), n ≤ c.countOf view →
      (Texture.releaseViewTimes view n c).1 = none ∧
      (Texture.releaseViewTimes view n c).2.countOf view + n = c.countOf view := by
  intro n
  induction n with
  | zero => intro c _; exact ⟨rfl, rfl⟩
  | succ n ih =>
    intro c h
    have hne : c.countOf view ≠ 0 := by omega
    have hok := (releaseView_error view c).mpr hne
    have hcount := releaseView_countOf view c hne view
    rw [List.count_singleton] at hcount
    simp only [beq_self_eq_true, if_true] at hcount
    unfold Texture.releaseViewTimes
    cases hr : Texture.releaseView view c with
    | mk e c1 =>
      rw [hr] at hok hcount
      simp only [] at hok hcount
      subst hok
      simp only []
      obtain ⟨h1, h2⟩ := ih c1 (by omega)
      exact ⟨h1, by omega⟩

/-- C22: for every texture and every two descriptors that `TextureView::EqualFunction`
finds equal, `requestView` returns the same view for both, in whatever state the cache
is, and each call raises the reference count of that view by exactly one; when the view
had no entry, `n` requests bring its count to `n`, the `n` releases that follow throw
nothing and bring it back to 0 (no entry), and one further release throws. -/
theorem requestView_shares_and_counts (texture : Texture) (a b : TEXTURE_VIEW_DESC)
    (hab : TextureView.EqualFunction a b = true) :
    (∀ c1 c2 : ViewCache,
      (Texture.requestView texture a.mostDetailMip a.numMips a.firstArraySlice
          a.numArraySlices a.usage c1).1
        = (Texture.requestView texture b.mostDetailMip b.numMips b.firstArraySlice
          b.numArraySlices b.usage c2).1) ∧
    (∀ c : ViewCache,
      (Texture.requestView texture b.mostDetailMip b.numMips b.firstArraySlice
          b.numArraySlices b.usage c).2.countOf { texture := texture, mDesc := a }
        = c.countOf { texture := texture, mDesc := a } + 1) ∧
    (∀ (n : Nat) (c : ViewCache), c.countOf { texture := texture, mDesc := a } = 0 →
      (Texture.requestViewTimes texture b n c).countOf { texture := texture, mDesc := a } = n ∧
      (Texture.releaseViewTimes { texture := texture, mDesc := a } n
        (Texture.requestViewTimes texture b n c)).1 = none ∧
      (Texture.releaseViewTimes { texture := texture, mDesc := a } n
        (Texture.requestViewTimes texture b n c)).2.countOf
          { texture := texture, mDesc := a } = 0 ∧
      (Texture.releaseView { texture := texture, mDesc := a }
        (Texture.releaseViewTimes { texture := texture, mDesc := a } n
          (Texture.requestViewTimes texture b n c)).2).1
        = some viewDoesNotExistException) := by
  have hba := (textureView_EqualFunction_iff_eq a b).mp hab
  subst hba
  refine ⟨?_, ?_, ?_⟩
  · intro c1 c2
    unfold Texture.requestView
    simp only []
    split <;> split <;> rfl
  · intro c
    have h := requestViewTimes_countOf texture a 1 c
    exact h
  · intro n c hc
    have hreq := requestViewTimes_countOf texture a n c
    rw [hc, Nat.zero_add] at hreq
    obtain ⟨hrel1, hrel2⟩ := releaseViewTimes_countOf { texture := texture, mDesc := a } n
      (Texture.requestViewTimes texture a n c) (by omega)
    have hzero : (Texture.releaseViewTimes { texture := texture, mDesc := a } n
        (Texture.requestViewTimes texture a n c)).2.countOf
          { texture := texture, mDesc := a } = 0 := by omega
    refine ⟨hreq, hrel1, hzero, ?_⟩
    unfold Texture.releaseView
    unfold ViewCache.countOf at hzero
    simp only [] at hzero ⊢
    rw [if_pos hzero]
    rfl

/-- C22 on `sampleViewDesc` of a sample texture and an empty cache: three requests, three
releases, and a fourth release that throws. -/
theorem requestView_shares_and_counts_witness :
    (Texture.requestViewTimes (sampleTexture 1 4 4 1) sampleViewDesc 3 emptyCache).countOf
      { texture := sampleTexture 1 4 4 1, mDesc := sampleViewDesc } = 3 ∧
    (Texture.releaseViewTimes { texture := sampleTexture 1 4 4 1, mDesc := sampleViewDesc } 3
      (Texture.requestViewTimes (sampleTexture 1 4 4 1) sampleViewDesc 3 emptyCache)).1
      = none ∧
    (Texture.releaseViewTimes { texture := sampleTexture 1 4 4 1, mDesc := sampleViewDesc } 3
      (Texture.requestViewTimes (sampleTexture 1 4 4 1) sampleViewDesc 3
        emptyCache)).2.countOf
        { texture := sampleTexture 1 4 4 1, mDesc := sampleViewDesc } = 0 ∧
    (Texture.releaseView { texture := sampleTexture 1 4 4 1, mDesc := sampleViewDesc }
      (Texture.releaseViewTimes { texture := sampleTexture 1 4 4 1, mDesc := sampleViewDesc }
        3 (Texture.requestViewTimes (sampleTexture 1 4 4 1) sampleViewDesc 3
          emptyCache)).2).1 = some viewDoesNotExistException :=
  (requestView_shares_and_counts (sampleTexture 1 4 4 1) sampleViewDesc sampleViewDesc
    (by decide)).2.2 3 emptyCache (by decide)

/-! ## The target after a successful `initialize` -/

/-- Two textures pass the "don't match" test exactly when they agree on the four
properties. -/
theorem not_dontMatch_iff (a b : Texture) :
    ¬ MultiRenderTexture.dontMatch a b ↔
      (a.width = b.width ∧ a.height = b.height ∧
        a.multisampleCount = b.multisampleCount ∧
        a.multisampleHint = b.multisampleHint) := by
  unfold MultiRenderTexture.dontMatch
  constructor
  · intro h
    push_neg at h
    exact h
  · intro h
    push_neg
    exact h

/-- The colour slots are only written by the loop over the colour surfaces. -/
theorem initialize_slots (E : EngineDecls) (desc : MULTI_RENDER_TEXTURE_DESC)
    (t : MultiRenderTexture) (c : ViewCache) :
    ( MultiRenderTexture.initialize E desc t c).target.mColorSurfaces =
      (MultiRenderTexture.bindColorSurfaces E desc.colorSurfaces 0 false t
        c).target.mColorSurfaces := by
  unfold MultiRenderTexture.initialize MultiRenderTexture.validate
  simp only []
  split
  · rfl
  · split
    · split <;> rfl
    · split
      · rfl
      · split <;> rfl

/-- When `initialize` returns, `throwIfBuffersDontMatch` ran through on the target it
leaves. -/
theorem initialize_ok_validated (E : EngineDecls) (desc : MULTI_RENDER_TEXTURE_DESC)
    (t : MultiRenderTexture) (c : ViewCache)
    (h : ( MultiRenderTexture.initialize E desc t c).error = none) :
    MultiRenderTexture.throwIfBuffersDontMatch
      ( MultiRenderTexture.initialize E desc t c).target = Except.ok () := by
  have hloop := initialize_ok_loop E desc t c h
  rw [initialize_of_loop_ok E desc t c hloop] at h ⊢
  have hval : ∀ (t1 : MultiRenderTexture) (c1 : ViewCache),
      (MultiRenderTexture.validate t1 c1).error = none →
      MultiRenderTexture.throwIfBuffersDontMatch (MultiRenderTexture.validate t1 c1).target
        = Except.ok () := by
    intro t1 c1 hv
    rw [(validate_state t1 c1).1]
    rw [validate_error] at hv
    split at hv
    · cases hv
    · rename_i u hu
      rw [hu]
  cases hd : desc.depthStencilSurface.texture with
  | none =>
    rw [hd] at h
    exact hval _ _ h
  | some texture =>
    rw [hd] at h
    simp only [] at h ⊢
    by_cases hu : texture.usage ≠ TextureUsage.TU_DEPTHSTENCIL
    · rw [if_pos hu] at h
      cases h
    · rw [if_neg hu] at h ⊢
      exact hval _ _ h

/-- When `throwIfBuffersDontMatch` runs through on a target with a populated colour slot,
every populated colour slot and the depth/stencil view agree with the first populated
slot on the four properties. -/
theorem throwIfBuffersDontMatch_ok (t : MultiRenderTexture) (first : TextureView)
    (hfirst : t.populated.head? = some first)
    (hok : MultiRenderTexture.throwIfBuffersDontMatch t = Except.ok ()) :
    ∀ v ∈ t.held, ¬ MultiRenderTexture.dontMatch v.texture first.texture := by
  have hagree : ∀ v ∈ t.populated,
      ¬ MultiRenderTexture.dontMatch v.texture first.texture := by
    intro v hv hd
    have herr := matchColorSurfaces_error t.mColorSurfaces first hfirst ⟨v, hv, hd⟩
    unfold MultiRenderTexture.throwIfBuffersDontMatch at hok
    simp only [herr] at hok
    cases hok
  have hm := matchColorSurfaces_of_agree t first hfirst hagree
  rw [throwIfBuffersDontMatch_of_first t first hm] at hok
  intro v hv
  unfold MultiRenderTexture.held at hv
  rcases List.mem_append.mp hv with hv | hv
  · exact hagree v hv
  · cases hds : t.mDepthStencilSurface with
    | none => rw [hds] at hv; simp at hv
    | some d =>
      rw [hds] at hv hok
      simp only [Option.toList_some, List.mem_singleton] at hv
      subst hv
      intro hd
      split at hok
      · cases hok
      · split at hok
        · cases hok
        · split at hok
          · cases hok
          · simp only [hd, if_true] at hok
            cases hok

/-- C25: after `initialize` succeeds on a freshly constructed target with at least one
colour slot populated, the textures of all populated colour slots and of the
depth/stencil view agree pairwise on width, height, multisample count and multisample
hint, and the derived width and multisample count of the target are those of every one
of them. -/
theorem initialize_surfaces_agree (E : EngineDecls) (base : RenderTarget)
    (desc : MULTI_RENDER_TEXTURE_DESC) (c : ViewCache)
    (hok : ( MultiRenderTexture.initialize E desc (MultiRenderTexture.ctor E base) c).error
      = none)
    (hpop : ( MultiRenderTexture.initialize E desc (MultiRenderTexture.ctor E base)
      c).target.populated ≠ []) :
    (∀ u ∈ ( MultiRenderTexture.initialize E desc (MultiRenderTexture.ctor E base)
        c).target.held,
      ∀ v ∈ ( MultiRenderTexture.initialize E desc (MultiRenderTexture.ctor E base)
        c).target.held,
      u.texture.width = v.texture.width ∧ u.texture.height = v.texture.height ∧
      u.texture.multisampleCount = v.texture.multisampleCount ∧
      u.texture.multisampleHint = v.texture.multisampleHint) ∧
    (∀ v ∈ ( MultiRenderTexture.initialize E desc (MultiRenderTexture.ctor E base)
        c).target.held,
      ( MultiRenderTexture.initialize E desc (MultiRenderTexture.ctor E base)
        c).target.mWidth = v.texture.width ∧
      ( MultiRenderTexture.initialize E desc (MultiRenderTexture.ctor E base)
        c).target.mMultisampleCount = v.texture.multisampleCount) := by
  have hloop := initialize_ok_loop E desc _ c hok
  have hpopEq : ( MultiRenderTexture.initialize E desc (MultiRenderTexture.ctor E base)
      c).target.populated
      = (desc.colorSurfaces.take E.BS_MAX_MULTIPLE_RENDER_TARGETS).filterMap colorView := by
    unfold MultiRenderTexture.populated
    rw [initialize_slots, bindColorSurfaces_populated E base _ c hloop]
  obtain ⟨first, hfirst⟩ : ∃ first,
      ( MultiRenderTexture.initialize E desc (MultiRenderTexture.ctor E base)
        c).target.populated.head? = some first := by
    cases hp : ( MultiRenderTexture.initialize E desc (MultiRenderTexture.ctor E base)
        c).target.populated with
    | nil => exact absurd hp hpop
    | cons f rest => exact ⟨f, rfl⟩
  have hbound : firstBoundColorTexture E desc = some first.texture := by
    unfold firstBoundColorTexture
    rw [← filterMap_colorView_texture, ← hpopEq, List.head?_map, hfirst]
    rfl
  have hder := initialize_derived E desc _ c first.texture hok hbound
  have hagree := throwIfBuffersDontMatch_ok _ first hfirst
    (initialize_ok_validated E desc _ c hok)
  refine ⟨fun u hu v hv => ?_, fun v hv => ?_⟩
  · have a := (not_dontMatch_iff _ _).mp (hagree u hu)
    have b := (not_dontMatch_iff _ _).mp (hagree v hv)
    exact ⟨a.1.trans b.1.symm, a.2.1.trans b.2.1.symm, a.2.2.1.trans b.2.2.1.symm,
      a.2.2.2.trans b.2.2.2.symm⟩
  · have b := (not_dontMatch_iff _ _).mp (hagree v hv)
    have hw : ( MultiRenderTexture.initialize E desc (MultiRenderTexture.ctor E base)
        c).target.mWidth = first.texture.width := congrArg RenderTarget.mWidth hder
    have hm : ( MultiRenderTexture.initialize E desc (MultiRenderTexture.ctor E base)
        c).target.mMultisampleCount = first.texture.multisampleCount :=
      congrArg RenderTarget.mMultisampleCount hder
    exact ⟨hw.trans b.1.symm, hm.trans b.2.2.1.symm⟩

/-- C25 on `depthDesc`: the target holds a colour view and a depth/stencil view of 4 by 4
textures with one sample, and reports width 4 and one sample. -/
theorem initialize_surfaces_agree_witness :
    ( MultiRenderTexture.initialize sampleEngine depthDesc
        (MultiRenderTexture.ctor sampleEngine sampleBase) emptyCache).target.held
      = [sampleView (sampleTexture 1 4 4 1), sampleDepthView (depthTexture 2 4 4 1)] ∧
    ( MultiRenderTexture.initialize sampleEngine depthDesc
        (MultiRenderTexture.ctor sampleEngine sampleBase) emptyCache).target.mWidth
      = (depthTexture 2 4 4 1).width ∧
    ( MultiRenderTexture.initialize sampleEngine depthDesc
        (MultiRenderTexture.ctor sampleEngine sampleBase) emptyCache).target.mMultisampleCount
      = (depthTexture 2 4 4 1).multisampleCount :=
  ⟨by decide,
   (initialize_surfaces_agree sampleEngine sampleBase depthDesc emptyCache (by decide)
      (by decide)).2 (sampleDepthView (depthTexture 2 4 4 1)) (by decide)⟩

/-! ## The bound on the colour slots -/

/-- The loop of `initialize` keeps the length of the slot vector and leaves every slot
whose index is not below the maximum as it was. -/
theorem bindColorSurfaces_bound (E : EngineDecls) :
    ∀ (ds : List RENDER_SURFACE_DESC) (i : Nat) (flag : Bool) (t : MultiRenderTexture)
      (c : ViewCache),
      (MultiRenderTexture.bindColorSurfaces E ds i flag t c).target.mColorSurfaces.length
        = t.mColorSurfaces.length ∧
      ∀ k, E.BS_MAX_MULTIPLE_RENDER_TARGETS ≤ k →
        (MultiRenderTexture.bindColorSurfaces E ds i flag t c).target.mColorSurfaces[k]?
          = t.mColorSurfaces[k]? := by
  intro ds
  induction ds with
  | nil =>
    intro i flag t c
    exact ⟨rfl, fun _ _ => rfl⟩
  | cons d rest ih =>
    intro i flag t c
    unfold MultiRenderTexture.bindColorSurfaces
    split
    · exact ih _ _ _ _
    · split
      · exact ih _ _ _ _
      · rename_i hi
        split
        · exact ⟨rfl, fun _ _ => rfl⟩
        · obtain ⟨h1, h2⟩ := ih (i + 1) true
            (if flag = true then
              { t with mColorSurfaces := t.mColorSurfaces.set i (some (Texture.requestView
                  _ d.mipLevel 1 d.face d.numFaces GpuViewUsage.GVU_RENDERTARGET c).1) }
             else
              { t with
                mColorSurfaces := t.mColorSurfaces.set i (some (Texture.requestView
                  _ d.mipLevel 1 d.face d.numFaces GpuViewUsage.GVU_RENDERTARGET c).1)
                mWidth := _
                mHeight := _
                mColorDepth := _
                mActive := true
                mHwGamma := _
                mMultisampleCount := _
                mMultisampleHint := _ })
            (Texture.requestView _ d.mipLevel 1 d.face d.numFaces
              GpuViewUsage.GVU_RENDERTARGET c).2
          refine ⟨?_, fun k hk => ?_⟩
          · rw [h1]
            cases flag <;> simp
          · rw [h2 k hk]
            have hne : i ≠ k := by omega
            cases flag <;> simp [List.getElem?_set_ne hne]

/-- The loop of `initialize` does the same on a configuration and on its entries below
the maximum alone. -/
theorem bindColorSurfaces_take (E : EngineDecls) :
    ∀ (ds : List RENDER_SURFACE_DESC) (i : Nat) (flag : Bool) (t : MultiRenderTexture)
      (c : ViewCache),
      MultiRenderTexture.bindColorSurfaces E ds i flag t c
        = MultiRenderTexture.bindColorSurfaces E
            (ds.take (E.BS_MAX_MULTIPLE_RENDER_TARGETS - i)) i flag t c := by
  intro ds
  induction ds with
  | nil =>
    intro i flag t c
    simp
  | cons d rest ih =>
    intro i flag t c
    by_cases hi : i ≥ E.BS_MAX_MULTIPLE_RENDER_TARGETS
    · have h0 : E.BS_MAX_MULTIPLE_RENDER_TARGETS - i = 0 := by omega
      have h1 : E.BS_MAX_MULTIPLE_RENDER_TARGETS - (i + 1) = 0 := by omega
      have hrest := ih (i + 1) flag t c
      rw [h1, List.take_zero] at hrest
      rw [h0, List.take_zero]
      unfold MultiRenderTexture.bindColorSurfaces
      split
      · rw [hrest]
        rfl
      · rw [if_pos hi, hrest]
        rfl
    · obtain ⟨n, hn⟩ : ∃ n, E.BS_MAX_MULTIPLE_RENDER_TARGETS - i = n + 1 :=
        ⟨E.BS_MAX_MULTIPLE_RENDER_TARGETS - i - 1, by omega⟩
      have h1 : E.BS_MAX_MULTIPLE_RENDER_TARGETS - (i + 1) = n := by omega
      rw [hn, List.take_succ_cons]
      unfold MultiRenderTexture.bindColorSurfaces
      split
      · rw [ih (i + 1) flag t c, h1]
      · rw [if_neg hi, if_neg hi]
        split
        · rfl
        · simp only []
          rw [ih (i + 1) true _ _, h1]

/-- C26: the colour slot vector of a constructed target has exactly
`BS_MAX_MULTIPLE_RENDER_TARGETS` entries; `initialize` keeps its length and leaves every
slot whose index is not below that bound as it was; `initialize` does exactly the same
(same exception or none, same target, same view cache and same calls into it) as on the
configuration cut down to its entries below the bound, so an entry at an index not
below the bound raises nothing, has no usage check and requests no view; and
`destroy_internal` leaves the target as it was. -/
theorem initialize_respects_slot_bound (E : EngineDecls) :
    (∀ base : RenderTarget,
      (MultiRenderTexture.ctor E base).mColorSurfaces.length
        = E.BS_MAX_MULTIPLE_RENDER_TARGETS) ∧
    (∀ (desc : MULTI_RENDER_TEXTURE_DESC) (t : MultiRenderTexture) (c : ViewCache),
      ( MultiRenderTexture.initialize E desc t c).target.mColorSurfaces.length
        = t.mColorSurfaces.length) ∧
    (∀ (desc : MULTI_RENDER_TEXTURE_DESC) (t : MultiRenderTexture) (c : ViewCache) (k : Nat),
      E.BS_MAX_MULTIPLE_RENDER_TARGETS ≤ k →
      ( MultiRenderTexture.initialize E desc t c).target.mColorSurfaces[k]?
        = t.mColorSurfaces[k]?) ∧
    (∀ (desc : MULTI_RENDER_TEXTURE_DESC) (t : MultiRenderTexture) (c : ViewCache),
      MultiRenderTexture.initialize E desc t c
        = MultiRenderTexture.initialize E
            { desc with
              colorSurfaces := desc.colorSurfaces.take E.BS_MAX_MULTIPLE_RENDER_TARGETS }
            t c) ∧
    (∀ (t : MultiRenderTexture) (c : ViewCache),
      (MultiRenderTexture.destroy_internal t c).target = t) := by
  refine ⟨?_, ?_, ?_, ?_, ?_⟩
  · intro base
    simp [MultiRenderTexture.ctor]
  · intro desc t c
    rw [initialize_slots]
    exact (bindColorSurfaces_bound E _ _ _ _ _).1
  · intro desc t c k hk
    rw [initialize_slots]
    exact (bindColorSurfaces_bound E _ _ _ _ _).2 k hk
  · intro desc t c
    have h := bindColorSurfaces_take E desc.colorSurfaces 0 false t c
    rw [Nat.sub_zero] at h
    unfold MultiRenderTexture.initialize
    simp only []
    rw [← h]
  · intro t c
    unfold MultiRenderTexture.destroy_internal
    split
    · rfl
    · split <;> rfl

/-- C26 on `nineSurfacesDesc`, whose entry at index 8 has a texture of the wrong usage:
`initialize` succeeds on a fresh target, keeps the eight slots, and makes eight requests. -/
theorem initialize_respects_slot_bound_witness :
    ( MultiRenderTexture.initialize sampleEngine nineSurfacesDesc freshTarget
        emptyCache).error = none ∧
    ( MultiRenderTexture.initialize sampleEngine nineSurfacesDesc freshTarget
        emptyCache).target.mColorSurfaces.length = 8 ∧
    ( MultiRenderTexture.initialize sampleEngine nineSurfacesDesc freshTarget
        emptyCache).target.mColorSurfaces[8]? = none ∧
    ( MultiRenderTexture.initialize sampleEngine nineSurfacesDesc freshTarget
        emptyCache).cache.calls.length = 8 :=
  ⟨by decide,
   ((initialize_respects_slot_bound sampleEngine).2.1 nineSurfacesDesc freshTarget
      emptyCache).trans (by decide),
   ((initialize_respects_slot_bound sampleEngine).2.2.1 nineSurfacesDesc freshTarget
      emptyCache 8 (by decide)).trans (by decide),
   by decide⟩

/-! ## A depth/stencil surface without colour surfaces -/

/-- C27: on a freshly constructed target, `initialize` with no bound colour surface and a
depth/stencil surface whose texture has depth-stencil usage succeeds whatever the size,
sample count, type, face count and mip count of that texture and whatever face range
and mip level are asked for (`throwIfBuffersDontMatch` returns at line 118), it stores
the depth/stencil view, and it leaves width, height, colour depth, active flag, gamma
flag, multisample count and multisample hint as the constructor left them. -/
theorem initialize_depth_only (E : EngineDecls) (base : RenderTarget)
    (desc : MULTI_RENDER_TEXTURE_DESC) (c : ViewCache) (depth : Texture)
    (hnone : firstBoundColorTexture E desc = none)
    (hdepth : desc.depthStencilSurface.texture = some depth)
    (husage : depth.usage = TextureUsage.TU_DEPTHSTENCIL) :
    ( MultiRenderTexture.initialize E desc (MultiRenderTexture.ctor E base) c).error = none ∧
    ( MultiRenderTexture.initialize E desc (MultiRenderTexture.ctor E base)
      c).target.toRenderTarget = base ∧
    ( MultiRenderTexture.initialize E desc (MultiRenderTexture.ctor E base)
      c).target.mDepthStencilSurface
      = some { texture := depth,
               mDesc := { mostDetailMip := desc.depthStencilSurface.mipLevel, numMips := 1,
                          firstArraySlice := desc.depthStencilSurface.face,
                          numArraySlices := desc.depthStencilSurface.numFaces,
                          usage := GpuViewUsage.GVU_DEPTHSTENCIL } } := by
  have hnil : (desc.colorSurfaces.take E.BS_MAX_MULTIPLE_RENDER_TARGETS).filterMap
      (fun d => d.texture) = [] := by
    unfold firstBoundColorTexture at hnone
    exact List.head?_eq_none_iff.mp hnone
  have hall : ∀ d ∈ desc.colorSurfaces.take E.BS_MAX_MULTIPLE_RENDER_TARGETS,
      d.texture = none := by
    intro d hd
    exact List.filterMap_eq_nil_iff.mp hnil d hd
  have hloop : (MultiRenderTexture.bindColorSurfaces E desc.colorSurfaces 0 false
      (MultiRenderTexture.ctor E base) c).error = none := by
    apply bindColorSurfaces_usage_ok
    intro d hd texture ht
    rw [Nat.sub_zero] at hd
    rw [hall d hd] at ht
    cases ht
  have hprops := bindColorSurfaces_properties E desc.colorSurfaces 0 false
    (MultiRenderTexture.ctor E base) c hloop
  rw [Nat.sub_zero, hnil] at hprops
  simp only [List.head?_nil] at hprops
  have hpop := bindColorSurfaces_populated E base desc.colorSurfaces c hloop
  have hviews : (desc.colorSurfaces.take E.BS_MAX_MULTIPLE_RENDER_TARGETS).filterMap
      colorView = [] := by
    have := filterMap_colorView_texture
      (desc.colorSurfaces.take E.BS_MAX_MULTIPLE_RENDER_TARGETS)
    rw [hnil] at this
    exact List.map_eq_nil_iff.mp this
  rw [hviews] at hpop
  have hthrow : ∀ d : Option TextureView,
      MultiRenderTexture.throwIfBuffersDontMatch
        { (MultiRenderTexture.bindColorSurfaces E desc.colorSurfaces 0 false
            (MultiRenderTexture.ctor E base) c).target with
          mDepthStencilSurface := d } = Except.ok () := by
    intro d
    unfold MultiRenderTexture.throwIfBuffersDontMatch
    simp only []
    rw [matchColorSurfaces_ok _ (by rw [hpop]; intro f hf; cases hf), hpop]
    rfl
  have hu : ¬ depth.usage ≠ TextureUsage.TU_DEPTHSTENCIL := fun h => h husage
  refine ⟨?_, ?_, ?_⟩
  · rw [initialize_of_loop_ok E desc _ c hloop, hdepth]
    simp only []
    rw [if_neg hu, validate_error, hthrow]
  · rw [initialize_properties, hprops]
    rfl
  · rw [initialize_of_loop_ok E desc _ c hloop, hdepth]
    simp only []
    rw [if_neg hu, (validate_state _ _).1]
    simp only []
    congr 1
    unfold Texture.requestView
    simp only []
    split <;> rfl

/-- C27 on `depthOnlyDesc`, whose depth/stencil texture is a cube map of 8 samples asked
for at mip 5 with faces 3 to 10: `initialize` succeeds and the derived properties are
those of `sampleBase`. -/
theorem initialize_depth_only_witness :
    ( MultiRenderTexture.initialize sampleEngine depthOnlyDesc
      (MultiRenderTexture.ctor sampleEngine sampleBase) emptyCache).error = none ∧
    ( MultiRenderTexture.initialize sampleEngine depthOnlyDesc
      (MultiRenderTexture.ctor sampleEngine sampleBase) emptyCache).target.toRenderTarget
      = sampleBase :=
  have h := initialize_depth_only sampleEngine sampleBase depthOnlyDesc emptyCache
    { cubeTexture 1 16 with usage := TextureUsage.TU_DEPTHSTENCIL, multisampleCount := 8 }
    (by decide) (by decide) (by decide)
  ⟨h.1, h.2.1⟩

/-! ## Monotone completion -/

/-- C28: no call on `AsyncOp` objects (a construction, `hasCompleted`, `getReturnValue`,
either `completeOperation`, on whatever operation) turns `hasCompleted()` of an existing
operation from true back to false, and neither does any sequence of them;
`completeOperation()` without a value leaves the stored return value of every cell as it
was, so a value stored before is still returned after it. -/
theorem completion_is_monotone {U : Type} [DecidableEq U] {El : U → Type} :
    (∀ (call : AsyncOp.Call U El) (s : AsyncOpStore U El) (op : AsyncOp),
      op.mData < s.next → op.hasCompleted s = true → op.hasCompleted (call.run s) = true) ∧
    (∀ (calls : List (AsyncOp.Call U El)) (s : AsyncOpStore U El) (op : AsyncOp),
      op.mData < s.next → op.hasCompleted s = true →
      op.hasCompleted (AsyncOp.runCalls calls s) = true) ∧
    (∀ (op : AsyncOp) (s : AsyncOpStore U El) (address : Nat),
      ((op.completeOperationNoValue s).cells address).mReturnValue
        = (s.cells address).mReturnValue) ∧
    (∀ (CM_DEBUG_MODE : Bool) (op : AsyncOp) (s : AsyncOpStore U El) (T : U) (v : El T),
      op.getReturnValue CM_DEBUG_MODE T
          (op.completeOperationNoValue (op.completeOperation (boost.any.of T v) s))
        = Except.ok v) := by
  have hstep : ∀ (call : AsyncOp.Call U El) (s : AsyncOpStore U El) (op : AsyncOp),
      op.mData < s.next → op.hasCompleted s = true →
      op.hasCompleted (call.run s) = true := by
    intro call s op hused hdone
    unfold AsyncOp.hasCompleted at hdone ⊢
    cases call with
    | construct =>
      have hne : ¬ op.mData = s.next := by omega
      simp [AsyncOp.Call.run, AsyncOp.ctor, hne, hdone]
    | hasCompleted op1 => exact hdone
    | getReturnValue op1 T => exact hdone
    | completeOperation op1 returnValue =>
      by_cases h : op.mData = op1.mData
      · simp [AsyncOp.Call.run, AsyncOp.completeOperation, AsyncOpStore.write, h]
      · simp [AsyncOp.Call.run, AsyncOp.completeOperation, AsyncOpStore.write, h, hdone]
    | completeOperationNoValue op1 =>
      by_cases h : op.mData = op1.mData
      · simp [AsyncOp.Call.run, AsyncOp.completeOperationNoValue, AsyncOpStore.write, h]
      · simp [AsyncOp.Call.run, AsyncOp.completeOperationNoValue, AsyncOpStore.write, h,
          hdone]
  have hnoValue : ∀ (op : AsyncOp) (s : AsyncOpStore U El) (address : Nat),
      ((op.completeOperationNoValue s).cells address).mReturnValue
        = (s.cells address).mReturnValue := by
    intro op s address
    by_cases h : address = op.mData
    · simp [AsyncOp.completeOperationNoValue, AsyncOpStore.write, h]
    · simp [AsyncOp.completeOperationNoValue, AsyncOpStore.write, h]
  refine ⟨hstep, ?_, hnoValue, ?_⟩
  · intro calls
    induction calls with
    | nil => intro s op _ h; exact h
    | cons call rest ih =>
      intro s op hused hdone
      have hnext := run_next call s
      have := ih (call.run s) op (by omega) (hstep call s op hused hdone)
      simpa only [AsyncOp.runCalls, List.foldl_cons] using this
  · intro debug op s T v
    have hdone : ((op.completeOperationNoValue
        (op.completeOperation (boost.any.of T v) s)).cells op.mData).mIsCompleted = true := by
      simp [AsyncOp.completeOperationNoValue, AsyncOpStore.write]
    rw [getReturnValue_completed _ _ _ _ hdone, hnoValue, completeOperation_cell]
    exact any_cast_of T v

/-- C28 on `firstOp` completed with 42: it is still completed after a construction, a
completion of `secondOp` and a `completeOperation()` on itself, and still returns 42. -/
theorem completion_is_monotone_witness :
    firstOp.hasCompleted
      (AsyncOp.runCalls
        [AsyncOp.Call.construct,
         AsyncOp.Call.completeOperation secondOp (boost.any.of SampleType.int (7 : Int)),
         AsyncOp.Call.completeOperationNoValue firstOp]
        (firstOp.completeOperation (boost.any.of SampleType.int (42 : Int)) firstStore))
      = true ∧
    firstOp.getReturnValue true SampleType.int
      (firstOp.completeOperationNoValue
        (firstOp.completeOperation (boost.any.of SampleType.int (42 : Int)) firstStore))
      = Except.ok (42 : Int) :=
  ⟨(@completion_is_monotone SampleType _ SampleType.El).2.1
      [AsyncOp.Call.construct,
       AsyncOp.Call.completeOperation secondOp (boost.any.of SampleType.int (7 : Int)),
       AsyncOp.Call.completeOperationNoValue firstOp]
      (firstOp.completeOperation (boost.any.of SampleType.int (42 : Int)) firstStore)
      firstOp (by decide) (by decide),
   (@completion_is_monotone SampleType _ SampleType.El).2.2.2 true firstOp firstStore
      SampleType.int (42 : Int)⟩

/-! ## DragAndDropManager -/

/-- Calling the callbacks of a list in turn appends one invocation for each, in order. -/
theorem foldl_invocations (processed : Bool) :
    ∀ (callbacks : List Nat) (log : List (Nat × Bool)),
      callbacks.foldl (fun log callback => log ++ [(callback, processed)]) log
        = log ++ callbacks.map (fun callback => (callback, processed)) := by
  intro callbacks
  induction callbacks with
  | nil => intro log; simp
  | cons cb rest ih =>
    intro log
    rw [List.foldl_cons, ih]
    simp

/-- C29: `endDrag(processed)` calls every callback of `mDropCallbacks` exactly once, in
the order of the vector, with the argument `processed`; callbacks get into the vector at
its end, from `addDropCallback` and from `startDrag`, so that order is the order of
registration; after `endDrag` no drag is in progress, the drag type id is 0, the drag
data is null and the vector is empty, and a second `endDrag` calls nothing. -/
theorem endDrag_invokes_callbacks_once :
    (∀ (processed : Bool) (m : DragAndDropManager),
      (DragAndDropManager.endDrag processed m).invocations
        = m.invocations ++ m.mDropCallbacks.map (fun callback => (callback, processed))) ∧
    (∀ (dropCallback : Nat) (m : DragAndDropManager),
      (DragAndDropManager.addDropCallback dropCallback m).mDropCallbacks
        = m.mDropCallbacks ++ [dropCallback]) ∧
    (∀ (typeId : Nat) (data : Option Nat) (dropCallback : Nat) (needs : Bool)
      (m : DragAndDropManager),
      (DragAndDropManager.startDrag typeId data dropCallback needs m).mDropCallbacks
        = m.mDropCallbacks ++ [dropCallback]) ∧
    (∀ (processed : Bool) (m : DragAndDropManager),
      (DragAndDropManager.endDrag processed m).mIsDragInProgress = false ∧
      (DragAndDropManager.endDrag processed m).mDragTypeId = 0 ∧
      (DragAndDropManager.endDrag processed m).mData = none ∧
      (DragAndDropManager.endDrag processed m).mDropCallbacks = []) ∧
    (∀ (processed again : Bool) (m : DragAndDropManager),
      (DragAndDropManager.endDrag again
          (DragAndDropManager.endDrag processed m)).invocations
        = (DragAndDropManager.endDrag processed m).invocations) := by
  refine ⟨?_, ?_, ?_, ?_, ?_⟩
  · intro processed m
    exact foldl_invocations processed m.mDropCallbacks m.invocations
  · intro dropCallback m
    rfl
  · intro typeId data dropCallback needs m
    rfl
  · intro processed m
    exact ⟨rfl, rfl, rfl, rfl⟩
  · intro processed again m
    rfl

/-- C29 on `draggingManager`: the three callbacks are called in the order 11, 12, 13 in
which they were registered, each with `true`. -/
theorem endDrag_invokes_callbacks_once_witness :
    (DragAndDropManager.endDrag true draggingManager).invocations
      = [(11, true), (12, true), (13, true)] :=
  (endDrag_invokes_callbacks_once.1 true draggingManager).trans (by decide)

/-- The capture flags after `n` notifications that follow a state in which
`mCaptureActive` is 0: `mCaptureActive` is the parity of `n`, `mCaptureChanged` is set
once `n` is positive, and nothing else has changed. -/
theorem mouseCaptureChangedTimes_flags :
    ∀ (n : Nat) (m : DragAndDropManager), m.mCaptureActive = 0 →
      DragAndDropManager.mouseCaptureChangedTimes n m
        = { m with mCaptureActive := n % 2,
                   mCaptureChanged := if n = 0 then m.mCaptureChanged else true } := by
  intro n
  induction n with
  | zero =>
    intro m h
    cases m
    simp only [] at h
    subst h
    rfl
  | succ n ih =>
    intro m h
    unfold DragAndDropManager.mouseCaptureChangedTimes
    rw [ih m h]
    unfold DragAndDropManager.mouseCaptureChanged
    simp only [Nat.succ_ne_zero, if_false, Nat.add_eq_zero, and_false]
    have hx : Nat.xor (n % 2) 1 = (n + 1) % 2 := by
      rcases Nat.mod_two_eq_zero_or_one n with h0 | h1
      · rw [h0]
        have : (n + 1) % 2 = 1 := by omega
        rw [this]
        rfl
      · rw [h1]
        have : (n + 1) % 2 = 0 := by omega
        rw [this]
        rfl
    rw [hx]

/-- C30: after a `startDrag` followed by `n` `mouseCaptureChanged` notifications,
`_update` is `endDrag(false)` when `n` is positive and even, and changes nothing when
`n` is 0 or odd; `endDrag(false)` does change that state (the drag is no longer in
progress); and with no drag in progress `_update` changes nothing. -/
theorem update_ends_drag_on_even_notifications :
    (∀ (typeId : Nat) (data : Option Nat) (dropCallback : Nat) (needs : Bool)
      (m : DragAndDropManager) (n : Nat),
      DragAndDropManager._update
          (DragAndDropManager.mouseCaptureChangedTimes n
            (DragAndDropManager.startDrag typeId data dropCallback needs m))
        = (if 0 < n ∧ n % 2 = 0 then
            DragAndDropManager.endDrag false
              (DragAndDropManager.mouseCaptureChangedTimes n
                (DragAndDropManager.startDrag typeId data dropCallback needs m))
          else
            DragAndDropManager.mouseCaptureChangedTimes n
              (DragAndDropManager.startDrag typeId data dropCallback needs m)) ∧
      DragAndDropManager.endDrag false
          (DragAndDropManager.mouseCaptureChangedTimes n
            (DragAndDropManager.startDrag typeId data dropCallback needs m))
        ≠ DragAndDropManager.mouseCaptureChangedTimes n
            (DragAndDropManager.startDrag typeId data dropCallback needs m)) ∧
    (∀ m : DragAndDropManager, m.mIsDragInProgress = false →
      DragAndDropManager._update m = m) := by
  refine ⟨?_, ?_⟩
  · intro typeId data dropCallback needs m n
    have hflags := mouseCaptureChangedTimes_flags n
      (DragAndDropManager.startDrag typeId data dropCallback needs m) rfl
    have hprog : (DragAndDropManager.mouseCaptureChangedTimes n
        (DragAndDropManager.startDrag typeId data dropCallback needs m)).mIsDragInProgress
        = true := by rw [hflags]; rfl
    have hact : (DragAndDropManager.mouseCaptureChangedTimes n
        (DragAndDropManager.startDrag typeId data dropCallback needs m)).mCaptureActive
        = n % 2 := by rw [hflags]
    have hchg : (DragAndDropManager.mouseCaptureChangedTimes n
        (DragAndDropManager.startDrag typeId data dropCallback needs m)).mCaptureChanged
        = (if n = 0 then false else true) := by rw [hflags]; rfl
    constructor
    · unfold DragAndDropManager._update
      simp only [hprog, hact, hchg, Bool.true_eq_false, if_false]
      by_cases hn : n = 0
      · subst hn
        simp
      · have hpos : 0 < n := Nat.pos_of_ne_zero hn
        simp only [hn, if_false, and_true, hpos, true_and]
    · intro h
      have h2 := congrArg DragAndDropManager.mIsDragInProgress h
      rw [hprog] at h2
      simp [DragAndDropManager.endDrag] at h2
  · intro m h
    unfold DragAndDropManager._update
    rw [if_pos h]

/-- C30 on `draggingManager` restarted: with two notifications `_update` ends the drag
and calls the callbacks with `false`; with none, or with three, it changes nothing. -/
theorem update_ends_drag_on_even_notifications_witness :
    (DragAndDropManager._update
        (DragAndDropManager.mouseCaptureChangedTimes 2
          (DragAndDropManager.startDrag 5 none 12 false
            DragAndDropManager.ctor))).mIsDragInProgress = false ∧
    (DragAndDropManager._update
        (DragAndDropManager.mouseCaptureChangedTimes 2
          (DragAndDropManager.startDrag 5 none 12 false
            DragAndDropManager.ctor))).invocations = [(12, false)] ∧
    DragAndDropManager._update
        (DragAndDropManager.mouseCaptureChangedTimes 3
          (DragAndDropManager.startDrag 5 none 12 false DragAndDropManager.ctor))
      = DragAndDropManager.mouseCaptureChangedTimes 3
          (DragAndDropManager.startDrag 5 none 12 false DragAndDropManager.ctor) ∧
    DragAndDropManager._update DragAndDropManager.ctor = DragAndDropManager.ctor :=
  ⟨by decide, by decide,
   ((update_ends_drag_on_even_notifications.1 5 none 12 false DragAndDropManager.ctor
      3).1).trans (by decide),
   update_ends_drag_on_even_notifications.2 DragAndDropManager.ctor (by decide)⟩

/-! ## Material -/

/-- A loop that appends at most one element in each round appends the elements of the
rounds that append one, in order. -/
theorem foldl_append_filterMap {α β : Type} (g : α → Option β) :
    ∀ (l : List α) (acc : List β),
      l.foldl (fun acc x => acc ++ (g x).toList) acc = acc ++ l.filterMap g := by
  intro l
  induction l with
  | nil => intro acc; simp
  | cons x rest ih =>
    intro acc
    rw [List.foldl_cons, ih]
    cases hg : g x with
    | none => simp [List.filterMap_cons, hg]
    | some y => simp [List.filterMap_cons, hg]

/-- The inner loop of `Material::setParam` over the six stages of one pass. -/
theorem setParam_pass {V : Type} (params : PassParameters) (name : String) (value : V)
    (arrayIdx : Nat) (writes : List (ParamWrite V)) :
    (List.range params.getNumParams).foldl
        (fun writes i =>
          match params.getParamByIdx i with
          | some paramPtr =>
            if paramPtr.hasParam name = true then
              paramPtr.setParam name value arrayIdx writes
            else writes
          | none => writes)
        writes
      = writes ++ params.stages.filterMap (writeOn name value arrayIdx) := by
  have hstep : (fun (writes : List (ParamWrite V)) (i : Nat) =>
          match params.getParamByIdx i with
          | some paramPtr =>
            if paramPtr.hasParam name = true then
              paramPtr.setParam name value arrayIdx writes
            else writes
          | none => writes)
      = (fun writes i =>
          writes ++ (writeOn name value arrayIdx (params.getParamByIdx i)).toList) := by
    funext writes i
    cases hp : params.getParamByIdx i with
    | none => simp [writeOn]
    | some paramPtr =>
      by_cases hh : paramPtr.hasParam name = true
      · simp [writeOn, hh, GpuParams.setParam]
      · simp [writeOn, hh]
  rw [hstep, foldl_append_filterMap (fun i => writeOn name value arrayIdx
    (params.getParamByIdx i))]
  have hrange : List.range params.getNumParams = [0, 1, 2, 3, 4, 5] := by
    unfold PassParameters.getNumParams
    decide
  rw [hrange]
  simp [PassParameters.stages, PassParameters.getParamByIdx, List.filterMap_cons]

/-- C21: `Material::setParam(name, value, arrayIdx)` makes exactly the writes
`setParam(name, value, arrayIdx)` on the parameter sets of the material, pass after pass
and stage 0 to 5 within a pass, that are not null and have the parameter: one write for
each such set and none on any other. -/
theorem setParam_fans_out {El : MaterialValueKind → Type} {V : Type} (m : Material El)
    (name : String) (value : V) (arrayIdx : Nat) (writes : List (ParamWrite V)) :
    m.setParam name value arrayIdx writes
      = writes ++ m.parameterSets.filterMap (writeOn name value arrayIdx) := by
  unfold Material.setParam Material.parameterSets
  generalize m.mParametersPerPass = passes
  induction passes generalizing writes with
  | nil => simp
  | cons p rest ih =>
    rw [List.foldl_cons, setParam_pass, ih]
    simp [List.filterMap_append]

/-- C21 on `sampleMaterial`, where `x` is declared in three sets over two passes: one write
on each of the sets 1, 2 and 4, in that order, with the value and index passed. -/
theorem setParam_fans_out_witness :
    (sampleMaterial.setParam "x" (7 : Int) 2 []).map
        (fun w => (w.params.id, w.name, w.value, w.arrayIdx))
      = [(1, "x", 7, 2), (2, "x", 7, 2), (4, "x", 7, 2)] :=
  (congrArg (List.map fun w => (w.params.id, w.name, w.value, w.arrayIdx))
    (setParam_fans_out sampleMaterial "x" (7 : Int) 2 [])).trans (by decide)

/-- C23: on a material with a shader, for every value kind (the seven data kinds float,
vec2, vec3, vec4, mat3, mat4 and struct blob among them), every name valid for the kind
and every array index, the setter called with a value `v` succeeds and the getter of
the same kind, called on the same name and index afterwards, returns `v`. -/
theorem set_then_get_returns_value {El : MaterialValueKind → Type}
    (kind : MaterialValueKind) (name : String) (v : El kind) (arrayIdx : Nat)
    (m : Material El) (writes : List (ParamWrite (Σ kind : MaterialValueKind, El kind)))
    (gpuVarName : String)
    (hshader : m.mShader ≠ none)
    (hvalid : m.validName kind name = some gpuVarName) :
    (Material.setValue kind name v arrayIdx m writes).error = none ∧
    Material.getValue kind name arrayIdx
        (Material.setValue kind name v arrayIdx m writes).material
      = Except.ok v := by
  have hinit : m.throwIfNotInitialized = Except.ok () := by
    unfold Material.throwIfNotInitialized
    rw [if_neg hshader]
  have hset : Material.setValue kind name v arrayIdx m writes
      = { error := none
          material :=
            { m with
              values := fun kind1 name1 arrayIdx1 =>
                if h : kind = kind1 then
                  if name1 = name ∧ arrayIdx1 = arrayIdx then some (h ▸ v)
                  else m.values kind1 name1 arrayIdx1
                else m.values kind1 name1 arrayIdx1 }
          writes := m.setParam gpuVarName (⟨kind, v⟩ : Σ kind, El kind) arrayIdx writes } := by
    unfold Material.setValue
    rw [hinit]
    simp only [hvalid]
  rw [hset]
  refine ⟨rfl, ?_⟩
  unfold Material.getValue
  have hinit2 : Material.throwIfNotInitialized
      { m with
        values := fun kind1 name1 arrayIdx1 =>
          if h : kind = kind1 then
            if name1 = name ∧ arrayIdx1 = arrayIdx then some (h ▸ v)
            else m.values kind1 name1 arrayIdx1
          else m.values kind1 name1 arrayIdx1 } = Except.ok () := by
    unfold Material.throwIfNotInitialized
    rw [if_neg hshader]
  have hvalid2 : Material.validName
      { m with
        values := fun kind1 name1 arrayIdx1 =>
          if h : kind = kind1 then
            if name1 = name ∧ arrayIdx1 = arrayIdx then some (h ▸ v)
            else m.values kind1 name1 arrayIdx1
          else m.values kind1 name1 arrayIdx1 } kind name = some gpuVarName := hvalid
  simp only [hinit2, hvalid2]
  simp

/-- C23 on `sampleMaterial`: `setFloat("x", 42, 3)` then `getFloat("x", 3)`, and
`setVec2("tint", (1, 2))` then `getVec2("tint")`. -/
theorem set_then_get_returns_value_witness :
    Material.getValue MaterialValueKind.Float "x" 3
        (Material.setValue MaterialValueKind.Float "x" (42 : Int) 3 sampleMaterial
          []).material
      = Except.ok (42 : Int) ∧
    Material.getValue MaterialValueKind.Vec2 "tint" 0
        (Material.setValue MaterialValueKind.Vec2 "tint" ((1, 2) : Int × Int) 0
          sampleMaterial []).material
      = Except.ok ((1, 2) : Int × Int) :=
  ⟨(@set_then_get_returns_value SampleValue MaterialValueKind.Float "x" (42 : Int) 3
      sampleMaterial [] "x" (by decide) (by decide)).2,
   (@set_then_get_returns_value SampleValue MaterialValueKind.Vec2 "tint"
      ((1, 2) : Int × Int) 0 sampleMaterial [] "y" (by decide) (by decide)).2⟩

/-- C24: on a material without shader every setter throws the "uninitialized material"
exception and leaves the material and the GPU parameter sets as they were, and every
getter throws the same exception; this for every kind, name, value and array index. -/
theorem accessors_need_shader {El : MaterialValueKind → Type} (m : Material El)
    (hshader : m.mShader = none) :
    (∀ (kind : MaterialValueKind) (name : String) (v : El kind) (arrayIdx : Nat)
      (writes : List (ParamWrite (Σ kind : MaterialValueKind, El kind))),
      (Material.setValue kind name v arrayIdx m writes).error
        = some materialNotInitializedException ∧
      (Material.setValue kind name v arrayIdx m writes).material = m ∧
      (Material.setValue kind name v arrayIdx m writes).writes = writes) ∧
    (∀ (kind : MaterialValueKind) (name : String) (arrayIdx : Nat),
      Material.getValue kind name arrayIdx m
        = Except.error materialNotInitializedException) := by
  have hinit : m.throwIfNotInitialized = Except.error materialNotInitializedException := by
    unfold Material.throwIfNotInitialized
    rw [if_pos hshader]
  refine ⟨?_, ?_⟩
  · intro kind name v arrayIdx writes
    unfold Material.setValue
    rw [hinit]
    exact ⟨rfl, rfl, rfl⟩
  · intro kind name arrayIdx
    unfold Material.getValue
    rw [hinit]

/-- C24 on `shaderlessMaterial`: `setFloat` and `setTexture` throw and write nothing, and
`getSamplerState` throws. -/
theorem accessors_need_shader_witness :
    (Material.setValue MaterialValueKind.Float "x" (42 : Int) 0 shaderlessMaterial
      []).error = some materialNotInitializedException ∧
    (Material.setValue MaterialValueKind.Texture "albedo" (9 : Nat) 0 shaderlessMaterial
      []).writes = [] ∧
    Material.getValue MaterialValueKind.SamplerState "albedo" 0 shaderlessMaterial
      = Except.error materialNotInitializedException :=
  have h := @accessors_need_shader SampleValue shaderlessMaterial rfl
  ⟨(h.1 MaterialValueKind.Float "x" (42 : Int) 0 []).1,
   (h.1 MaterialValueKind.Texture "albedo" (9 : Nat) 0 []).2.2,
   h.2 MaterialValueKind.SamplerState "albedo" 0⟩

end BansheeEngine
